import Mathlib

/-!
# VM Operator: v1alpha1 <-> v1alpha4 conversion of VirtualMachine

A shallow embedding of the hand-written conversion functions of
`api/v1alpha1/virtualmachine_conversion.go` and the properties the design document states
about them.

Go strings are `String`; a Go pointer into the condition slice is the index of the element;
a conversion that can return an error returns `Except`.  The string constants of the two API
packages are declared in the `*_types.go` files, which are not embedded here, so every
function takes them as parameters: `v1alpha1.Consts` for the package being converted and
`vmopv1.Consts` for the hub package (imported as `vmopv1` by the Go file).
-/

namespace VMOperator

/-! ## Constants of the two API packages -/

namespace v1alpha1

/-- The constants of package `v1alpha1` that the conversion functions mention. -/
structure Consts where
  VirtualMachinePoweredOff : String
  VirtualMachinePoweredOn : String
  VirtualMachineSuspended : String
  VirtualMachinePowerOpModeHard : String
  VirtualMachinePowerOpModeSoft : String
  VirtualMachinePowerOpModeTrySoft : String
  VirtualMachinePrereqReadyCondition : String
  VirtualMachineClassNotFoundReason : String
  VirtualMachineImageNotFoundReason : String
  VirtualMachineClassBindingNotFoundReason : String
  VirtualMachineImageNotReadyReason : String
  ContentSourceBindingNotFoundReason : String
  ContentLibraryProviderNotFoundReason : String
  ConditionSeverityError : String
  PauseAnnotation : String
  VirtualMachineMetadataExtraConfigTransport : String
  VirtualMachineMetadataOvfEnvTransport : String
  VirtualMachineMetadataVAppConfigTransport : String
  VirtualMachineMetadataCloudInitTransport : String
  VirtualMachineMetadataSysprepTransport : String
  Creating : String
  Created : String
  Unknown : String

end v1alpha1

namespace vmopv1

/-- The constants of the hub package (`api/v1alpha4`) that the conversion functions mention. -/
structure Consts where
  VirtualMachinePowerStateOff : String
  VirtualMachinePowerStateOn : String
  VirtualMachinePowerStateSuspended : String
  VirtualMachinePowerOpModeHard : String
  VirtualMachinePowerOpModeSoft : String
  VirtualMachinePowerOpModeTrySoft : String
  VirtualMachineConditionClassReady : String
  VirtualMachineConditionImageReady : String
  VirtualMachineConditionVMSetResourcePolicyReady : String
  VirtualMachineConditionBootstrapReady : String
  VirtualMachineConditionCreated : String
  VirtualMachineStorageDiskTypeClassic : String
  V1alpha1ConfigMapTransportAnnotation : String
  PauseAnnotation : String

end vmopv1

/-- Modelled from the spec: the declarations of the `v1alpha1` constants
(`api/v1alpha1/*_types.go`) are not among the source files.  The spec names the legacy power
state spelling "poweredOff" and the phases Unknown, Creating and Created; the other values are
the ones of the upstream declarations.  The general theorems below hold for every table of
constants; this table serves the concrete evaluations. -/
def v1alpha1.consts : v1alpha1.Consts where
  VirtualMachinePoweredOff := "poweredOff"
  VirtualMachinePoweredOn := "poweredOn"
  VirtualMachineSuspended := "suspended"
  VirtualMachinePowerOpModeHard := "hard"
  VirtualMachinePowerOpModeSoft := "soft"
  VirtualMachinePowerOpModeTrySoft := "trySoft"
  VirtualMachinePrereqReadyCondition := "VirtualMachinePrereqReady"
  VirtualMachineClassNotFoundReason := "VirtualMachineClassNotFound"
  VirtualMachineImageNotFoundReason := "VirtualMachineImageNotFound"
  VirtualMachineClassBindingNotFoundReason := "VirtualMachineClassBindingNotFound"
  VirtualMachineImageNotReadyReason := "VirtualMachineImageNotReady"
  ContentSourceBindingNotFoundReason := "ContentSourceBindingNotFound"
  ContentLibraryProviderNotFoundReason := "ContentLibraryProviderNotFound"
  ConditionSeverityError := "Error"
  PauseAnnotation := "vmoperator.vmware.com/pause-reconcile"
  VirtualMachineMetadataExtraConfigTransport := "ExtraConfig"
  VirtualMachineMetadataOvfEnvTransport := "OvfEnv"
  VirtualMachineMetadataVAppConfigTransport := "vAppConfig"
  VirtualMachineMetadataCloudInitTransport := "CloudInit"
  VirtualMachineMetadataSysprepTransport := "Sysprep"
  Creating := "Creating"
  Created := "Created"
  Unknown := "Unknown"

/-- Modelled from the spec: the declarations of the hub constants (`api/v1alpha4/*_types.go`)
are not among the source files.  The spec calls the hub values "new strongly-typed enum
constants" that differ from the legacy spellings; the values are the ones of the upstream
declarations. -/
def vmopv1.consts : vmopv1.Consts where
  VirtualMachinePowerStateOff := "PoweredOff"
  VirtualMachinePowerStateOn := "PoweredOn"
  VirtualMachinePowerStateSuspended := "Suspended"
  VirtualMachinePowerOpModeHard := "Hard"
  VirtualMachinePowerOpModeSoft := "Soft"
  VirtualMachinePowerOpModeTrySoft := "TrySoft"
  VirtualMachineConditionClassReady := "VirtualMachineClassReady"
  VirtualMachineConditionImageReady := "VirtualMachineImageReady"
  VirtualMachineConditionVMSetResourcePolicyReady :=
    "VirtualMachineConditionVMSetResourcePolicyReady"
  VirtualMachineConditionBootstrapReady := "VirtualMachineBootstrapReady"
  VirtualMachineConditionCreated := "VirtualMachineCreated"
  VirtualMachineStorageDiskTypeClassic := "Classic"
  V1alpha1ConfigMapTransportAnnotation := "vmoperator.vmware.com/v1a1-configmap-md-transport"
  PauseAnnotation := "vmoperator.vmware.com/paused"

/-- The case constants of each power-state `switch` are pairwise distinct (the Go compiler
rejects a `switch` with a duplicate constant case). -/
def PowerStatesDistinct (a : v1alpha1.Consts) (v : vmopv1.Consts) : Prop :=
  [a.VirtualMachinePoweredOff, a.VirtualMachinePoweredOn, a.VirtualMachineSuspended].Nodup ∧
  [v.VirtualMachinePowerStateOff, v.VirtualMachinePowerStateOn,
    v.VirtualMachinePowerStateSuspended].Nodup

/-- The case constants of each power-op-mode `switch` are pairwise distinct. -/
def PowerOpModesDistinct (a : v1alpha1.Consts) (v : vmopv1.Consts) : Prop :=
  [a.VirtualMachinePowerOpModeHard, a.VirtualMachinePowerOpModeSoft,
    a.VirtualMachinePowerOpModeTrySoft].Nodup ∧
  [v.VirtualMachinePowerOpModeHard, v.VirtualMachinePowerOpModeSoft,
    v.VirtualMachinePowerOpModeTrySoft].Nodup

/-! ## Enum remaps -/

/-- Go: `convert_v1alpha1_VirtualMachinePowerState_To_v1alpha4_VirtualMachinePowerState`. -/
def convert_v1alpha1_VirtualMachinePowerState_To_v1alpha4_VirtualMachinePowerState
    (a : v1alpha1.Consts) (v : vmopv1.Consts) (inp : String) : String :=
  if inp = a.VirtualMachinePoweredOff then v.VirtualMachinePowerStateOff
  else if inp = a.VirtualMachinePoweredOn then v.VirtualMachinePowerStateOn
  else if inp = a.VirtualMachineSuspended then v.VirtualMachinePowerStateSuspended
  else inp

/-- Go: `convert_v1alpha4_VirtualMachinePowerState_To_v1alpha1_VirtualMachinePowerState`. -/
def convert_v1alpha4_VirtualMachinePowerState_To_v1alpha1_VirtualMachinePowerState
    (a : v1alpha1.Consts) (v : vmopv1.Consts) (inp : String) : String :=
  if inp = v.VirtualMachinePowerStateOff then a.VirtualMachinePoweredOff
  else if inp = v.VirtualMachinePowerStateOn then a.VirtualMachinePoweredOn
  else if inp = v.VirtualMachinePowerStateSuspended then a.VirtualMachineSuspended
  else inp

/-- Go: `convert_v1alpha1_VirtualMachinePowerOpMode_To_v1alpha4_VirtualMachinePowerOpMode`. -/
def convert_v1alpha1_VirtualMachinePowerOpMode_To_v1alpha4_VirtualMachinePowerOpMode
    (a : v1alpha1.Consts) (v : vmopv1.Consts) (inp : String) : String :=
  if inp = a.VirtualMachinePowerOpModeHard then v.VirtualMachinePowerOpModeHard
  else if inp = a.VirtualMachinePowerOpModeSoft then v.VirtualMachinePowerOpModeSoft
  else if inp = a.VirtualMachinePowerOpModeTrySoft then v.VirtualMachinePowerOpModeTrySoft
  else inp

/-- Go: `convert_v1alpha4_VirtualMachinePowerOpMode_To_v1alpha1_VirtualMachinePowerOpMode`. -/
def convert_v1alpha4_VirtualMachinePowerOpMode_To_v1alpha1_VirtualMachinePowerOpMode
    (a : v1alpha1.Consts) (v : vmopv1.Consts) (inp : String) : String :=
  if inp = v.VirtualMachinePowerOpModeHard then a.VirtualMachinePowerOpModeHard
  else if inp = v.VirtualMachinePowerOpModeSoft then a.VirtualMachinePowerOpModeSoft
  else if inp = v.VirtualMachinePowerOpModeTrySoft then a.VirtualMachinePowerOpModeTrySoft
  else inp

/-! ## Conditions -/

namespace corev1

/-- Kubernetes `corev1.ConditionTrue`. -/
def ConditionTrue : String := "True"

/-- Kubernetes `corev1.ConditionFalse`. -/
def ConditionFalse : String := "False"

/-- Kubernetes `corev1.ConditionUnknown`. -/
def ConditionUnknown : String := "Unknown"

end corev1

namespace metav1

/-- Kubernetes `metav1.Time`: a timestamp that the conversion only copies; `0` is the zero
time. -/
abbrev Time := Nat

/-- Kubernetes `metav1.ConditionTrue`. -/
def ConditionTrue : String := "True"

/-- Kubernetes `metav1.ConditionFalse`. -/
def ConditionFalse : String := "False"

/-- Kubernetes `metav1.ConditionUnknown`. -/
def ConditionUnknown : String := "Unknown"

/-- Kubernetes `metav1.Condition`, the element of the hub condition list. -/
structure Condition where
  Type_ : String := ""
  Status : String := ""
  ObservedGeneration : Int := 0
  LastTransitionTime : Time := 0
  Reason : String := ""
  Message : String := ""
  deriving DecidableEq, Repr

end metav1

namespace v1alpha1

/-- Modelled from the spec: the declaration of the `v1alpha1` `Condition` struct
(`api/v1alpha1/condition_types.go`) is not among the source files.  The fields are the ones of
the spec's data model (Type, written `Type_` here, Status, Reason, Message, LastTransitionTime) and `Severity`,
which `translate_v1alpha4_Conditions_To_v1alpha1_Conditions` assigns.  The default of every
field is the Go zero value. -/
structure Condition where
  Type_ : String := ""
  Status : String := ""
  Severity : String := ""
  LastTransitionTime : metav1.Time := 0
  Reason : String := ""
  Message : String := ""
  deriving DecidableEq, Repr

end v1alpha1

/-- The case constants of the `switch c.Type` of the condition translation are pairwise
distinct (the Go compiler rejects a `switch` with a duplicate constant case). -/
def ConditionTypesDistinct (a : v1alpha1.Consts) (v : vmopv1.Consts) : Prop :=
  [a.VirtualMachinePrereqReadyCondition, v.VirtualMachineConditionClassReady,
    v.VirtualMachineConditionImageReady, v.VirtualMachineConditionVMSetResourcePolicyReady,
    v.VirtualMachineConditionBootstrapReady].Nodup

/-- The two reasons the translation assigns are not the empty string, which the code uses as
"no reason was set". -/
def ReasonsNonEmpty (a : v1alpha1.Consts) : Prop :=
  a.VirtualMachineClassNotFoundReason ≠ "" ∧ a.VirtualMachineImageNotFoundReason ≠ ""

/-- The three phase values are pairwise distinct. -/
def PhasesDistinct (a : v1alpha1.Consts) : Prop :=
  [a.Unknown, a.Creating, a.Created].Nodup

/-- The five pointer variables of `translate_v1alpha4_Conditions_To_v1alpha1_Conditions`
(`var preReqCond, vmClassCond, ... *Condition`); `none` is `nil`, `some i` is
`&conditions[i]`. -/
structure CondPtrs where
  preReqCond : Option Nat := none
  vmClassCond : Option Nat := none
  vmImageCond : Option Nat := none
  vmSetResourcePolicyCond : Option Nat := none
  vmBootstrapCond : Option Nat := none
  deriving DecidableEq, Repr

/-- One iteration of the classification loop: `c := &conditions[i]; switch c.Type { ... }`. -/
def classifyStep (a : v1alpha1.Consts) (v : vmopv1.Consts) (i : Nat) (c : v1alpha1.Condition)
    (p : CondPtrs) : CondPtrs :=
  if c.Type_ = a.VirtualMachinePrereqReadyCondition then { p with preReqCond := some i }
  else if c.Type_ = v.VirtualMachineConditionClassReady then { p with vmClassCond := some i }
  else if c.Type_ = v.VirtualMachineConditionImageReady then { p with vmImageCond := some i }
  else if c.Type_ = v.VirtualMachineConditionVMSetResourcePolicyReady then
    { p with vmSetResourcePolicyCond := some i }
  else if c.Type_ = v.VirtualMachineConditionBootstrapReady then
    { p with vmBootstrapCond := some i }
  else p

/-- The loop `for i := range conditions`, run on the elements from index `i` on. -/
def classifyFrom (a : v1alpha1.Consts) (v : vmopv1.Consts) :
    List v1alpha1.Condition → Nat → CondPtrs → CondPtrs
  | [], _, p => p
  | c :: rest, i, p => classifyFrom a v rest (i + 1) (classifyStep a v i c p)

/-- The whole classification loop, from all pointers `nil`. -/
def classify (a : v1alpha1.Consts) (v : vmopv1.Consts) (conditions : List v1alpha1.Condition) :
    CondPtrs :=
  classifyFrom a v conditions 0 {}

/-- Dereference of a pointer into the slice.  Every use below is guarded by the pointer's
`!= nil` test, and a non-nil pointer is an index of the slice. -/
def deref (conditions : List v1alpha1.Condition) (p : Option Nat) : v1alpha1.Condition :=
  match p with
  | some i => conditions.getD i {}
  | none => {}

/-- Go: `p != nil && p.Status == s`. -/
def ptrStatusIs (conditions : List v1alpha1.Condition) (p : Option Nat) (s : String) : Bool :=
  match p with
  | some _ => (deref conditions p).Status == s
  | none => false

/-- Go: `p == nil || p.Status == s`. -/
def nilOrStatusIs (conditions : List v1alpha1.Condition) (p : Option Nat) (s : String) : Bool :=
  match p with
  | some _ => (deref conditions p).Status == s
  | none => true

/-- Go: `if preReqCond != nil { *preReqCond = p; return conditions }; return
append(conditions, p)`. -/
def storePrereq (conditions : List v1alpha1.Condition) (preReqCond : Option Nat)
    (p : v1alpha1.Condition) : List v1alpha1.Condition :=
  match preReqCond with
  | some i => conditions.set i p
  | none => conditions ++ [p]

/-- Go: `translate_v1alpha4_Conditions_To_v1alpha1_Conditions`. -/
def translate_v1alpha4_Conditions_To_v1alpha1_Conditions (a : v1alpha1.Consts)
    (v : vmopv1.Consts) (conditions : List v1alpha1.Condition) : List v1alpha1.Condition :=
  let ptrs := classify a v conditions
  if ptrStatusIs conditions ptrs.vmClassCond corev1.ConditionTrue &&
      ptrStatusIs conditions ptrs.vmImageCond corev1.ConditionTrue &&
      nilOrStatusIs conditions ptrs.vmSetResourcePolicyCond corev1.ConditionTrue &&
      nilOrStatusIs conditions ptrs.vmBootstrapCond corev1.ConditionTrue then
    let p : v1alpha1.Condition :=
      { Type_ := a.VirtualMachinePrereqReadyCondition, Status := corev1.ConditionTrue }
    match ptrs.preReqCond with
    | some i =>
      conditions.set i
        { p with LastTransitionTime := (deref conditions (some i)).LastTransitionTime }
    | none =>
      conditions ++
        [{ p with LastTransitionTime := (deref conditions ptrs.vmImageCond).LastTransitionTime }]
  else
    let p : v1alpha1.Condition :=
      { Type_ := a.VirtualMachinePrereqReadyCondition, Status := corev1.ConditionFalse,
        Severity := a.ConditionSeverityError }
    let p : v1alpha1.Condition :=
      if ptrStatusIs conditions ptrs.vmClassCond corev1.ConditionFalse then
        { p with
          Reason := a.VirtualMachineClassNotFoundReason,
          Message := (deref conditions ptrs.vmClassCond).Message,
          LastTransitionTime := (deref conditions ptrs.vmClassCond).LastTransitionTime }
      else if ptrStatusIs conditions ptrs.vmImageCond corev1.ConditionFalse then
        { p with
          Reason := a.VirtualMachineImageNotFoundReason,
          Message := (deref conditions ptrs.vmImageCond).Message,
          LastTransitionTime := (deref conditions ptrs.vmImageCond).LastTransitionTime }
      else p
    if p.Reason ≠ "" then
      storePrereq conditions ptrs.preReqCond p
    else if ptrStatusIs conditions ptrs.vmSetResourcePolicyCond corev1.ConditionFalse &&
        ptrStatusIs conditions ptrs.vmBootstrapCond corev1.ConditionFalse then
      conditions
    else
      conditions

/-- Go: `convert_v1alpha4_Conditions_To_v1alpha1_Phase`. -/
def convert_v1alpha4_Conditions_To_v1alpha1_Phase (a : v1alpha1.Consts) (v : vmopv1.Consts) :
    List metav1.Condition → String
  | [] => a.Unknown
  | c :: rest =>
    if c.Type_ = v.VirtualMachineConditionCreated then
      if c.Status = metav1.ConditionTrue then a.Created else a.Creating
    else convert_v1alpha4_Conditions_To_v1alpha1_Phase a v rest

/-! ## Status -/

namespace vmopv1

/-- Hub `VirtualMachineNetworkInterfaceIPAddrStatus`, with the field the conversion reads. -/
structure VirtualMachineNetworkInterfaceIPAddrStatus where
  Address : String := ""
  deriving DecidableEq, Repr

/-- Hub `VirtualMachineNetworkInterfaceIPStatus`, with the fields the conversion reads. -/
structure VirtualMachineNetworkInterfaceIPStatus where
  Addresses : List VirtualMachineNetworkInterfaceIPAddrStatus := []
  MACAddr : String := ""
  deriving DecidableEq, Repr

/-- Hub `VirtualMachineNetworkInterfaceStatus`, with the field the conversion reads. -/
structure VirtualMachineNetworkInterfaceStatus where
  IP : Option VirtualMachineNetworkInterfaceIPStatus := none
  deriving DecidableEq, Repr

/-- Hub `VirtualMachineNetworkStatus`, with the fields the conversion reads. -/
structure VirtualMachineNetworkStatus where
  Interfaces : List VirtualMachineNetworkInterfaceStatus := []
  PrimaryIP4 : String := ""
  PrimaryIP6 : String := ""
  HostName : String := ""
  deriving DecidableEq, Repr

/-- Hub `VirtualMachineVolumeStatus`, with the fields the conversion reads. -/
structure VirtualMachineVolumeStatus where
  Name : String := ""
  Type_ : String := ""
  DiskUUID : String := ""
  deriving DecidableEq, Repr

/-- Hub `VirtualMachineStatus`, with the fields that
`Convert_v1alpha4_VirtualMachineStatus_To_v1alpha1_VirtualMachineStatus` reads. -/
structure VirtualMachineStatus where
  NodeName : String := ""
  PowerState : String := ""
  Conditions : List metav1.Condition := []
  Network : Option VirtualMachineNetworkStatus := none
  Volumes : List VirtualMachineVolumeStatus := []
  LastRestartTime : Option metav1.Time := none
  deriving DecidableEq, Repr

end vmopv1

namespace v1alpha1

/-- Package `v1alpha1`: `NetworkInterfaceStatus`. -/
structure NetworkInterfaceStatus where
  Connected : Bool := false
  MacAddress : String := ""
  IpAddresses : List String := []
  deriving DecidableEq, Repr

/-- Package `v1alpha1`: `VirtualMachineVolumeStatus`, with the fields the conversion
writes. -/
structure VirtualMachineVolumeStatus where
  Name : String := ""
  DiskUuid : String := ""
  deriving DecidableEq, Repr

/-- Package `v1alpha1`: `VirtualMachineStatus`, with the fields that
`Convert_v1alpha4_VirtualMachineStatus_To_v1alpha1_VirtualMachineStatus` writes. -/
structure VirtualMachineStatus where
  Host : String := ""
  PowerState : String := ""
  Phase : String := ""
  Conditions : List Condition := []
  VmIp : String := ""
  Volumes : List VirtualMachineVolumeStatus := []
  NetworkInterfaces : List NetworkInterfaceStatus := []
  LastRestartTime : Option metav1.Time := none
  HostName : String := ""
  deriving DecidableEq, Repr

end v1alpha1

/-- The generated conversion functions (`zz_generated.conversion.go`, not among the source
files) that the hand-written status conversion calls.  Each takes the source and the current
value of `out` and returns the new value of `out`, or an error. -/
structure Generated where
  autoConvert_v1alpha4_VirtualMachineStatus_To_v1alpha1_VirtualMachineStatus :
    vmopv1.VirtualMachineStatus → v1alpha1.VirtualMachineStatus →
      Except String v1alpha1.VirtualMachineStatus
  autoConvert_v1alpha4_VirtualMachineVolumeStatus_To_v1alpha1_VirtualMachineVolumeStatus :
    vmopv1.VirtualMachineVolumeStatus → v1alpha1.VirtualMachineVolumeStatus →
      Except String v1alpha1.VirtualMachineVolumeStatus

/-- Go: `convert_v1alpha4_NetworkStatus_To_v1alpha1_Network`. -/
def convert_v1alpha4_NetworkStatus_To_v1alpha1_Network
    (inp : Option vmopv1.VirtualMachineNetworkStatus) :
    String × List v1alpha1.NetworkInterfaceStatus :=
  match inp with
  | none => ("", [])
  | some n =>
    let vmIP := if n.PrimaryIP4 = "" then n.PrimaryIP6 else n.PrimaryIP4
    let out := n.Interfaces.map fun i =>
      match i.IP with
      | some ip =>
        { Connected := true, MacAddress := ip.MACAddr,
          IpAddresses := ip.Addresses.map fun x => x.Address }
      | none => { Connected := true }
    (vmIP, out)

/-- Go: `Convert_v1alpha4_VirtualMachineVolumeStatus_To_v1alpha1_VirtualMachineVolumeStatus`. -/
def Convert_v1alpha4_VirtualMachineVolumeStatus_To_v1alpha1_VirtualMachineVolumeStatus
    (g : Generated) (inp : vmopv1.VirtualMachineVolumeStatus)
    (out : v1alpha1.VirtualMachineVolumeStatus) :
    Except String v1alpha1.VirtualMachineVolumeStatus :=
  g.autoConvert_v1alpha4_VirtualMachineVolumeStatus_To_v1alpha1_VirtualMachineVolumeStatus inp
    { out with DiskUuid := inp.DiskUUID }

/-- The loop over `in.Volumes` of the status down-conversion: only the volumes that are not
of the classic disk type are converted and appended to `acc`. -/
def convertVolumeStatuses (v : vmopv1.Consts) (g : Generated) :
    List vmopv1.VirtualMachineVolumeStatus → List v1alpha1.VirtualMachineVolumeStatus →
      Except String (List v1alpha1.VirtualMachineVolumeStatus)
  | [], acc => .ok acc
  | x :: rest, acc =>
    if x.Type_ ≠ v.VirtualMachineStorageDiskTypeClassic then
      match Convert_v1alpha4_VirtualMachineVolumeStatus_To_v1alpha1_VirtualMachineVolumeStatus
          g x {} with
      | .error e => .error e
      | .ok vol => convertVolumeStatuses v g rest (acc ++ [vol])
    else convertVolumeStatuses v g rest acc

/-- Go: `Convert_v1alpha4_VirtualMachineStatus_To_v1alpha1_VirtualMachineStatus`. -/
def Convert_v1alpha4_VirtualMachineStatus_To_v1alpha1_VirtualMachineStatus
    (a : v1alpha1.Consts) (v : vmopv1.Consts) (g : Generated)
    (inp : vmopv1.VirtualMachineStatus) (out : v1alpha1.VirtualMachineStatus) :
    Except String v1alpha1.VirtualMachineStatus :=
  match g.autoConvert_v1alpha4_VirtualMachineStatus_To_v1alpha1_VirtualMachineStatus inp out with
  | .error e => .error e
  | .ok out =>
    let out := { out with
      PowerState :=
        convert_v1alpha4_VirtualMachinePowerState_To_v1alpha1_VirtualMachinePowerState a v
          inp.PowerState }
    let out := { out with Phase := convert_v1alpha4_Conditions_To_v1alpha1_Phase a v inp.Conditions }
    let net := convert_v1alpha4_NetworkStatus_To_v1alpha1_Network inp.Network
    let out := { out with VmIp := net.1, NetworkInterfaces := net.2 }
    let out := { out with LastRestartTime := inp.LastRestartTime }
    let out := { out with
      Conditions := translate_v1alpha4_Conditions_To_v1alpha1_Conditions a v out.Conditions }
    match convertVolumeStatuses v g inp.Volumes [] with
    | .error e => .error e
    | .ok vols =>
      let out := { out with Volumes := vols }
      let out := { out with Host := inp.NodeName }
      match inp.Network with
      | some n => .ok { out with HostName := n.HostName }
      | none => .ok out

/-- A stand-in for the generated functions, used for the concrete evaluations: the status
function copies each condition field by field and the volume function copies the name;
neither fails. -/
def Generated.copying : Generated where
  autoConvert_v1alpha4_VirtualMachineStatus_To_v1alpha1_VirtualMachineStatus := fun inp out =>
    .ok { out with
      Conditions := inp.Conditions.map fun c =>
        { Type_ := c.Type_, Status := c.Status, LastTransitionTime := c.LastTransitionTime,
          Reason := c.Reason, Message := c.Message } }
  autoConvert_v1alpha4_VirtualMachineVolumeStatus_To_v1alpha1_VirtualMachineVolumeStatus :=
    fun inp out => .ok { out with Name := inp.Name }

/-! ## The VirtualMachine objects -/

/-- A sub-object or value that the conversion only copies or tests against nil, never reads:
its content is kept as an uninterpreted value. -/
abbrev Uninterpreted := String

/-- A Go `map[string]string` of annotations, as the lookup function: `m k = some x` is
`x, ok := m[k]` with `ok` true.  A nil map and an empty map are the same function. -/
abbrev Annotations := String → Option String

/-- Go: `m[k] = x`. -/
def Annotations.set (m : Annotations) (k x : String) : Annotations :=
  fun y => if y = k then some x else m y

/-- Go: `delete(m, k)`. -/
def Annotations.delete (m : Annotations) (k : String) : Annotations :=
  fun y => if y = k then none else m y

/-- Kubernetes `metav1.ObjectMeta`, with the fields the conversion reads. -/
structure ObjectMeta where
  Generation : Int := 0
  Annotations : Annotations := fun _ => none

namespace vmopv1

/-- Hub `common.SecretKeySelector`. -/
structure SecretKeySelector where
  Name : String := ""
  Key : String := ""
  deriving DecidableEq, Repr

/-- Hub `common.PartialObjectRef`, with its `TypeMeta` fields inlined. -/
structure PartialObjectRef where
  APIVersion : String := ""
  Kind : String := ""
  Name : String := ""
  deriving DecidableEq, Repr

/-- Hub `VirtualMachineImageRef`. -/
structure VirtualMachineImageRef where
  Kind : String := ""
  Name : String := ""
  deriving DecidableEq, Repr

/-- Hub `VirtualMachineBootstrapCloudInitSpec`. -/
structure VirtualMachineBootstrapCloudInitSpec where
  InstanceID : String := ""
  CloudConfig : Option Uninterpreted := none
  RawCloudConfig : Option SecretKeySelector := none
  SSHAuthorizedKeys : List String := []
  UseGlobalNameserversAsDefault : Option Bool := none
  UseGlobalSearchDomainsAsDefault : Option Bool := none
  WaitOnNetwork4 : Option Bool := none
  WaitOnNetwork6 : Option Bool := none
  deriving DecidableEq, Repr

/-- Hub `VirtualMachineBootstrapLinuxPrepSpec`. -/
structure VirtualMachineBootstrapLinuxPrepSpec where
  HardwareClockIsUTC : Option Bool := none
  TimeZone : String := ""
  deriving DecidableEq, Repr

/-- Hub `VirtualMachineBootstrapSysprepSpec`. -/
structure VirtualMachineBootstrapSysprepSpec where
  Sysprep : Option Uninterpreted := none
  RawSysprep : Option SecretKeySelector := none
  deriving DecidableEq, Repr

/-- Hub `VirtualMachineBootstrapVAppConfigSpec`. -/
structure VirtualMachineBootstrapVAppConfigSpec where
  Properties : List Uninterpreted := []
  RawProperties : String := ""
  deriving DecidableEq, Repr

/-- Hub `VirtualMachineBootstrapSpec`. -/
structure VirtualMachineBootstrapSpec where
  CloudInit : Option VirtualMachineBootstrapCloudInitSpec := none
  LinuxPrep : Option VirtualMachineBootstrapLinuxPrepSpec := none
  Sysprep : Option VirtualMachineBootstrapSysprepSpec := none
  VAppConfig : Option VirtualMachineBootstrapVAppConfigSpec := none
  deriving DecidableEq, Repr

/-- Hub `VirtualMachineNetworkInterfaceSpec`, with the fields the conversion writes. -/
structure VirtualMachineNetworkInterfaceSpec where
  Name : String := ""
  Network : Option PartialObjectRef := none
  deriving DecidableEq, Repr

/-- Hub `VirtualMachineNetworkSpec`, with the fields the conversion reads. -/
structure VirtualMachineNetworkSpec where
  HostName : String := ""
  DomainName : String := ""
  Disabled : Bool := false
  Nameservers : List String := []
  SearchDomains : List String := []
  Interfaces : List VirtualMachineNetworkInterfaceSpec := []
  deriving DecidableEq, Repr

/-- Hub `VirtualMachineReadinessProbeSpec`: the guest-info actions, which the restore pass
copies, and the other fields as one uninterpreted value. -/
structure VirtualMachineReadinessProbeSpec where
  GuestInfo : List Uninterpreted := []
  Rest : Uninterpreted := ""
  deriving DecidableEq, Repr

/-- Hub `VirtualMachineReservedSpec`. -/
structure VirtualMachineReservedSpec where
  ResourcePolicyName : String := ""
  deriving DecidableEq, Repr

/-- Hub `VirtualMachineSpec`, with the fields that the up-conversion and the restore pass read
or write. -/
structure VirtualMachineSpec where
  Image : Option VirtualMachineImageRef := none
  ImageName : String := ""
  Bootstrap : Option VirtualMachineBootstrapSpec := none
  Network : Option VirtualMachineNetworkSpec := none
  ReadinessProbe : Option VirtualMachineReadinessProbeSpec := none
  Reserved : Option VirtualMachineReservedSpec := none
  BiosUUID : String := ""
  InstanceUUID : String := ""
  GuestID : String := ""
  Cdrom : List Uninterpreted := []
  Crypto : Option Uninterpreted := none
  PromoteDisksMode : String := ""
  BootOptions : Option Uninterpreted := none
  Affinity : Option Uninterpreted := none
  GroupName : String := ""
  deriving DecidableEq, Repr

/-- Hub `VirtualMachine`. -/
structure VirtualMachine where
  ObjectMeta : ObjectMeta := {}
  Spec : VirtualMachineSpec := {}
  Status : VirtualMachineStatus := {}

end vmopv1

namespace v1alpha1

/-- Package `v1alpha1`: `VirtualMachineMetadata`. -/
structure VirtualMachineMetadata where
  ConfigMapName : String := ""
  SecretName : String := ""
  Transport : String := ""
  deriving DecidableEq, Repr

/-- Package `v1alpha1`: `VirtualMachineSpec`, with the fields that
`Convert_v1alpha1_VirtualMachine_To_v1alpha4_VirtualMachine` reads. -/
structure VirtualMachineSpec where
  ImageName : String := ""
  VmMetadata : Option VirtualMachineMetadata := none
  deriving DecidableEq, Repr

/-- Package `v1alpha1`: `VirtualMachine`. -/
structure VirtualMachine where
  ObjectMeta : ObjectMeta := {}
  Spec : VirtualMachineSpec := {}
  Status : VirtualMachineStatus := {}

end v1alpha1

/-! ## Up-conversion of the conditions -/

/-- One iteration of the classification loop of
`convert_v1alpha1_PreReqsReadyCondition_to_v1alpha4_Conditions`; `preReqCond` doubles as
`preReqCondIdx`, which the code sets together with it. -/
def classifyStepHub (a : v1alpha1.Consts) (v : vmopv1.Consts) (i : Nat) (c : metav1.Condition)
    (p : CondPtrs) : CondPtrs :=
  if c.Type_ = a.VirtualMachinePrereqReadyCondition then { p with preReqCond := some i }
  else if c.Type_ = v.VirtualMachineConditionClassReady then { p with vmClassCond := some i }
  else if c.Type_ = v.VirtualMachineConditionImageReady then { p with vmImageCond := some i }
  else if c.Type_ = v.VirtualMachineConditionVMSetResourcePolicyReady then
    { p with vmSetResourcePolicyCond := some i }
  else if c.Type_ = v.VirtualMachineConditionBootstrapReady then
    { p with vmBootstrapCond := some i }
  else p

/-- The loop `for i := range dst.Status.Conditions`, run on the elements from index `i` on. -/
def classifyHubFrom (a : v1alpha1.Consts) (v : vmopv1.Consts) :
    List metav1.Condition → Nat → CondPtrs → CondPtrs
  | [], _, p => p
  | c :: rest, i, p => classifyHubFrom a v rest (i + 1) (classifyStepHub a v i c p)

/-- The whole classification loop of the up-conversion, from all pointers `nil`. -/
def classifyHub (a : v1alpha1.Consts) (v : vmopv1.Consts) (conditions : List metav1.Condition) :
    CondPtrs :=
  classifyHubFrom a v conditions 0 {}

/-- Go: `dst.Spec.Reserved != nil && dst.Spec.Reserved.ResourcePolicyName != ""`. -/
def hasResourcePolicy (dst : vmopv1.VirtualMachine) : Bool :=
  match dst.Spec.Reserved with
  | some r => r.ResourcePolicyName != ""
  | none => false

/-- The conditions for the optional features that the spec requests
(`VirtualMachineConditionVMSetResourcePolicyReady` when a resource policy is named,
`VirtualMachineConditionBootstrapReady` when `Spec.Bootstrap` is set), with Status `status`
and Reason `string(status)`. -/
def optionalConditions (v : vmopv1.Consts) (dst : vmopv1.VirtualMachine) (status : String)
    (t : metav1.Time) : List metav1.Condition :=
  (if hasResourcePolicy dst then
    [{ Type_ := v.VirtualMachineConditionVMSetResourcePolicyReady, Status := status,
       LastTransitionTime := t, Reason := status }]
  else []) ++
  (if dst.Spec.Bootstrap.isSome then
    [{ Type_ := v.VirtualMachineConditionBootstrapReady, Status := status,
       LastTransitionTime := t, Reason := status }]
  else [])

/-- The conditions synthesized from the aggregate that `preReqCond` points at. -/
def synthesize (a : v1alpha1.Consts) (v : vmopv1.Consts) (dst : vmopv1.VirtualMachine)
    (preReqCond : metav1.Condition) : List metav1.Condition :=
  if preReqCond.Status = metav1.ConditionTrue then
    [{ Type_ := v.VirtualMachineConditionClassReady, Status := metav1.ConditionTrue,
       LastTransitionTime := preReqCond.LastTransitionTime, Reason := metav1.ConditionTrue },
     { Type_ := v.VirtualMachineConditionImageReady, Status := metav1.ConditionTrue,
       LastTransitionTime := preReqCond.LastTransitionTime, Reason := metav1.ConditionTrue }] ++
    optionalConditions v dst metav1.ConditionTrue preReqCond.LastTransitionTime
  else if preReqCond.Status = metav1.ConditionFalse then
    (if preReqCond.Reason = a.VirtualMachineClassNotFoundReason ∨
        preReqCond.Reason = a.VirtualMachineClassBindingNotFoundReason then
      [{ Type_ := v.VirtualMachineConditionClassReady, Status := metav1.ConditionFalse,
         LastTransitionTime := preReqCond.LastTransitionTime, Reason := preReqCond.Reason },
       { Type_ := v.VirtualMachineConditionImageReady, Status := metav1.ConditionUnknown,
         LastTransitionTime := preReqCond.LastTransitionTime,
         Reason := metav1.ConditionUnknown }]
    else if preReqCond.Reason = a.VirtualMachineImageNotFoundReason ∨
        preReqCond.Reason = a.VirtualMachineImageNotReadyReason ∨
        preReqCond.Reason = a.ContentSourceBindingNotFoundReason ∨
        preReqCond.Reason = a.ContentLibraryProviderNotFoundReason then
      [{ Type_ := v.VirtualMachineConditionClassReady, Status := metav1.ConditionTrue,
         LastTransitionTime := preReqCond.LastTransitionTime, Reason := metav1.ConditionTrue },
       { Type_ := v.VirtualMachineConditionImageReady, Status := metav1.ConditionFalse,
         LastTransitionTime := preReqCond.LastTransitionTime, Reason := preReqCond.Reason }]
    else []) ++
    optionalConditions v dst metav1.ConditionUnknown preReqCond.LastTransitionTime
  else []

/-- Go: `convert_v1alpha1_PreReqsReadyCondition_to_v1alpha4_Conditions`.

The removal `append(conds[:idx], conds[idx+1:]...)` shifts the later elements one slot to the
left inside the same backing array, whose last slot keeps its old value.  The pointer
`preReqCond` still addresses slot `idx`, so the reads of `preReqCond.Status`, `.Reason` and
`.LastTransitionTime` that follow the removal see slot `idx` of the shifted array. -/
def convert_v1alpha1_PreReqsReadyCondition_to_v1alpha4_Conditions (a : v1alpha1.Consts)
    (v : vmopv1.Consts) (dst : vmopv1.VirtualMachine) : List metav1.Condition :=
  let ptrs := classifyHub a v dst.Status.Conditions
  match ptrs.preReqCond with
  | none => dst.Status.Conditions
  | some preReqCondIdx =>
    let removed := dst.Status.Conditions.eraseIdx preReqCondIdx
    let backing := removed ++ dst.Status.Conditions.getLast?.toList
    if ptrs.vmClassCond.isSome || ptrs.vmImageCond.isSome ||
        ptrs.vmSetResourcePolicyCond.isSome || ptrs.vmBootstrapCond.isSome then
      removed
    else
      removed ++ synthesize a v dst (backing.getD preReqCondIdx {})

/-- Modelled from the spec: the conversion of a `v1alpha1` condition to a hub condition
(`Convert_v1alpha1_Condition_To_v1_Condition`, which the generated code calls) is not among
the source files.  It copies the five fields of the spec's data model (Type, Status, Reason,
Message, LastTransitionTime); `ObservedGeneration`, which a `v1alpha1` condition does not
have, keeps its zero value. -/
def Convert_v1alpha1_Condition_To_v1_Condition (c : v1alpha1.Condition) : metav1.Condition :=
  { Type_ := c.Type_, Status := c.Status, LastTransitionTime := c.LastTransitionTime,
    Reason := c.Reason, Message := c.Message }

/-- Modelled from the spec: the conversion of a hub condition to a `v1alpha1` condition
(`Convert_v1_Condition_To_v1alpha1_Condition`, which the generated code calls) is not among
the source files.  It copies the five fields of the spec's data model (Type, Status, Reason,
Message, LastTransitionTime); `Severity`, which a hub condition does not have, keeps its
zero value, and `ObservedGeneration` has no field to go to. -/
def Convert_v1_Condition_To_v1alpha1_Condition (c : metav1.Condition) : v1alpha1.Condition :=
  { Type_ := c.Type_, Status := c.Status, LastTransitionTime := c.LastTransitionTime,
    Reason := c.Reason, Message := c.Message }

/-! ## Bootstrap and the metadata transport -/

/-- Go: `convert_v1alpha1_VmMetadata_To_v1alpha4_BootstrapSpec`. -/
def convert_v1alpha1_VmMetadata_To_v1alpha4_BootstrapSpec (a : v1alpha1.Consts)
    (inp : Option v1alpha1.VirtualMachineMetadata) : Option vmopv1.VirtualMachineBootstrapSpec :=
  match inp with
  | none => none
  | some md =>
    if md = {} then none
    else
      let objectName : String := if md.SecretName = "" then md.ConfigMapName else md.SecretName
      if md.Transport = a.VirtualMachineMetadataExtraConfigTransport then
        some
          { CloudInit := some
              { RawCloudConfig :=
                  if objectName ≠ "" then some { Name := objectName, Key := "guestinfo.userdata" }
                  else none } }
      else if md.Transport = a.VirtualMachineMetadataOvfEnvTransport then
        some
          { LinuxPrep := some { HardwareClockIsUTC := some true },
            VAppConfig := some { RawProperties := objectName } }
      else if md.Transport = a.VirtualMachineMetadataVAppConfigTransport then
        some { VAppConfig := some { RawProperties := objectName } }
      else if md.Transport = a.VirtualMachineMetadataCloudInitTransport then
        some
          { CloudInit := some
              { RawCloudConfig :=
                  if objectName ≠ "" then some { Name := objectName, Key := "user-data" }
                  else none } }
      else if md.Transport = a.VirtualMachineMetadataSysprepTransport then
        some
          { Sysprep := some
              { RawSysprep :=
                  if objectName ≠ "" then some { Name := objectName, Key := "unattend" }
                  else none } }
      else some {}

/-- The transport and the secret name that
`convert_v1alpha4_BootstrapSpec_To_v1alpha1_VmMetadata` reads off the bootstrap spec: the
`if cloudInit ... else if sysprep ... else if in.VAppConfig != nil` chain. -/
def bootstrapTransport (a : v1alpha1.Consts) (inp : vmopv1.VirtualMachineBootstrapSpec) :
    String × String :=
  match inp.CloudInit with
  | some cloudInit =>
    match cloudInit.RawCloudConfig with
    | some raw =>
      (if raw.Key = "guestinfo.userdata" then a.VirtualMachineMetadataExtraConfigTransport
       else if raw.Key = "user-data" then a.VirtualMachineMetadataCloudInitTransport
       else a.VirtualMachineMetadataCloudInitTransport, raw.Name)
    | none => (a.VirtualMachineMetadataCloudInitTransport, "")
  | none =>
    match inp.Sysprep with
    | some sysprep =>
      (a.VirtualMachineMetadataSysprepTransport,
        match sysprep.RawSysprep with
        | some raw => raw.Name
        | none => "")
    | none =>
      match inp.VAppConfig with
      | some vAppConfig =>
        (if inp.LinuxPrep.isSome then a.VirtualMachineMetadataOvfEnvTransport
         else a.VirtualMachineMetadataVAppConfigTransport, vAppConfig.RawProperties)
      | none => ("", "")

/-- Go: `convert_v1alpha4_BootstrapSpec_To_v1alpha1_VmMetadata`. -/
def convert_v1alpha4_BootstrapSpec_To_v1alpha1_VmMetadata (a : v1alpha1.Consts)
    (v : vmopv1.Consts) (inp : Option vmopv1.VirtualMachineBootstrapSpec)
    (annotations : Annotations) : Option v1alpha1.VirtualMachineMetadata :=
  match inp with
  | none => none
  | some b =>
    if b = {} then none
    else
      let out : v1alpha1.VirtualMachineMetadata := { Transport := (bootstrapTransport a b).1 }
      let secretName : String := (bootstrapTransport a b).2
      if secretName ≠ "" then
        match annotations v.V1alpha1ConfigMapTransportAnnotation with
        | none => some { out with SecretName := secretName }
        | some _ => some { out with ConfigMapName := secretName }
      else some out

/-- The five case constants of the `switch in.Transport` are pairwise distinct (the Go
compiler rejects a duplicate constant case) and none is the empty string. -/
def TransportsWellFormed (a : v1alpha1.Consts) : Prop :=
  [a.VirtualMachineMetadataExtraConfigTransport, a.VirtualMachineMetadataOvfEnvTransport,
    a.VirtualMachineMetadataVAppConfigTransport, a.VirtualMachineMetadataCloudInitTransport,
    a.VirtualMachineMetadataSysprepTransport, ""].Nodup

/-! ## ConvertTo: structural conversion, restore pass, condition backfill -/

/-- The generated conversion of the whole object (`zz_generated.conversion.go`, not among the
source files) that `Convert_v1alpha1_VirtualMachine_To_v1alpha4_VirtualMachine` calls first.
It takes the source and the current value of `out` and returns the new value of `out`, or an
error. -/
structure GeneratedVM where
  autoConvert_v1alpha1_VirtualMachine_To_v1alpha4_VirtualMachine :
    v1alpha1.VirtualMachine → vmopv1.VirtualMachine → Except String vmopv1.VirtualMachine
  autoConvert_v1alpha4_VirtualMachine_To_v1alpha1_VirtualMachine :
    vmopv1.VirtualMachine → v1alpha1.VirtualMachine → Except String v1alpha1.VirtualMachine

/-- What `utilconversion.UnmarshalData(src, restored)` leaves behind: the value of
`restored`, the flag `ok` and the error (`none` is `nil`).  The function itself belongs to
package `api/utilconversion`, which is not among the source files, and is a parameter of
`ConvertTo`. -/
structure UnmarshalResult where
  restored : vmopv1.VirtualMachine := {}
  ok : Bool := false
  err : Option String := none

/-- The outcome of `ConvertTo`: the hub object `dst` as the call leaves it, and the returned
error (`none` is `nil`). -/
structure ConvertResult where
  dst : vmopv1.VirtualMachine
  err : Option String

/-- Go: `Convert_v1alpha1_VirtualMachine_To_v1alpha4_VirtualMachine`. -/
def Convert_v1alpha1_VirtualMachine_To_v1alpha4_VirtualMachine (a : v1alpha1.Consts)
    (v : vmopv1.Consts) (g : GeneratedVM) (inp : v1alpha1.VirtualMachine)
    (out : vmopv1.VirtualMachine) : Except String vmopv1.VirtualMachine :=
  match g.autoConvert_v1alpha1_VirtualMachine_To_v1alpha4_VirtualMachine inp out with
  | .error e => .error e
  | .ok out =>
    let out : vmopv1.VirtualMachine :=
      if inp.ObjectMeta.Generation > 0 then
        if inp.Spec.ImageName ≠ "" then
          { out with Spec.Image := some { Name := inp.Spec.ImageName } }
        else out
      else out
    let out : vmopv1.VirtualMachine :=
      match inp.Spec.VmMetadata with
      | some md =>
        if md.ConfigMapName ≠ "" then
          match out.ObjectMeta.Annotations v.V1alpha1ConfigMapTransportAnnotation with
          | some _ => out
          | none =>
            { out with
              ObjectMeta.Annotations :=
                out.ObjectMeta.Annotations.set v.V1alpha1ConfigMapTransportAnnotation "true" }
        else out
      | none => out
    let out : vmopv1.VirtualMachine :=
      match inp.ObjectMeta.Annotations a.PauseAnnotation with
      | some val =>
        { out with
          ObjectMeta.Annotations :=
            (out.ObjectMeta.Annotations.set v.PauseAnnotation val).delete a.PauseAnnotation }
      | none => out
    .ok out

/-- Go: `Convert_v1alpha4_VirtualMachine_To_v1alpha1_VirtualMachine`. -/
def Convert_v1alpha4_VirtualMachine_To_v1alpha1_VirtualMachine (a : v1alpha1.Consts)
    (v : vmopv1.Consts) (g : GeneratedVM) (inp : vmopv1.VirtualMachine)
    (out : v1alpha1.VirtualMachine) : Except String v1alpha1.VirtualMachine :=
  match g.autoConvert_v1alpha4_VirtualMachine_To_v1alpha1_VirtualMachine inp out with
  | .error e => .error e
  | .ok out =>
    let out : v1alpha1.VirtualMachine :=
      { out with
        Spec.VmMetadata :=
          convert_v1alpha4_BootstrapSpec_To_v1alpha1_VmMetadata a v inp.Spec.Bootstrap
            inp.ObjectMeta.Annotations }
    let out : v1alpha1.VirtualMachine :=
      { out with
        ObjectMeta.Annotations :=
          out.ObjectMeta.Annotations.delete v.V1alpha1ConfigMapTransportAnnotation }
    let out : v1alpha1.VirtualMachine :=
      match inp.ObjectMeta.Annotations v.PauseAnnotation with
      | some val =>
        { out with
          ObjectMeta.Annotations :=
            (out.ObjectMeta.Annotations.set a.PauseAnnotation val).delete v.PauseAnnotation }
      | none => out
    .ok out

/-- Go: `restore_v1alpha4_VirtualMachineGroupName`. -/
def restore_v1alpha4_VirtualMachineGroupName (dst src : vmopv1.VirtualMachine) :
    vmopv1.VirtualMachine :=
  { dst with Spec.GroupName := src.Spec.GroupName }

/-- Go: `restore_v1alpha4_VirtualMachineCryptoSpec`. -/
def restore_v1alpha4_VirtualMachineCryptoSpec (dst src : vmopv1.VirtualMachine) :
    vmopv1.VirtualMachine :=
  { dst with Spec.Crypto := src.Spec.Crypto }

/-- Go: `restore_v1alpha4_VirtualMachineImage`. -/
def restore_v1alpha4_VirtualMachineImage (dst src : vmopv1.VirtualMachine) :
    vmopv1.VirtualMachine :=
  { dst with Spec.Image := src.Spec.Image, Spec.ImageName := src.Spec.ImageName }

/-- The closure `mergeSecretKeySelector` of `restore_v1alpha4_VirtualMachineBootstrapSpec`. -/
def mergeSecretKeySelector (dstSel srcSel : Option vmopv1.SecretKeySelector) :
    Option vmopv1.SecretKeySelector :=
  match dstSel, srcSel with
  | some d, some s => some { s with Name := d.Name }
  | _, _ => dstSel

/-- The part of `restore_v1alpha4_VirtualMachineBootstrapSpec` that runs when both bootstrap
specs are set: the four `if dstX != nil { if srcX != nil { ... } }` blocks, in order. -/
def restoreBootstrapFields (dstBootstrap srcBootstrap : vmopv1.VirtualMachineBootstrapSpec) :
    vmopv1.VirtualMachineBootstrapSpec :=
  let b : vmopv1.VirtualMachineBootstrapSpec :=
    match dstBootstrap.CloudInit, srcBootstrap.CloudInit with
    | some d, some s =>
      { dstBootstrap with
        CloudInit := some
          { d with
            CloudConfig := s.CloudConfig,
            RawCloudConfig := mergeSecretKeySelector d.RawCloudConfig s.RawCloudConfig,
            SSHAuthorizedKeys := s.SSHAuthorizedKeys,
            UseGlobalNameserversAsDefault := s.UseGlobalNameserversAsDefault,
            UseGlobalSearchDomainsAsDefault := s.UseGlobalSearchDomainsAsDefault,
            WaitOnNetwork4 := s.WaitOnNetwork4,
            WaitOnNetwork6 := s.WaitOnNetwork6 } }
    | _, _ => dstBootstrap
  let b : vmopv1.VirtualMachineBootstrapSpec :=
    match b.LinuxPrep, srcBootstrap.LinuxPrep with
    | some d, some s =>
      { b with
        LinuxPrep := some
          { d with HardwareClockIsUTC := s.HardwareClockIsUTC, TimeZone := s.TimeZone } }
    | _, _ => b
  let b : vmopv1.VirtualMachineBootstrapSpec :=
    match b.Sysprep, srcBootstrap.Sysprep with
    | some d, some s =>
      let b' : vmopv1.VirtualMachineBootstrapSpec :=
        { b with
          Sysprep := some
            { d with
              Sysprep := s.Sysprep,
              RawSysprep := mergeSecretKeySelector d.RawSysprep s.RawSysprep } }
      if b'.VAppConfig.isNone && srcBootstrap.VAppConfig.isSome then
        { b' with VAppConfig := some {} }
      else b'
    | _, _ => b
  match b.VAppConfig, srcBootstrap.VAppConfig with
  | some d, some s =>
    { b with
      VAppConfig := some
        { d with Properties := s.Properties, RawProperties := s.RawProperties } }
  | _, _ => b

/-- Go: `restore_v1alpha4_VirtualMachineBootstrapSpec`. -/
def restore_v1alpha4_VirtualMachineBootstrapSpec (dst src : vmopv1.VirtualMachine) :
    vmopv1.VirtualMachine :=
  match src.Spec.Bootstrap with
  | none => dst
  | some srcBootstrap =>
    match dst.Spec.Bootstrap with
    | none =>
      match srcBootstrap.LinuxPrep with
      | some lp => { dst with Spec.Bootstrap := some { LinuxPrep := some lp } }
      | none => dst
    | some dstBootstrap =>
      { dst with Spec.Bootstrap := some (restoreBootstrapFields dstBootstrap srcBootstrap) }

/-- Go: `restore_v1alpha4_VirtualMachineNetworkSpec`. -/
def restore_v1alpha4_VirtualMachineNetworkSpec (dst src : vmopv1.VirtualMachine) :
    vmopv1.VirtualMachine :=
  match src.Spec.Network with
  | none => dst
  | some srcNetwork =>
    if srcNetwork = {} then dst
    else
      let dstNetwork : vmopv1.VirtualMachineNetworkSpec := dst.Spec.Network.getD {}
      let dstNetwork : vmopv1.VirtualMachineNetworkSpec :=
        { dstNetwork with
          DomainName := srcNetwork.DomainName,
          HostName := srcNetwork.HostName,
          Disabled := srcNetwork.Disabled,
          Nameservers := srcNetwork.Nameservers,
          SearchDomains := srcNetwork.SearchDomains }
      if dstNetwork.Interfaces.length = 0 then
        { dst with Spec.Network := some dstNetwork }
      else
        { dst with
          Spec.Network := some { dstNetwork with Interfaces := srcNetwork.Interfaces } }

/-- Go: `restore_v1alpha4_VirtualMachineReadinessProbeSpec`. -/
def restore_v1alpha4_VirtualMachineReadinessProbeSpec (dst src : vmopv1.VirtualMachine) :
    vmopv1.VirtualMachine :=
  match src.Spec.ReadinessProbe with
  | some sp =>
    { dst with
      Spec.ReadinessProbe := some
        { dst.Spec.ReadinessProbe.getD {} with GuestInfo := sp.GuestInfo } }
  | none => dst

/-- Go: `restore_v1alpha4_VirtualMachineInstanceUUID`. -/
def restore_v1alpha4_VirtualMachineInstanceUUID (dst src : vmopv1.VirtualMachine) :
    vmopv1.VirtualMachine :=
  { dst with Spec.InstanceUUID := src.Spec.InstanceUUID }

/-- Go: `restore_v1alpha4_VirtualMachineBiosUUID`. -/
def restore_v1alpha4_VirtualMachineBiosUUID (dst src : vmopv1.VirtualMachine) :
    vmopv1.VirtualMachine :=
  { dst with Spec.BiosUUID := src.Spec.BiosUUID }

/-- Go: `restore_v1alpha4_VirtualMachineBootstrapCloudInitInstanceID`. -/
def restore_v1alpha4_VirtualMachineBootstrapCloudInitInstanceID
    (dst src : vmopv1.VirtualMachine) : vmopv1.VirtualMachine :=
  let iid : String :=
    match src.Spec.Bootstrap with
    | some bs =>
      match bs.CloudInit with
      | some ci => ci.InstanceID
      | none => ""
    | none => ""
  if iid = "" then dst
  else
    let bs : vmopv1.VirtualMachineBootstrapSpec := dst.Spec.Bootstrap.getD {}
    let ci : vmopv1.VirtualMachineBootstrapCloudInitSpec := bs.CloudInit.getD {}
    { dst with Spec.Bootstrap := some { bs with CloudInit := some { ci with InstanceID := iid } } }

/-- Go: `restore_v1alpha4_VirtualMachineGuestID`. -/
def restore_v1alpha4_VirtualMachineGuestID (dst src : vmopv1.VirtualMachine) :
    vmopv1.VirtualMachine :=
  { dst with Spec.GuestID := src.Spec.GuestID }

/-- Go: `restore_v1alpha4_VirtualMachineCdrom`. -/
def restore_v1alpha4_VirtualMachineCdrom (dst src : vmopv1.VirtualMachine) :
    vmopv1.VirtualMachine :=
  { dst with Spec.Cdrom := src.Spec.Cdrom }

/-- Go: `restore_v1alpha4_VirtualMachinePromoteDisksMode`. -/
def restore_v1alpha4_VirtualMachinePromoteDisksMode (dst src : vmopv1.VirtualMachine) :
    vmopv1.VirtualMachine :=
  { dst with Spec.PromoteDisksMode := src.Spec.PromoteDisksMode }

/-- Go: `restore_v1alpha4_VirtualMachineBootOptions`. -/
def restore_v1alpha4_VirtualMachineBootOptions (dst src : vmopv1.VirtualMachine) :
    vmopv1.VirtualMachine :=
  { dst with Spec.BootOptions := src.Spec.BootOptions }

/-- Go: `restore_v1alpha4_VirtualMachineAffinitySpec`. -/
def restore_v1alpha4_VirtualMachineAffinitySpec (dst src : vmopv1.VirtualMachine) :
    vmopv1.VirtualMachine :=
  { dst with Spec.Affinity := src.Spec.Affinity }

/-- The restore pass of `ConvertTo`, between `BEGIN RESTORE` and `END RESTORE`. -/
def restoreAll (dst restored : vmopv1.VirtualMachine) : vmopv1.VirtualMachine :=
  let dst := restore_v1alpha4_VirtualMachineImage dst restored
  let dst := restore_v1alpha4_VirtualMachineBootstrapSpec dst restored
  let dst := restore_v1alpha4_VirtualMachineNetworkSpec dst restored
  let dst := restore_v1alpha4_VirtualMachineReadinessProbeSpec dst restored
  let dst := restore_v1alpha4_VirtualMachineBiosUUID dst restored
  let dst := restore_v1alpha4_VirtualMachineBootstrapCloudInitInstanceID dst restored
  let dst := restore_v1alpha4_VirtualMachineInstanceUUID dst restored
  let dst := restore_v1alpha4_VirtualMachineGuestID dst restored
  let dst := restore_v1alpha4_VirtualMachineCdrom dst restored
  let dst := restore_v1alpha4_VirtualMachineCryptoSpec dst restored
  let dst := restore_v1alpha4_VirtualMachinePromoteDisksMode dst restored
  let dst := restore_v1alpha4_VirtualMachineBootOptions dst restored
  let dst := restore_v1alpha4_VirtualMachineAffinitySpec dst restored
  restore_v1alpha4_VirtualMachineGroupName dst restored

/-- Go: `func (src *VirtualMachine) ConvertTo(dstRaw ctrlconversion.Hub) error`.

When the structural conversion fails, the error is returned and `dst` is reported as it was
before the call.  What `UnmarshalData` does to the annotation map of `src` is not part of
this model. -/
def v1alpha1.VirtualMachine.ConvertTo (src : v1alpha1.VirtualMachine) (a : v1alpha1.Consts)
    (v : vmopv1.Consts) (g : GeneratedVM)
    (UnmarshalData : v1alpha1.VirtualMachine → UnmarshalResult)
    (dstRaw : vmopv1.VirtualMachine) : ConvertResult :=
  match Convert_v1alpha1_VirtualMachine_To_v1alpha4_VirtualMachine a v g src dstRaw with
  | .error e => { dst := dstRaw, err := some e }
  | .ok dst =>
    let u := UnmarshalData src
    if u.err.isSome || !u.ok then
      { dst :=
          { dst with
            Status.Conditions :=
              convert_v1alpha1_PreReqsReadyCondition_to_v1alpha4_Conditions a v dst },
        err := u.err }
    else
      { dst := { restoreAll dst u.restored with Status := u.restored.Status }, err := none }

/-- A stand-in for the generated conversions of the whole object, used for the concrete
evaluations: they copy the metadata and the image name, the up-conversion also the
conditions (field by field), and do not fail. -/
def GeneratedVM.copying : GeneratedVM where
  autoConvert_v1alpha1_VirtualMachine_To_v1alpha4_VirtualMachine := fun inp out =>
    .ok { out with
      ObjectMeta := inp.ObjectMeta,
      Spec.ImageName := inp.Spec.ImageName,
      Status.Conditions := inp.Status.Conditions.map Convert_v1alpha1_Condition_To_v1_Condition }
  autoConvert_v1alpha4_VirtualMachine_To_v1alpha1_VirtualMachine := fun inp out =>
    .ok { out with
      ObjectMeta := inp.ObjectMeta,
      Spec.ImageName := inp.Spec.ImageName }

/-- A stand-in for the generated conversions that also runs the step of
`Convert_v1alpha1_VirtualMachineSpec_To_v1alpha4_VirtualMachineSpec` that fills the hub
bootstrap (`out.Bootstrap = convert_v1alpha1_VmMetadata_To_v1alpha4_BootstrapSpec(in.VmMetadata)`),
to which the generated conversion of the whole object delegates. -/
def GeneratedVM.delegating (a : v1alpha1.Consts) : GeneratedVM where
  autoConvert_v1alpha1_VirtualMachine_To_v1alpha4_VirtualMachine := fun inp out =>
    .ok { out with
      ObjectMeta := inp.ObjectMeta,
      Spec.ImageName := inp.Spec.ImageName,
      Spec.Bootstrap := convert_v1alpha1_VmMetadata_To_v1alpha4_BootstrapSpec a inp.Spec.VmMetadata,
      Status.Conditions := inp.Status.Conditions.map Convert_v1alpha1_Condition_To_v1_Condition }
  autoConvert_v1alpha4_VirtualMachine_To_v1alpha1_VirtualMachine := fun inp out =>
    .ok { out with
      ObjectMeta := inp.ObjectMeta,
      Spec.ImageName := inp.Spec.ImageName }

/-! ## Volumes and the boot-disk sentinel -/

namespace resource

/-- Kubernetes `resource.Quantity`: an amount and its format, which the conversion only
copies. -/
structure Quantity where
  Value : Int := 0
  Format : String := ""
  deriving DecidableEq, Repr

end resource

namespace corev1

/-- Kubernetes `corev1.ResourceEphemeralStorage`. -/
def ResourceEphemeralStorage : String := "ephemeral-storage"

/-- Kubernetes `corev1.ResourceList`, a `map[ResourceName]resource.Quantity`, as its list of
entries. -/
abbrev ResourceList := List (String × resource.Quantity)

/-- Kubernetes `(*ResourceList).StorageEphemeral`: a pointer to the entry for
`ResourceEphemeralStorage`, or to a zero quantity of format `BinarySI` when there is no such
entry; the pointer is never nil. -/
def ResourceList.StorageEphemeral (rl : ResourceList) : Option resource.Quantity :=
  match rl.lookup ResourceEphemeralStorage with
  | some val => some val
  | none => some { Format := "BinarySI" }

end corev1

/-- Go: `const bootDiskDeviceKey = 2000`. -/
def bootDiskDeviceKey : Int := 2000

namespace v1alpha1

/-- Package `v1alpha1`: `PersistentVolumeClaimVolumeSource`, with the claim name and the
read-only flag of the embedded Kubernetes source. -/
structure PersistentVolumeClaimVolumeSource where
  ClaimName : String := ""
  ReadOnly : Bool := false
  deriving DecidableEq, Repr

/-- Package `v1alpha1`: `VsphereVolumeSource`. -/
structure VsphereVolumeSource where
  Capacity : corev1.ResourceList := []
  DeviceKey : Option Int := none
  deriving DecidableEq, Repr

/-- Package `v1alpha1`: `VirtualMachineVolume`. -/
structure VirtualMachineVolume where
  Name : String := ""
  PersistentVolumeClaim : Option PersistentVolumeClaimVolumeSource := none
  VsphereVolume : Option VsphereVolumeSource := none
  deriving DecidableEq, Repr

end v1alpha1

namespace vmopv1

/-- Hub `PersistentVolumeClaimVolumeSource`, with the claim name and the read-only flag of
the embedded Kubernetes source. -/
structure PersistentVolumeClaimVolumeSource where
  ClaimName : String := ""
  ReadOnly : Bool := false
  deriving DecidableEq, Repr

/-- Hub `VirtualMachineVolume`. -/
structure VirtualMachineVolume where
  Name : String := ""
  PersistentVolumeClaim : Option PersistentVolumeClaimVolumeSource := none
  deriving DecidableEq, Repr

end vmopv1

/-- Go: `convert_v1alpha1_VsphereVolumes_To_v1alpha4_BootDiskCapacity`.  The loop stops at the
first volume whose `VsphereVolume` has the device key `bootDiskDeviceKey`. -/
def convert_v1alpha1_VsphereVolumes_To_v1alpha4_BootDiskCapacity :
    List v1alpha1.VirtualMachineVolume → Option resource.Quantity
  | [] => none
  | vol :: rest =>
    match vol.VsphereVolume with
    | some vsVol =>
      if vsVol.DeviceKey = some bootDiskDeviceKey then
        match vsVol.Capacity.StorageEphemeral with
        | some capacity => some capacity
        | none => none
      else convert_v1alpha1_VsphereVolumes_To_v1alpha4_BootDiskCapacity rest
    | none => convert_v1alpha1_VsphereVolumes_To_v1alpha4_BootDiskCapacity rest

/-- Go: `convert_v1alpha4_BootDiskCapacity_To_v1alpha1_VirtualMachineVolume`. -/
def convert_v1alpha4_BootDiskCapacity_To_v1alpha1_VirtualMachineVolume
    (capacity : Option resource.Quantity) : Option v1alpha1.VirtualMachineVolume :=
  match capacity with
  | none => none
  | some c =>
    some
      { Name := "vmoperator-vm-boot-disk",
        VsphereVolume := some
          { Capacity := [(corev1.ResourceEphemeralStorage, c)],
            DeviceKey := some bootDiskDeviceKey } }

/-- Go: the block of `Convert_v1alpha4_VirtualMachineSpec_To_v1alpha1_VirtualMachineSpec` that
appends the boot-disk volume to `out.Volumes`:
`if in.Advanced != nil { if bootDiskVol := ...(in.Advanced.BootDiskCapacity); bootDiskVol !=
nil { out.Volumes = append(out.Volumes, *bootDiskVol) } }`.  `advanced` is `none` when
`in.Advanced` is nil and holds `in.Advanced.BootDiskCapacity` otherwise. -/
def appendBootDiskVolume (advanced : Option (Option resource.Quantity))
    (volumes : List v1alpha1.VirtualMachineVolume) : List v1alpha1.VirtualMachineVolume :=
  match advanced with
  | some bootDiskCapacity =>
    match convert_v1alpha4_BootDiskCapacity_To_v1alpha1_VirtualMachineVolume
        bootDiskCapacity with
    | some bootDiskVol => volumes ++ [bootDiskVol]
    | none => volumes
  | none => volumes

/-- The loop of `filter_out_VirtualMachineVolumes_VsphereVolumes`:
`for _, v := range in { if v.PersistentVolumeClaim != nil { out = append(out, v) } }`. -/
def keepClaimVolumes :
    List vmopv1.VirtualMachineVolume → List vmopv1.VirtualMachineVolume →
      List vmopv1.VirtualMachineVolume
  | [], out => out
  | x :: rest, out =>
    keepClaimVolumes rest (if x.PersistentVolumeClaim.isSome then out ++ [x] else out)

/-- Go: `filter_out_VirtualMachineVolumes_VsphereVolumes`; the result `none` is the nil
slice. -/
def filter_out_VirtualMachineVolumes_VsphereVolumes (inp : List vmopv1.VirtualMachineVolume) :
    Option (List vmopv1.VirtualMachineVolume) :=
  if inp.length = 0 then none
  else
    let out := keepClaimVolumes inp []
    if out.length = 0 then none else some out

/-! ## Annotation maps held by reference -/

/-- A Go value of type `map[string]string`: nil (`none`), or the address of a table. -/
abbrev MapRef := Option Nat

/-- The memory that holds the tables of the annotation maps: the table at each address, and
the first address that `make` has not handed out yet. -/
structure MapHeap where
  table : Nat → Annotations := fun _ _ => none
  next : Nat := 0

/-- The entries of the map behind a reference; a lookup in a nil map finds nothing. -/
def MapHeap.content (hp : MapHeap) (r : MapRef) : Annotations :=
  match r with
  | none => fun _ => none
  | some p => hp.table p

/-- Go: `m[k] = val`, for a map `m` that is not nil: the table at the address of `m` gets the
entry, whoever else holds that address. -/
def MapHeap.assign (hp : MapHeap) (p : Nat) (k val : String) : MapHeap :=
  { hp with table := fun q => if q = p then (hp.table p).set k val else hp.table q }

/-- Go: `delete(m, k)`, which does nothing when `m` is nil. -/
def MapHeap.delete (hp : MapHeap) (r : MapRef) (k : String) : MapHeap :=
  match r with
  | none => hp
  | some p =>
    { hp with table := fun q => if q = p then (hp.table p).delete k else hp.table q }

/-- Go: `make(map[string]string)` (and the literal `map[string]string{}`): the address of a
new table without entries, and the memory that holds it. -/
def MapHeap.make (hp : MapHeap) : Nat × MapHeap :=
  (hp.next,
    { table := fun q => if q = hp.next then fun _ => none else hp.table q,
      next := hp.next + 1 })

/-- Go: `if m == nil { m = make(map[string]string) }`: the address of `m`, or of a new table
when `m` is nil. -/
def MapHeap.orMake (hp : MapHeap) (r : MapRef) : Nat × MapHeap :=
  match r with
  | some p => (p, hp)
  | none => hp.make

namespace vmopv1

/-- Hub `VirtualMachine` as a Go object: the field `Annotations` of its object metadata holds
the reference of the map, not its entries. -/
structure VirtualMachineRef where
  Generation : Int := 0
  Annotations : MapRef := none
  Spec : VirtualMachineSpec := {}
  Status : VirtualMachineStatus := {}

/-- The hub object as a value: the entries of the annotation map are read from the memory. -/
def VirtualMachineRef.value (hp : MapHeap) (o : VirtualMachineRef) : VirtualMachine :=
  { ObjectMeta := { Generation := o.Generation, Annotations := hp.content o.Annotations },
    Spec := o.Spec, Status := o.Status }

end vmopv1

namespace v1alpha1

/-- Package `v1alpha1`: `VirtualMachine` as a Go object: the field `Annotations` of its object
metadata holds the reference of the map, not its entries. -/
structure VirtualMachineRef where
  Generation : Int := 0
  Annotations : MapRef := none
  Spec : VirtualMachineSpec := {}
  Status : VirtualMachineStatus := {}

/-- The `v1alpha1` object as a value: the entries of the annotation map are read from the
memory. -/
def VirtualMachineRef.value (hp : MapHeap) (o : VirtualMachineRef) : VirtualMachine :=
  { ObjectMeta := { Generation := o.Generation, Annotations := hp.content o.Annotations },
    Spec := o.Spec, Status := o.Status }

end v1alpha1

/-- What a conversion call leaves behind: the memory of the annotation tables, the object `src`
behind the pointer `in`, the object `dst` behind the pointer `out`, and the returned error
(`none` is `nil`). -/
structure ByRef (α β : Type) where
  heap : MapHeap
  src : α
  dst : β
  err : Option String := none

/-- The generated conversions of the whole object (`zz_generated.conversion.go`, not among the
source files) on Go objects: each takes the memory and the objects behind `in` and `out` and
returns what it leaves behind. -/
structure GeneratedVMRef where
  autoConvert_v1alpha1_VirtualMachine_To_v1alpha4_VirtualMachine :
    MapHeap → v1alpha1.VirtualMachineRef → vmopv1.VirtualMachineRef →
      ByRef v1alpha1.VirtualMachineRef vmopv1.VirtualMachineRef
  autoConvert_v1alpha4_VirtualMachine_To_v1alpha1_VirtualMachine :
    MapHeap → vmopv1.VirtualMachineRef → v1alpha1.VirtualMachineRef →
      ByRef vmopv1.VirtualMachineRef v1alpha1.VirtualMachineRef

/-- Go: `Convert_v1alpha4_VirtualMachine_To_v1alpha1_VirtualMachine`, on Go objects. The code
assigns to fields of `out` only; `delete(out.Annotations, ...)` and
`out.Annotations[PauseAnnotation] = val` act on the table behind the reference that
`out.Annotations` holds, and `in.Annotations[vmopv1.PauseAnnotation]` is looked up after the
marker was deleted. -/
def Convert_v1alpha4_VirtualMachine_To_v1alpha1_VirtualMachine.byRef (a : v1alpha1.Consts)
    (v : vmopv1.Consts) (g : GeneratedVMRef) (hp : MapHeap) (inp : vmopv1.VirtualMachineRef)
    (out : v1alpha1.VirtualMachineRef) :
    ByRef vmopv1.VirtualMachineRef v1alpha1.VirtualMachineRef :=
  let st := g.autoConvert_v1alpha4_VirtualMachine_To_v1alpha1_VirtualMachine hp inp out
  match st.err with
  | some _ => st
  | none =>
    let out : v1alpha1.VirtualMachineRef :=
      { st.dst with
        Spec.VmMetadata :=
          convert_v1alpha4_BootstrapSpec_To_v1alpha1_VmMetadata a v st.src.Spec.Bootstrap
            (st.heap.content st.src.Annotations) }
    let hp := st.heap.delete out.Annotations v.V1alpha1ConfigMapTransportAnnotation
    match hp.content st.src.Annotations v.PauseAnnotation with
    | some val =>
      let m := hp.orMake out.Annotations
      { heap := (m.2.assign m.1 a.PauseAnnotation val).delete (some m.1) v.PauseAnnotation,
        src := st.src,
        dst := { out with Annotations := some m.1 },
        err := none }
    | none => { heap := hp, src := st.src, dst := out, err := none }

/-- The block `if md != nil && md.ConfigMapName != "" { ... }` of
`Convert_v1alpha1_VirtualMachine_To_v1alpha4_VirtualMachine`, on Go objects: `GetAnnotations`
returns the reference that `out.Annotations` holds, the assignment
`annotations[vmopv1.V1alpha1ConfigMapTransportAnnotation] = "true"` acts on the table behind it
(a new one when it is nil), and `SetAnnotations` stores the reference in `out`. -/
def markConfigMapTransport (v : vmopv1.Consts) (hp : MapHeap)
    (md : Option v1alpha1.VirtualMachineMetadata) (out : vmopv1.VirtualMachineRef) :
    MapHeap × vmopv1.VirtualMachineRef :=
  match md with
  | some md =>
    if md.ConfigMapName ≠ "" then
      match hp.content out.Annotations v.V1alpha1ConfigMapTransportAnnotation with
      | some _ => (hp, out)
      | none =>
        let m := hp.orMake out.Annotations
        (m.2.assign m.1 v.V1alpha1ConfigMapTransportAnnotation "true",
          { out with Annotations := some m.1 })
    else (hp, out)
  | none => (hp, out)

/-- Go: `Convert_v1alpha1_VirtualMachine_To_v1alpha4_VirtualMachine`, on Go objects. The code
assigns to fields of `out` only; `GetAnnotations` returns the reference that
`out.Annotations` holds, the assignment `annotations[vmopv1.PauseAnnotation] = val` and
`delete(annotations, PauseAnnotation)` act on the table behind it (a new one when it is nil),
and `SetAnnotations` stores the reference in `out`. -/
def Convert_v1alpha1_VirtualMachine_To_v1alpha4_VirtualMachine.byRef (a : v1alpha1.Consts)
    (v : vmopv1.Consts) (g : GeneratedVMRef) (hp : MapHeap) (inp : v1alpha1.VirtualMachineRef)
    (out : vmopv1.VirtualMachineRef) :
    ByRef v1alpha1.VirtualMachineRef vmopv1.VirtualMachineRef :=
  let st := g.autoConvert_v1alpha1_VirtualMachine_To_v1alpha4_VirtualMachine hp inp out
  match st.err with
  | some _ => st
  | none =>
    let out : vmopv1.VirtualMachineRef :=
      if st.src.Generation > 0 then
        if st.src.Spec.ImageName ≠ "" then
          { st.dst with Spec.Image := some { Name := st.src.Spec.ImageName } }
        else st.dst
      else st.dst
    let marked := markConfigMapTransport v st.heap st.src.Spec.VmMetadata out
    match marked.1.content st.src.Annotations a.PauseAnnotation with
    | some val =>
      let m := marked.1.orMake marked.2.Annotations
      { heap := (m.2.assign m.1 v.PauseAnnotation val).delete (some m.1) a.PauseAnnotation,
        src := st.src,
        dst := { marked.2 with Annotations := some m.1 },
        err := none }
    | none => { heap := marked.1, src := st.src, dst := marked.2, err := none }

/-- Modelled from the spec: the generated `autoConvert` functions of the whole object are not
in the sources. The structural copy of the spec copies the fields of identical meaning
verbatim; for the object metadata this is the assignment `out.ObjectMeta = in.ObjectMeta`,
which copies the reference of the annotation map and not its table: the mutable shared
annotation map, passed by reference across the conversion steps, of the spec's design notes.
The copy touches neither the memory nor the source object and does not fail. -/
def GeneratedVMRef.copying : GeneratedVMRef where
  autoConvert_v1alpha1_VirtualMachine_To_v1alpha4_VirtualMachine := fun hp inp out =>
    { heap := hp, src := inp,
      dst :=
        { out with
          Generation := inp.Generation,
          Annotations := inp.Annotations,
          Spec.ImageName := inp.Spec.ImageName,
          Status.Conditions :=
            inp.Status.Conditions.map Convert_v1alpha1_Condition_To_v1_Condition } }
  autoConvert_v1alpha4_VirtualMachine_To_v1alpha1_VirtualMachine := fun hp inp out =>
    { heap := hp, src := inp,
      dst :=
        { out with
          Generation := inp.Generation,
          Annotations := inp.Annotations,
          Spec.ImageName := inp.Spec.ImageName } }

/-- A copy of the table behind a reference at a new address; nil stays nil. -/
def MapHeap.clone (hp : MapHeap) (r : MapRef) : MapRef × MapHeap :=
  match r with
  | none => (none, hp)
  | some p =>
    (some hp.next,
      { table := fun q => if q = hp.next then hp.table p else hp.table q,
        next := hp.next + 1 })

/-- A stand-in for generated conversions that give the output a table of its own: as
`GeneratedVMRef.copying`, but the entries of the annotation map are copied to a new table. -/
def GeneratedVMRef.cloning : GeneratedVMRef where
  autoConvert_v1alpha1_VirtualMachine_To_v1alpha4_VirtualMachine := fun hp inp out =>
    { heap := (hp.clone inp.Annotations).2, src := inp,
      dst :=
        { out with
          Generation := inp.Generation,
          Annotations := (hp.clone inp.Annotations).1,
          Spec.ImageName := inp.Spec.ImageName,
          Status.Conditions :=
            inp.Status.Conditions.map Convert_v1alpha1_Condition_To_v1_Condition } }
  autoConvert_v1alpha4_VirtualMachine_To_v1alpha1_VirtualMachine := fun hp inp out =>
    { heap := (hp.clone inp.Annotations).2, src := inp,
      dst :=
        { out with
          Generation := inp.Generation,
          Annotations := (hp.clone inp.Annotations).1,
          Spec.ImageName := inp.Spec.ImageName } }

/-- A memory with one table, at address 0, that holds the given entries. -/
def MapHeap.single (m : Annotations) : MapHeap :=
  { table := fun q => if q = 0 then m else fun _ => none, next := 1 }

/-! ## VirtualMachineClass: the hub, v1alpha2 and the side-channel store -/

namespace vmopv1

/-- Hub `VirtualMachineClassSpec`: the two fields that the round-trip test sets and that have
no v1alpha2 field, and the fields shared with v1alpha2 as one uninterpreted value. -/
structure VirtualMachineClassSpec where
  Shared : Uninterpreted := ""
  ReservedProfileID : String := ""
  ReservedSlots : Int := 0
  deriving DecidableEq, Repr

/-- Hub `VirtualMachineClass`; the status is one uninterpreted value. -/
structure VirtualMachineClass where
  ObjectMeta : ObjectMeta := {}
  Spec : VirtualMachineClassSpec := {}
  Status : Uninterpreted := ""

end vmopv1

namespace v1alpha2

/-- Package `v1alpha2`: `VirtualMachineClassSpec`, the fields shared with the hub. -/
structure VirtualMachineClassSpec where
  Shared : Uninterpreted := ""
  deriving DecidableEq, Repr

/-- Package `v1alpha2`: `VirtualMachineClass`. -/
structure VirtualMachineClass where
  ObjectMeta : ObjectMeta := {}
  Spec : VirtualMachineClassSpec := {}
  Status : Uninterpreted := ""

end v1alpha2

/-- Modelled from the spec: the side-channel store is not in the sources. It has one reserved
annotation key and a serialised encoding of a hub object, with its decoder. The spec has the
snapshot "read and consumed (but not necessarily deleted)" when a spoke object is converted
up: `deleteConsumed` says whether the store takes a consumed snapshot off the object. -/
structure SideChannelStore where
  AnnotationKey : String
  encode : vmopv1.VirtualMachineClass → String
  decode : String → Option vmopv1.VirtualMachineClass
  deleteConsumed : Bool

/-- Modelled from the spec: `write(hub, targetSpokeObj)` of the side-channel store, which is not
in the sources. It stores the serialised hub object as the value of the reserved key on the
spoke object, and is skipped when the hub object is in its zero state (empty spec and
status). -/
def SideChannelStore.write (sc : SideChannelStore) (hub : vmopv1.VirtualMachineClass)
    (target : v1alpha2.VirtualMachineClass) : v1alpha2.VirtualMachineClass :=
  if hub.Spec = {} ∧ hub.Status = "" then target
  else
    { target with
      ObjectMeta.Annotations :=
        target.ObjectMeta.Annotations.set sc.AnnotationKey (sc.encode hub) }

/-- Modelled from the spec: `read(spokeObj)` of the side-channel store, which is not in the
sources. The result is `.ok none` when the annotation is absent (`found = false`), an error
when it is present and does not parse, and the decoded hub object otherwise. -/
def SideChannelStore.read (sc : SideChannelStore) (spoke : v1alpha2.VirtualMachineClass) :
    Except String (Option vmopv1.VirtualMachineClass) :=
  match spoke.ObjectMeta.Annotations sc.AnnotationKey with
  | none => .ok none
  | some data =>
    match sc.decode data with
    | none => .error "malformed side-channel snapshot"
    | some hub => .ok (some hub)

/-- Modelled from the spec: `ConvertFrom` of the v1alpha2 `VirtualMachineClass` is not in the
sources (only its round-trip test is). Following the conversion driver of the spec, it makes
the structural copy of the fields that v1alpha2 has and then writes the side-channel
snapshot. -/
def v1alpha2.VirtualMachineClass.ConvertFrom (sc : SideChannelStore)
    (src : vmopv1.VirtualMachineClass) : Except String v1alpha2.VirtualMachineClass :=
  let dst : v1alpha2.VirtualMachineClass :=
    { ObjectMeta := src.ObjectMeta, Spec := { Shared := src.Spec.Shared }, Status := src.Status }
  .ok (sc.write src dst)

/-- Modelled from the spec: `ConvertTo` of the v1alpha2 `VirtualMachineClass` is not in the
sources (only its round-trip test is). Following the conversion driver of the spec, it makes
the structural copy and then the restore pass: a snapshot that is absent or does not parse
leaves the structural copy, and a snapshot that parses supplies the fields with no v1alpha2
representation. The snapshot key is taken off the hub object when the snapshot is consumed
and the store deletes what it consumes; otherwise it stays among the copied annotations. -/
def v1alpha2.VirtualMachineClass.ConvertTo (sc : SideChannelStore)
    (src : v1alpha2.VirtualMachineClass) : Except String vmopv1.VirtualMachineClass :=
  let dst : vmopv1.VirtualMachineClass :=
    { ObjectMeta := src.ObjectMeta, Spec := { Shared := src.Spec.Shared }, Status := src.Status }
  match sc.read src with
  | .error _ => .ok dst
  | .ok none => .ok dst
  | .ok (some restored) =>
    .ok
      { dst with
        ObjectMeta.Annotations :=
          if sc.deleteConsumed then dst.ObjectMeta.Annotations.delete sc.AnnotationKey
          else dst.ObjectMeta.Annotations,
        Spec.ReservedProfileID := restored.Spec.ReservedProfileID,
        Spec.ReservedSlots := restored.Spec.ReservedSlots }

/-- Modelled from the spec: the hub to spoke to hub round trip of the test,
`ConvertFrom` followed by `ConvertTo`. -/
def hubSpokeHub (sc : SideChannelStore) (hub : vmopv1.VirtualMachineClass) :
    Except String vmopv1.VirtualMachineClass :=
  match v1alpha2.VirtualMachineClass.ConvertFrom sc hub with
  | .error e => .error e
  | .ok spoke => v1alpha2.VirtualMachineClass.ConvertTo sc spoke

/-- A stand-in for the serialised encoding, used for the concrete evaluations: the reserved
slots in unary, a bar, and the reserved profile id. -/
def SideChannelStore.unary (deleteConsumed : Bool) : SideChannelStore where
  AnnotationKey := "vmoperator.vmware.com/conversion-data"
  deleteConsumed := deleteConsumed
  encode := fun hub =>
    ⟨List.replicate hub.Spec.ReservedSlots.toNat '#' ++ '|' :: hub.Spec.ReservedProfileID.data⟩
  decode := fun data =>
    match data.data.dropWhile (fun c => c == '#') with
    | '|' :: rest =>
      some
        { Spec :=
            { ReservedSlots := (data.data.takeWhile (fun c => c == '#')).length,
              ReservedProfileID := ⟨rest⟩ } }
    | _ => none

/-! ## NetPlan customization -/

namespace netplan

/-- Package `netplan`: `Match`. -/
structure Match where
  Macaddress : Option String := none
  deriving DecidableEq, Repr

/-- Package `netplan`: `Nameserver`. -/
structure Nameserver where
  Addresses : List String := []
  Search : List String := []
  deriving DecidableEq, Repr

/-- Package `netplan`: `Address`; the field `String` is written `String_`. -/
structure Address where
  String_ : Option String := none
  deriving DecidableEq, Repr

/-- Package `netplan`: `Route`, with the fields that `NetPlanCustomization` writes. -/
structure Route where
  To : Option String := none
  Metric : Option Int := none
  Via : Option String := none
  deriving DecidableEq, Repr

/-- Package `netplan`: `Ethernet`, with the fields that `NetPlanCustomization` writes and
`AcceptRa`, which its test reads. A pointer is the optional value it points to. -/
structure Ethernet where
  Match : Option Match := none
  SetName : Option String := none
  MTU : Option Int := none
  Nameservers : Option Nameserver := none
  Dhcp4 : Option Bool := none
  Dhcp6 : Option Bool := none
  AcceptRa : Option Bool := none
  Gateway4 : Option String := none
  Gateway6 : Option String := none
  Addresses : List Address := []
  Routes : List Route := []
  deriving DecidableEq, Repr

/-- Package `netplan`: `Network`; the map `Ethernets` is a function from the interface name. -/
structure Network where
  Version : Int := 0
  Ethernets : String → Option Ethernet := fun _ => none

end netplan

namespace network

/-- Package `network`: `NetworkInterfaceIPConfig`. -/
structure NetworkInterfaceIPConfig where
  IPCIDR : String := ""
  IsIPv4 : Bool := false
  Gateway : String := ""
  deriving DecidableEq, Repr

/-- Package `network`: `NetworkInterfaceRoute`. -/
structure NetworkInterfaceRoute where
  To : String := ""
  Via : String := ""
  Metric : Int := 0
  deriving DecidableEq, Repr

/-- Package `network`: `NetworkInterfaceResult`, with the fields that `NetPlanCustomization`
reads. -/
structure NetworkInterfaceResult where
  IPConfigs : List NetworkInterfaceIPConfig := []
  MacAddress : String := ""
  Name : String := ""
  GuestDeviceName : String := ""
  DHCP4 : Bool := false
  DHCP6 : Bool := false
  MTU : Int := 0
  Nameservers : List String := []
  SearchDomains : List String := []
  Routes : List NetworkInterfaceRoute := []
  deriving DecidableEq, Repr

/-- Package `network`: `NetworkInterfaceResults`, with the field that `NetPlanCustomization`
reads. -/
structure NetworkInterfaceResults where
  Results : List NetworkInterfaceResult := []
  deriving DecidableEq, Repr

end network

/-- Go: `strings.ToLower`, which maps every character of the string by `unicode.ToLower`.
The Unicode case tables of the Go library are not part of the sources: `toLower` is
`unicode.ToLower`. A Go string is read as the sequence of characters that `range` yields. -/
def strings.ToLower (toLower : Char → Char) (s : String) : String :=
  ⟨s.data.map toLower⟩

/-- Go: `NormalizeNetplanMac`; `strings.ReplaceAll(mac, "-", ":")` replaces each dash, and
`toLower` is `unicode.ToLower`. -/
def NormalizeNetplanMac (toLower : Char → Char) (mac : String) : String :=
  strings.ToLower toLower ⟨mac.data.map fun c => if c = '-' then ':' else c⟩

/-- One iteration of the first loop over `r.IPConfigs` in `NetPlanCustomization`. -/
def addIPv4Config (npEth : netplan.Ethernet) (ipConfig : network.NetworkInterfaceIPConfig) :
    netplan.Ethernet :=
  if ipConfig.IsIPv4 then
    let npEth : netplan.Ethernet :=
      if npEth.Gateway4 = none ∨ npEth.Gateway4 = some "" then
        { npEth with Gateway4 := some ipConfig.Gateway }
      else npEth
    { npEth with Addresses := npEth.Addresses ++ [{ String_ := some ipConfig.IPCIDR }] }
  else npEth

/-- One iteration of the second loop over `r.IPConfigs` in `NetPlanCustomization`. -/
def addIPv6Config (npEth : netplan.Ethernet) (ipConfig : network.NetworkInterfaceIPConfig) :
    netplan.Ethernet :=
  if !ipConfig.IsIPv4 then
    let npEth : netplan.Ethernet :=
      if npEth.Gateway6 = none ∨ npEth.Gateway6 = some "" then
        { npEth with Gateway6 := some ipConfig.Gateway }
      else npEth
    { npEth with Addresses := npEth.Addresses ++ [{ String_ := some ipConfig.IPCIDR }] }
  else npEth

/-- One iteration of the loop over `r.Routes` in `NetPlanCustomization`. -/
def addRoute (npEth : netplan.Ethernet) (route : network.NetworkInterfaceRoute) :
    netplan.Ethernet :=
  { npEth with
    Routes := npEth.Routes ++
      [{ To := some route.To, Metric := some route.Metric, Via := some route.Via }] }

/-- The body of the loop over `result.Results` in `NetPlanCustomization`: the `npEth` that is
stored under `r.Name`. Each iteration has its own `r`, so a pointer into `r` is the value of
that field; `toLower` is `unicode.ToLower`. -/
def netPlanEthernet (toLower : Char → Char) (r : network.NetworkInterfaceResult) :
    netplan.Ethernet :=
  let npEth : netplan.Ethernet :=
    { Match := some { Macaddress := some (NormalizeNetplanMac toLower r.MacAddress) },
      SetName := some r.GuestDeviceName,
      MTU := some r.MTU,
      Nameservers := some { Addresses := r.Nameservers, Search := r.SearchDomains } }
  let npEth : netplan.Ethernet := { npEth with Dhcp4 := some r.DHCP4 }
  let npEth : netplan.Ethernet := { npEth with Dhcp6 := some r.DHCP6 }
  let npEth : netplan.Ethernet :=
    if npEth.Dhcp4 = some false then r.IPConfigs.foldl addIPv4Config npEth else npEth
  let npEth : netplan.Ethernet :=
    if npEth.Dhcp6 = some false then r.IPConfigs.foldl addIPv6Config npEth else npEth
  r.Routes.foldl addRoute npEth

/-- Go: `NetPlanCustomization`; `version` is `constants.NetPlanVersion`, which is not in the
sources, and `toLower` is `unicode.ToLower`. The error result is always nil. -/
def NetPlanCustomization (toLower : Char → Char) (version : Int)
    (result : network.NetworkInterfaceResults) : Except String netplan.Network :=
  .ok
    (result.Results.foldl
      (fun netPlan r =>
        { netPlan with
          Ethernets := fun name =>
            if name = r.Name then some (netPlanEthernet toLower r)
            else netPlan.Ethernets name })
      { Version := version, Ethernets := fun _ => none })

/-- The entry that `NetPlanCustomization` stores under a name, when the call succeeds. -/
def netPlanEntry (toLower : Char → Char) (version : Int)
    (result : network.NetworkInterfaceResults) (name : String) : Option netplan.Ethernet :=
  match NetPlanCustomization toLower version result with
  | .ok netPlan => netPlan.Ethernets name
  | .error _ => none

/-- The static IPv4/IPv6 adapter of the test of `NetPlanCustomization`, with the two gateways
as arguments. -/
def staticAdapter (gateway4 gateway6 : String) : network.NetworkInterfaceResults :=
  { Results :=
      [{ IPConfigs :=
           [{ IPCIDR := "192.168.1.10/24", IsIPv4 := true, Gateway := gateway4 },
            { IPCIDR := "fd8e:b5a0:f172:123::f/48", IsIPv4 := false, Gateway := gateway6 }],
         MacAddress := "50-8A-80-9D-28-22",
         Name := "my-interface",
         GuestDeviceName := "eth42",
         DHCP4 := false,
         DHCP6 := false,
         MTU := 1500,
         Nameservers := ["9.9.9.9"],
         SearchDomains := ["foobar.local"],
         Routes := [{ To := "185.107.56.59", Via := "10.1.1.1", Metric := 42 }] }] }

/-- The DHCP adapter of the test of `NetPlanCustomization`. -/
def dhcpAdapter : network.NetworkInterfaceResults :=
  { Results :=
      [{ MacAddress := "50-8A-80-9D-28-22",
         Name := "my-interface",
         GuestDeviceName := "eth42",
         DHCP4 := true,
         DHCP6 := true,
         MTU := 9000,
         Nameservers := ["9.9.9.9"],
         SearchDomains := ["foobar.local"] }] }

/-! ## The quota-check annotation of the publish-request webhook -/

namespace pkgconst

/-- The constants of package `pkgconst` (`pkg/constants`) that `SetQuotaCheckAnnotation`
names; the package is not among the source files. -/
structure Consts where
  AsyncQuotaPerformCheckAnnotationKey : String
  AsyncQuotaPerformCheckAnnotationValueTrue : String
  AsyncQuotaCheckRequestedCapacityAnnotationKey : String

/-- A table of the constants for the concrete evaluations; "true" is the value that the
unit test of the webhook writes under the perform-check key. -/
def consts : Consts where
  AsyncQuotaPerformCheckAnnotationKey := "vmoperator.vmware.com/async-quota-perform-check"
  AsyncQuotaPerformCheckAnnotationValueTrue := "true"
  AsyncQuotaCheckRequestedCapacityAnnotationKey :=
    "vmoperator.vmware.com/async-quota-check-requested-capacity"

end pkgconst

/-- Go: `SetQuotaCheckAnnotation`, on the annotation map of the publish request (`none` is
the nil map); the result is the returned boolean and the map as the call leaves it. The
context argument is not read. -/
def SetQuotaCheckAnnotation (k : pkgconst.Consts) (annotations : Option Annotations) :
    Bool × Option Annotations :=
  match annotations with
  | none => (false, none)
  | some m =>
    match m k.AsyncQuotaPerformCheckAnnotationKey with
    | none => (false, some m)
    | some doQuotaCheck =>
      if doQuotaCheck ≠ k.AsyncQuotaPerformCheckAnnotationValueTrue then (false, some m)
      else (true, some (m.set k.AsyncQuotaCheckRequestedCapacityAnnotationKey ""))

/-! ## Network interfaces -/

/-- Package `v1alpha1`: `VirtualMachineNetworkInterface`, with the fields that the conversion
reads and writes. -/
structure v1alpha1.VirtualMachineNetworkInterface where
  NetworkType : String := ""
  NetworkName : String := ""
  deriving DecidableEq, Repr

/-- Go: `convert_v1alpha1_NetworkInterface_To_v1alpha4_NetworkInterfaceSpec`. The assignment
`out.Network.Name = in.NetworkName` dereferences `out.Network`; when that pointer is nil the
call panics, which is the `.error` result. -/
def convert_v1alpha1_NetworkInterface_To_v1alpha4_NetworkInterfaceSpec (idx : Int)
    (inp : v1alpha1.VirtualMachineNetworkInterface) :
    Except String vmopv1.VirtualMachineNetworkInterfaceSpec :=
  let out : vmopv1.VirtualMachineNetworkInterfaceSpec := {}
  let out : vmopv1.VirtualMachineNetworkInterfaceSpec :=
    { out with Name := "eth" ++ toString idx }
  let out : vmopv1.VirtualMachineNetworkInterfaceSpec :=
    if inp.NetworkName ≠ "" ∨ inp.NetworkType ≠ "" then { out with Network := some {} }
    else out
  match out.Network with
  | none => .error "invalid memory address or nil pointer dereference"
  | some network =>
    let network : vmopv1.PartialObjectRef := { network with Name := inp.NetworkName }
    let network : vmopv1.PartialObjectRef :=
      if inp.NetworkType = "vsphere-distributed" then
        { network with APIVersion := "netoperator.vmware.com/v1alpha1", Kind := "Network" }
      else if inp.NetworkType = "nsx-t" then
        { network with APIVersion := "vmware.com/v1alpha1", Kind := "VirtualNetwork" }
      else if inp.NetworkType = "nsx-t-subnet" then
        { network with APIVersion := "crd.nsx.vmware.com/v1alpha1", Kind := "Subnet" }
      else if inp.NetworkType = "nsx-t-subnetset" then
        { network with APIVersion := "crd.nsx.vmware.com/v1alpha1", Kind := "SubnetSet" }
      else network
    .ok { out with Network := some network }

/-- Go: `convert_v1alpha4_NetworkInterfaceSpec_To_v1alpha1_NetworkInterface`. -/
def convert_v1alpha4_NetworkInterfaceSpec_To_v1alpha1_NetworkInterface
    (inp : vmopv1.VirtualMachineNetworkInterfaceSpec) : v1alpha1.VirtualMachineNetworkInterface :=
  match inp.Network with
  | none => {}
  | some network =>
    let out : v1alpha1.VirtualMachineNetworkInterface := { NetworkName := network.Name }
    if network.Kind = "Network" then { out with NetworkType := "vsphere-distributed" }
    else if network.Kind = "VirtualNetwork" then { out with NetworkType := "nsx-t" }
    else if network.Kind = "SubnetSet" then { out with NetworkType := "nsx-t-subnetset" }
    else if network.Kind = "Subnet" then { out with NetworkType := "nsx-t-subnet" }
    else out

/-- Go: the loop `for i, networkInterface := range in.NetworkInterfaces` of
`Convert_v1alpha1_VirtualMachineSpec_To_v1alpha4_VirtualMachineSpec`, from index `i` on; a
panic in one iteration ends the call. -/
def convertNetworkInterfaces :
    List v1alpha1.VirtualMachineNetworkInterface → Int →
      List vmopv1.VirtualMachineNetworkInterfaceSpec →
      Except String (List vmopv1.VirtualMachineNetworkInterfaceSpec)
  | [], _, acc => .ok acc
  | networkInterface :: rest, i, acc =>
    match convert_v1alpha1_NetworkInterface_To_v1alpha4_NetworkInterfaceSpec i
        networkInterface with
    | .error e => .error e
    | .ok networkInterfaceSpec =>
      convertNetworkInterfaces rest (i + 1) (acc ++ [networkInterfaceSpec])

/-! ## The vSphere types of the resize and encryption checks -/

namespace vimtypes

/-- Package `vimtypes`: `VirtualMachineConfigInfo`, with the field that `overwriteGuestID`
reads. -/
structure VirtualMachineConfigInfo where
  GuestId : String := ""
  deriving DecidableEq, Repr

/-- The dynamic type of a `BaseCryptoSpec` value. -/
inductive BaseCryptoSpec where
  | CryptoSpecEncrypt
  | CryptoSpecDeepRecrypt
  | CryptoSpecShallowRecrypt
  | CryptoSpecDecrypt
  | CryptoSpecNoOp
  | CryptoSpecRegister
  deriving DecidableEq, Repr

/-- Package `vimtypes`: `VirtualDeviceConfigSpecBackingSpec`; of the parent backing only the
presence is read, so it is an uninterpreted value. -/
structure VirtualDeviceConfigSpecBackingSpec where
  Parent : Option Uninterpreted := none
  Crypto : Option BaseCryptoSpec := none
  deriving DecidableEq, Repr

/-- The dynamic type of the backing of a virtual disk. -/
inductive BaseVirtualDeviceBackingInfo where
  | VirtualDiskRawDiskVer2BackingInfo
  | Other
  deriving DecidableEq, Repr

/-- The dynamic type of a `BaseVirtualDevice` value, with the backing of a disk. -/
inductive BaseVirtualDevice where
  | VirtualDisk (Backing : Option BaseVirtualDeviceBackingInfo)
  | VirtualTPM
  | Other
  deriving DecidableEq, Repr

/-- Package `vimtypes`: `VirtualMachineProfileRawData`. -/
structure VirtualMachineProfileRawData where
  ExtensionKey : String := ""
  ObjectData : String := ""
  deriving DecidableEq, Repr

/-- The dynamic type of a `BaseVirtualMachineProfileSpec` value, with the profile data of a
defined profile. -/
inductive BaseVirtualMachineProfileSpec where
  | VirtualMachineDefinedProfileSpec (ProfileData : Option VirtualMachineProfileRawData)
  | Other
  deriving DecidableEq, Repr

/-- Package `vimtypes`: `VirtualDeviceConfigSpecOperationAdd`. -/
def VirtualDeviceConfigSpecOperationAdd : String := "add"

/-- Package `vimtypes`: `VirtualDeviceConfigSpecOperationEdit`. -/
def VirtualDeviceConfigSpecOperationEdit : String := "edit"

/-- Package `vimtypes`: `VirtualMachinePowerStatePoweredOff`. -/
def VirtualMachinePowerStatePoweredOff : String := "poweredOff"

/-- Package `vimtypes`: `VirtualDeviceConfigSpec`, with the fields that the checks read. -/
structure VirtualDeviceConfigSpec where
  Operation : String := ""
  Device : Option BaseVirtualDevice := none
  Profile : List BaseVirtualMachineProfileSpec := []
  Backing : Option VirtualDeviceConfigSpecBackingSpec := none
  deriving DecidableEq, Repr

/-- Package `vimtypes`: `OptionValue`. -/
structure OptionValue where
  Key : String := ""
  Value : Uninterpreted := ""
  deriving DecidableEq, Repr

/-- Package `vimtypes`: `VirtualMachineConfigSpec`, with the fields that the resize and the
encryption checks read or write. An element of `DeviceChange` or `ExtraConfig` that is nil, or
that holds a nil pointer, is `none`. -/
structure VirtualMachineConfigSpec where
  GuestId : String := ""
  DeviceChange : List (Option VirtualDeviceConfigSpec) := []
  ExtraConfig : List (Option OptionValue) := []
  deriving DecidableEq, Repr

/-- Package `vimtypes`: `VirtualMachineSnapshotTree`, with its child list. -/
inductive VirtualMachineSnapshotTree where
  | mk (ChildSnapshotList : List VirtualMachineSnapshotTree)

/-- Package `vimtypes`: `VirtualMachineSnapshotInfo`; of the current snapshot only the
presence is read. -/
structure VirtualMachineSnapshotInfo where
  CurrentSnapshot : Option Uninterpreted := none
  RootSnapshotList : List VirtualMachineSnapshotTree := []

end vimtypes

namespace mo

/-- Package `mo`: `VirtualMachine`, with the fields that the encryption checks read;
`PowerState` is `Summary.Runtime.PowerState`. -/
structure VirtualMachine where
  PowerState : String := ""
  Snapshot : Option vimtypes.VirtualMachineSnapshotInfo := none

end mo

/-! ## Resize: overwriting a field of the ConfigSpec -/

/-- Go: `overwrite[T comparable](dst *T, user, current T)` for a non-nil `dst`; the argument
`dst` is the initial value of `*dst` and the result is its final value. The zero value of `T`
is `default`. -/
def overwrite {T : Type} [DecidableEq T] [Inhabited T] (dst user current : T) : T :=
  let empty : T := default
  let desired : Option T :=
    if user ≠ empty then some user
    else if dst ≠ empty then some dst
    else none
  match desired with
  | none => dst
  | some desired =>
    if current = empty ∨ current ≠ desired then desired
    else if current = desired then empty
    else dst

/-- Go: `overwriteGuestID`. -/
def overwriteGuestID (vm : vmopv1.VirtualMachine) (ci : vimtypes.VirtualMachineConfigInfo)
    (cs : vimtypes.VirtualMachineConfigSpec) : vimtypes.VirtualMachineConfigSpec :=
  let cs : vimtypes.VirtualMachineConfigSpec := { cs with GuestId := "" }
  { cs with GuestId := overwrite cs.GuestId vm.Spec.GuestID ci.GuestId }

/-! ## Encryption: the validators of the reconciler -/

namespace crypto

/-- The `Reason` flags that the validators set; their declaration (`type Reason uint8` with
its constants) is not among the source files. A `Reason` is a natural number and `|=` is the
bitwise or, which cannot leave the range of `uint8`. -/
structure Consts where
  ReasonInvalidState : Nat
  ReasonInvalidChanges : Nat

/-- A table of the flags for the concrete evaluations. -/
def consts : Consts where
  ReasonInvalidState := 4
  ReasonInvalidChanges := 8

/-- Package `crypto`: `reconcileArgs`, with the fields that the validators read. -/
structure reconcileArgs where
  moVM : mo.VirtualMachine := {}
  configSpec : vimtypes.VirtualMachineConfigSpec := {}
  isEncStorClass : Bool := false
  hasVTPM : Bool := false
  addVTPM : Bool := false
  remVTPM : Bool := false

end crypto

/-- Every `Reason` flag that a validator sets is a non-zero bit pattern. -/
def ReasonFlagsNonZero (k : crypto.Consts) : Prop :=
  k.ReasonInvalidState ≠ 0 ∧ k.ReasonInvalidChanges ≠ 0

/-- Go: `validateStorageClassAndVTPM`. -/
def validateStorageClassAndVTPM (k : crypto.Consts) (args : crypto.reconcileArgs) :
    Nat × List String :=
  let st : Nat × List String := (0, [])
  let st : Nat × List String :=
    if args.remVTPM then (st.1 ||| k.ReasonInvalidChanges, st.2 ++ ["not remove vTPM"]) else st
  let st : Nat × List String :=
    if !args.hasVTPM && !args.addVTPM && !args.isEncStorClass then
      (st.1 ||| k.ReasonInvalidState, st.2 ++ ["use encryption storage class or have vTPM"])
    else st
  st

/-- Go: `validatePoweredOffNoSnapshots`. -/
def validatePoweredOffNoSnapshots (k : crypto.Consts) (moVM : mo.VirtualMachine) :
    Nat × List String :=
  let st : Nat × List String := (0, [])
  let st : Nat × List String :=
    if moVM.PowerState ≠ "" ∧ moVM.PowerState ≠ vimtypes.VirtualMachinePowerStatePoweredOff then
      (st.1 ||| k.ReasonInvalidState, st.2 ++ ["be powered off"])
    else st
  let st : Nat × List String :=
    if (match moVM.Snapshot with
        | some si => si.CurrentSnapshot.isSome
        | none => false) then
      (st.1 ||| k.ReasonInvalidState, st.2 ++ ["not have snapshots"])
    else st
  st

/-- Go: the type switch `switch backing.Crypto.(type)` on `*CryptoSpecEncrypt`,
`*CryptoSpecDeepRecrypt` and `*CryptoSpecShallowRecrypt`. -/
def isEncryptOrRecrypt (c : Option vimtypes.BaseCryptoSpec) : Bool :=
  match c with
  | some .CryptoSpecEncrypt => true
  | some .CryptoSpecDeepRecrypt => true
  | some .CryptoSpecShallowRecrypt => true
  | _ => false

/-- Go: `whiteSpaceRegex.ReplaceAllString(s, "")` for the expression `[\s\t\n\r]`, which
matches a tab, a line feed, a form feed, a carriage return and a space. -/
def removeWhiteSpace (s : String) : String :=
  ⟨s.data.filter fun c => !(c == '\t' || c == '\n' || c == '\x0c' || c == '\r' || c == ' ')⟩

/-- Go: `strings.Contains`. -/
def strings.Contains (s substr : String) : Bool :=
  s.data.tails.any fun t => substr.data.isPrefixOf t

/-- Go: `doesProfileHaveIOFilters`. -/
def doesProfileHaveIOFilters (spec : vimtypes.BaseVirtualMachineProfileSpec) : Bool :=
  match spec with
  | .VirtualMachineDefinedProfileSpec (some data) =>
    if data.ExtensionKey = "com.vmware.vim.sips" then
      strings.Contains (removeWhiteSpace data.ObjectData) "<namespace>IOFILTERS</namespace>"
    else false
  | _ => false

/-- Go: `isAddEditDeviceSpecEncryptedSansPolicy`. -/
def isAddEditDeviceSpecEncryptedSansPolicy (spec : Option vimtypes.VirtualDeviceConfigSpec) :
    Bool :=
  match spec with
  | some spec =>
    if spec.Operation = vimtypes.VirtualDeviceConfigSpecOperationAdd ∨
        spec.Operation = vimtypes.VirtualDeviceConfigSpecOperationEdit then
      match spec.Backing with
      | some backing =>
        if isEncryptOrRecrypt backing.Crypto then
          !(spec.Profile.any doesProfileHaveIOFilters)
        else false
      | none => false
    else false
  | none => false

/-- Go: `isEncryptedDeviceNonDisk`. -/
def isEncryptedDeviceNonDisk (spec : Option vimtypes.VirtualDeviceConfigSpec) : Bool :=
  match spec with
  | some spec =>
    match spec.Backing with
    | some backing =>
      if isEncryptOrRecrypt backing.Crypto then
        match spec.Device with
        | some (.VirtualDisk _) => false
        | _ => true
      else false
    | none => false
  | none => false

/-- Go: `isEncryptedDeviceWithMultipleBackings`. -/
def isEncryptedDeviceWithMultipleBackings (spec : Option vimtypes.VirtualDeviceConfigSpec) :
    Bool :=
  match spec with
  | some spec =>
    match spec.Backing with
    | some backing => if isEncryptOrRecrypt backing.Crypto then backing.Parent.isSome else false
    | none => false
  | none => false

/-- Go: `isEncryptedRawDiskMapping`. -/
def isEncryptedRawDiskMapping (spec : Option vimtypes.VirtualDeviceConfigSpec) : Bool :=
  match spec with
  | some spec =>
    match spec.Backing with
    | some backing =>
      if isEncryptOrRecrypt backing.Crypto then
        match spec.Device with
        | some (.VirtualDisk (some .VirtualDiskRawDiskVer2BackingInfo)) => true
        | _ => false
      else false
    | none => false
  | none => false

/-- One iteration of the loop over `configSpec.DeviceChange` in `validateDeviceChanges`. -/
def validateDeviceChange (k : crypto.Consts) (st : Nat × List String)
    (devChange : Option vimtypes.VirtualDeviceConfigSpec) : Nat × List String :=
  match devChange with
  | none => st
  | some devSpec =>
    let st : Nat × List String :=
      if isAddEditDeviceSpecEncryptedSansPolicy (some devSpec) then
        (st.1 ||| k.ReasonInvalidChanges, st.2 ++ ["specify policy when encrypting devices"])
      else st
    let st : Nat × List String :=
      if isEncryptedRawDiskMapping (some devSpec) then
        (st.1 ||| k.ReasonInvalidChanges, st.2 ++ ["not encrypt raw disks"])
      else st
    let st : Nat × List String :=
      if isEncryptedDeviceNonDisk (some devSpec) then
        (st.1 ||| k.ReasonInvalidChanges, st.2 ++ ["not encrypt non-disk devices"])
      else st
    let st : Nat × List String :=
      if isEncryptedDeviceWithMultipleBackings (some devSpec) then
        (st.1 ||| k.ReasonInvalidChanges,
          st.2 ++ ["not encrypt devices with multiple backings"])
      else st
    st

/-- Go: `validateDeviceChanges`. -/
def validateDeviceChanges (k : crypto.Consts) (configSpec : vimtypes.VirtualMachineConfigSpec) :
    Nat × List String :=
  configSpec.DeviceChange.foldl (validateDeviceChange k) (0, [])

/-- Go: the map `secretKeys`. -/
def secretKeys : List String :=
  ["ancestordatafilekeys", "cryptostate", "datafilekey", "encryption.required",
    "encryption.required.vtpm", "encryption.unspecified.default"]

/-- Go: `isChangingSecretKey`. -/
def isChangingSecretKey (configSpec : vimtypes.VirtualMachineConfigSpec) : Bool :=
  configSpec.ExtraConfig.any fun bov =>
    match bov with
    | some ov => secretKeys.contains ov.Key
    | none => false

/-- Go: `hasSnapshotTreeInner`. -/
def hasSnapshotTreeInner : List vimtypes.VirtualMachineSnapshotTree → Bool
  | [] => false
  | [.mk children] => hasSnapshotTreeInner children
  | _ :: _ :: _ => true

/-- Go: `hasSnapshotTree`. -/
def hasSnapshotTree (moVM : mo.VirtualMachine) : Bool :=
  hasSnapshotTreeInner
    (match moVM.Snapshot with
     | some si => si.RootSnapshotList
     | none => [])

/-- Go: the step `if r != 0 || len(m) > 0` (with `orLen := true`) or `if len(m) > 0` (with
`orLen := false`) followed by `reason |= r` and `msgs = append(msgs, m...)`. -/
def mergeValidation (orLen : Bool) (st rm : Nat × List String) : Nat × List String :=
  if (orLen && rm.1 != 0) || rm.2.length > 0 then (st.1 ||| rm.1, st.2 ++ rm.2) else st

/-- Go: `validateEncrypt`; the returned error is always nil. -/
def validateEncrypt (k : crypto.Consts) (args : crypto.reconcileArgs) : Nat × List String :=
  let st : Nat × List String := (0, [])
  let st := mergeValidation true st (validateStorageClassAndVTPM k args)
  let st := mergeValidation false st (validatePoweredOffNoSnapshots k args.moVM)
  let st := mergeValidation false st (validateDeviceChanges k args.configSpec)
  st

/-- Go: `validateRecrypt`; the returned error is always nil. -/
def validateRecrypt (k : crypto.Consts) (args : crypto.reconcileArgs) : Nat × List String :=
  let st : Nat × List String := (0, [])
  let st := mergeValidation true st (validateStorageClassAndVTPM k args)
  let st : Nat × List String :=
    if hasSnapshotTree args.moVM then
      (st.1 ||| k.ReasonInvalidState, st.2 ++ ["not have snapshot tree"])
    else st
  let st := mergeValidation false st (validateDeviceChanges k args.configSpec)
  st

/-- Go: `validateUpdateEncrypted`; the returned error is always nil. -/
def validateUpdateEncrypted (k : crypto.Consts) (args : crypto.reconcileArgs) :
    Nat × List String :=
  let st : Nat × List String := (0, [])
  let st := mergeValidation true st (validateStorageClassAndVTPM k args)
  let st : Nat × List String :=
    if isChangingSecretKey args.configSpec then
      (st.1 ||| k.ReasonInvalidChanges, st.2 ++ ["not add/remove/modify secret key"])
    else st
  let st := mergeValidation false st (validateDeviceChanges k args.configSpec)
  st

/-- Go: the test `reason == 0 && len(msgs) == 0` of `doOp`. -/
def doOpSucceeds (rm : Nat × List String) : Bool :=
  rm.1 == 0 && rm.2.length == 0

/-! ## Specification predicates -/

/-- A validation result keeps reason and messages in step: the reason is zero exactly when the
message list is empty. -/
def ReasonMatchesMessages (rm : Nat × List String) : Prop :=
  rm.1 = 0 ↔ rm.2 = []

/-- The two pause keys and the marker key are three different strings. -/
def AnnotationKeysDistinct (a : v1alpha1.Consts) (v : vmopv1.Consts) : Prop :=
  [a.PauseAnnotation, v.PauseAnnotation, v.V1alpha1ConfigMapTransportAnnotation].Nodup

/-- What a classification pointer for the condition Type `t` says about the list: a non-nil
pointer is the index of a condition of Type `t`; a nil pointer means that the list has no
condition of Type `t`. -/
def PointsTo (l : List v1alpha1.Condition) (t : String) (q : Option Nat) : Prop :=
  match q with
  | some k => ∃ c, l[k]? = some c ∧ c.Type_ = t
  | none => ∀ c ∈ l, c.Type_ ≠ t

/-- The list has a condition of Type `t` and every condition of Type `t` in it has
Status `s`.  With at most one condition per Type, this says that the condition of Type `t`
is present with Status `s`. -/
def HasStatus (l : List v1alpha1.Condition) (t s : String) : Prop :=
  (∃ c ∈ l, c.Type_ = t) ∧ ∀ c ∈ l, c.Type_ = t → c.Status = s

/-- Every condition of Type `t` in the list has Status `s`: the condition of Type `t` is
absent, or present with Status `s`. -/
def AbsentOrStatus (l : List v1alpha1.Condition) (t s : String) : Prop :=
  ∀ c ∈ l, c.Type_ = t → c.Status = s

/-- The condition of package `v1alpha1` with the Type of a hub condition and nothing else:
what the classification loops look at. -/
def typeOnly (c : metav1.Condition) : v1alpha1.Condition :=
  { Type_ := c.Type_ }

/-- The class-related reasons and the image-related reasons of the up-conversion are
different strings. -/
def ReasonClassesDisjoint (a : v1alpha1.Consts) : Prop :=
  ∀ r ∈ [a.VirtualMachineImageNotFoundReason, a.VirtualMachineImageNotReadyReason,
      a.ContentSourceBindingNotFoundReason, a.ContentLibraryProviderNotFoundReason],
    r ∉ [a.VirtualMachineClassNotFoundReason, a.VirtualMachineClassBindingNotFoundReason]

/-- The condition Types that the up-conversion looks for beside the aggregate: the four
well-known hub conditions. -/
def wellKnownTypes (v : vmopv1.Consts) : List String :=
  [v.VirtualMachineConditionClassReady, v.VirtualMachineConditionImageReady,
    v.VirtualMachineConditionVMSetResourcePolicyReady, v.VirtualMachineConditionBootstrapReady]

/-- The condition a classification pointer points at, if any. -/
def pointee (l : List v1alpha1.Condition) (q : Option Nat) : Option v1alpha1.Condition :=
  match q with
  | some k => some (deref l (some k))
  | none => none

/-- The spec's `deriveLegacy`: the legacy aggregate as a function of the five classified
conditions alone (the existing aggregate, class-ready, image-ready and the two optional
conditions, each present or absent), following the evaluation rule of the condition
translator; `none` means that no aggregate is stored. -/
def deriveLegacy (a : v1alpha1.Consts) (preReq cls img pol boot : Option v1alpha1.Condition) :
    Option v1alpha1.Condition :=
  let statusIs (o : Option v1alpha1.Condition) (s : String) : Bool :=
    match o with
    | some c => c.Status == s
    | none => false
  let absentOr (o : Option v1alpha1.Condition) (s : String) : Bool :=
    match o with
    | some c => c.Status == s
    | none => true
  if statusIs cls corev1.ConditionTrue && statusIs img corev1.ConditionTrue &&
      absentOr pol corev1.ConditionTrue && absentOr boot corev1.ConditionTrue then
    some { Type_ := a.VirtualMachinePrereqReadyCondition, Status := corev1.ConditionTrue,
           LastTransitionTime :=
             match preReq with
             | some r => r.LastTransitionTime
             | none => (img.getD {}).LastTransitionTime }
  else if statusIs cls corev1.ConditionFalse then
    if a.VirtualMachineClassNotFoundReason ≠ "" then
      some { Type_ := a.VirtualMachinePrereqReadyCondition, Status := corev1.ConditionFalse,
             Severity := a.ConditionSeverityError,
             Reason := a.VirtualMachineClassNotFoundReason,
             Message := (cls.getD {}).Message,
             LastTransitionTime := (cls.getD {}).LastTransitionTime }
    else none
  else if statusIs img corev1.ConditionFalse then
    if a.VirtualMachineImageNotFoundReason ≠ "" then
      some { Type_ := a.VirtualMachinePrereqReadyCondition, Status := corev1.ConditionFalse,
             Severity := a.ConditionSeverityError,
             Reason := a.VirtualMachineImageNotFoundReason,
             Message := (img.getD {}).Message,
             LastTransitionTime := (img.getD {}).LastTransitionTime }
    else none
  else none

/-! ## Theorems: enum remaps -/

/-- C1: a value outside the switch table of an enum conversion is returned literally
unchanged.  For each of the four conversions (power state up and down, power-op mode up and
down), a string that is none of the three case constants of that function is the result. -/
theorem unknown_enum_value_passes_through (a : v1alpha1.Consts) (v : vmopv1.Consts)
    (s : String) :
    (s ∉ [a.VirtualMachinePoweredOff, a.VirtualMachinePoweredOn, a.VirtualMachineSuspended] →
      convert_v1alpha1_VirtualMachinePowerState_To_v1alpha4_VirtualMachinePowerState a v s = s) ∧
    (s ∉ [v.VirtualMachinePowerStateOff, v.VirtualMachinePowerStateOn,
        v.VirtualMachinePowerStateSuspended] →
      convert_v1alpha4_VirtualMachinePowerState_To_v1alpha1_VirtualMachinePowerState a v s = s) ∧
    (s ∉ [a.VirtualMachinePowerOpModeHard, a.VirtualMachinePowerOpModeSoft,
        a.VirtualMachinePowerOpModeTrySoft] →
      convert_v1alpha1_VirtualMachinePowerOpMode_To_v1alpha4_VirtualMachinePowerOpMode a v s
        = s) ∧
    (s ∉ [v.VirtualMachinePowerOpModeHard, v.VirtualMachinePowerOpModeSoft,
        v.VirtualMachinePowerOpModeTrySoft] →
      convert_v1alpha4_VirtualMachinePowerOpMode_To_v1alpha1_VirtualMachinePowerOpMode a v s
        = s) := by
  refine ⟨?_, ?_, ?_, ?_⟩ <;> intro h <;>
    simp only [List.mem_cons, List.mem_singleton, List.not_mem_nil, or_false, not_or] at h <;>
    obtain ⟨h1, h2, h3⟩ := h
  · simp [convert_v1alpha1_VirtualMachinePowerState_To_v1alpha4_VirtualMachinePowerState,
      h1, h2, h3]
  · simp [convert_v1alpha4_VirtualMachinePowerState_To_v1alpha1_VirtualMachinePowerState,
      h1, h2, h3]
  · simp [convert_v1alpha1_VirtualMachinePowerOpMode_To_v1alpha4_VirtualMachinePowerOpMode,
      h1, h2, h3]
  · simp [convert_v1alpha4_VirtualMachinePowerOpMode_To_v1alpha1_VirtualMachinePowerOpMode,
      h1, h2, h3]

/-- The string "Paused" is in none of the four switch tables and every conversion returns
it as it is. -/
theorem unknown_enum_value_passes_through_witness :
    convert_v1alpha1_VirtualMachinePowerState_To_v1alpha4_VirtualMachinePowerState
      v1alpha1.consts vmopv1.consts "Paused" = "Paused" ∧
    convert_v1alpha4_VirtualMachinePowerState_To_v1alpha1_VirtualMachinePowerState
      v1alpha1.consts vmopv1.consts "Paused" = "Paused" ∧
    convert_v1alpha1_VirtualMachinePowerOpMode_To_v1alpha4_VirtualMachinePowerOpMode
      v1alpha1.consts vmopv1.consts "Paused" = "Paused" ∧
    convert_v1alpha4_VirtualMachinePowerOpMode_To_v1alpha1_VirtualMachinePowerOpMode
      v1alpha1.consts vmopv1.consts "Paused" = "Paused" :=
  have h := unknown_enum_value_passes_through v1alpha1.consts vmopv1.consts "Paused"
  ⟨h.1 (by decide), h.2.1 (by decide), h.2.2.1 (by decide), h.2.2.2 (by decide)⟩

/-- C2: a value that the mapping table does not recognise survives the Hub -> Spoke -> Hub
round trip literally.  The mapping table pairs each v1alpha1 spelling with its hub constant;
a value it does not recognise is a string that is neither a hub constant nor a v1alpha1
spelling.  For such a power state and for such a power-op mode, converting down and back up
gives the value back. -/
theorem unknown_enum_value_round_trip (a : v1alpha1.Consts) (v : vmopv1.Consts) (s : String) :
    (s ∉ [a.VirtualMachinePoweredOff, a.VirtualMachinePoweredOn, a.VirtualMachineSuspended,
        v.VirtualMachinePowerStateOff, v.VirtualMachinePowerStateOn,
        v.VirtualMachinePowerStateSuspended] →
      convert_v1alpha1_VirtualMachinePowerState_To_v1alpha4_VirtualMachinePowerState a v
        (convert_v1alpha4_VirtualMachinePowerState_To_v1alpha1_VirtualMachinePowerState a v s)
        = s) ∧
    (s ∉ [a.VirtualMachinePowerOpModeHard, a.VirtualMachinePowerOpModeSoft,
        a.VirtualMachinePowerOpModeTrySoft, v.VirtualMachinePowerOpModeHard,
        v.VirtualMachinePowerOpModeSoft, v.VirtualMachinePowerOpModeTrySoft] →
      convert_v1alpha1_VirtualMachinePowerOpMode_To_v1alpha4_VirtualMachinePowerOpMode a v
        (convert_v1alpha4_VirtualMachinePowerOpMode_To_v1alpha1_VirtualMachinePowerOpMode a v s)
        = s) := by
  refine ⟨?_, ?_⟩ <;> intro h <;>
    simp only [List.mem_cons, List.mem_singleton, List.not_mem_nil, or_false, not_or] at h <;>
    obtain ⟨h1, h2, h3, h4, h5, h6⟩ := h
  · simp [convert_v1alpha1_VirtualMachinePowerState_To_v1alpha4_VirtualMachinePowerState,
      convert_v1alpha4_VirtualMachinePowerState_To_v1alpha1_VirtualMachinePowerState,
      h1, h2, h3, h4, h5, h6]
  · simp [convert_v1alpha1_VirtualMachinePowerOpMode_To_v1alpha4_VirtualMachinePowerOpMode,
      convert_v1alpha4_VirtualMachinePowerOpMode_To_v1alpha1_VirtualMachinePowerOpMode,
      h1, h2, h3, h4, h5, h6]

/-- The string "Paused" is in neither column of either table and round-trips. -/
theorem unknown_enum_value_round_trip_witness :
    convert_v1alpha1_VirtualMachinePowerState_To_v1alpha4_VirtualMachinePowerState
      v1alpha1.consts vmopv1.consts
      (convert_v1alpha4_VirtualMachinePowerState_To_v1alpha1_VirtualMachinePowerState
        v1alpha1.consts vmopv1.consts "Paused") = "Paused" ∧
    convert_v1alpha1_VirtualMachinePowerOpMode_To_v1alpha4_VirtualMachinePowerOpMode
      v1alpha1.consts vmopv1.consts
      (convert_v1alpha4_VirtualMachinePowerOpMode_To_v1alpha1_VirtualMachinePowerOpMode
        v1alpha1.consts vmopv1.consts "Paused") = "Paused" :=
  have h := unknown_enum_value_round_trip v1alpha1.consts vmopv1.consts "Paused"
  ⟨h.1 (by decide), h.2 (by decide)⟩

/-- The second hypothesis of the round trip is needed: a hub field that holds the v1alpha1
spelling "poweredOff" is left alone on the way down and mapped to the hub constant on the
way up. -/
theorem legacy_spelling_round_trip_normalises :
    convert_v1alpha1_VirtualMachinePowerState_To_v1alpha4_VirtualMachinePowerState
      v1alpha1.consts vmopv1.consts
      (convert_v1alpha4_VirtualMachinePowerState_To_v1alpha1_VirtualMachinePowerState
        v1alpha1.consts vmopv1.consts "poweredOff") = "PoweredOff" := by
  decide

/-- C3: the enum remap tables are mutually inverse on the recognised values.  Each of the
three hub power states and of the three hub power-op modes, converted down and back up, is
the same hub constant; each of the v1alpha1 constants, converted up and back down, is the
same v1alpha1 constant. -/
theorem enum_tables_mutually_inverse (a : v1alpha1.Consts) (v : vmopv1.Consts)
    (hs : PowerStatesDistinct a v) (hm : PowerOpModesDistinct a v) :
    (∀ h ∈ [v.VirtualMachinePowerStateOff, v.VirtualMachinePowerStateOn,
        v.VirtualMachinePowerStateSuspended],
      convert_v1alpha1_VirtualMachinePowerState_To_v1alpha4_VirtualMachinePowerState a v
        (convert_v1alpha4_VirtualMachinePowerState_To_v1alpha1_VirtualMachinePowerState a v h)
        = h) ∧
    (∀ s ∈ [a.VirtualMachinePoweredOff, a.VirtualMachinePoweredOn, a.VirtualMachineSuspended],
      convert_v1alpha4_VirtualMachinePowerState_To_v1alpha1_VirtualMachinePowerState a v
        (convert_v1alpha1_VirtualMachinePowerState_To_v1alpha4_VirtualMachinePowerState a v s)
        = s) ∧
    (∀ h ∈ [v.VirtualMachinePowerOpModeHard, v.VirtualMachinePowerOpModeSoft,
        v.VirtualMachinePowerOpModeTrySoft],
      convert_v1alpha1_VirtualMachinePowerOpMode_To_v1alpha4_VirtualMachinePowerOpMode a v
        (convert_v1alpha4_VirtualMachinePowerOpMode_To_v1alpha1_VirtualMachinePowerOpMode a v h)
        = h) ∧
    (∀ s ∈ [a.VirtualMachinePowerOpModeHard, a.VirtualMachinePowerOpModeSoft,
        a.VirtualMachinePowerOpModeTrySoft],
      convert_v1alpha4_VirtualMachinePowerOpMode_To_v1alpha1_VirtualMachinePowerOpMode a v
        (convert_v1alpha1_VirtualMachinePowerOpMode_To_v1alpha4_VirtualMachinePowerOpMode a v s)
        = s) := by
  obtain ⟨hsa, hsv⟩ := hs
  obtain ⟨hma, hmv⟩ := hm
  simp only [List.nodup_cons, List.mem_cons, List.mem_singleton, List.not_mem_nil, or_false,
    not_or, not_false_eq_true, List.nodup_nil, and_true] at hsa hsv hma hmv
  obtain ⟨⟨a1, a2⟩, a3⟩ := hsa
  obtain ⟨⟨v1, v2⟩, v3⟩ := hsv
  obtain ⟨⟨b1, b2⟩, b3⟩ := hma
  obtain ⟨⟨w1, w2⟩, w3⟩ := hmv
  refine ⟨?_, ?_, ?_, ?_⟩ <;> intro x hx <;>
    simp only [List.mem_cons, List.mem_singleton, List.not_mem_nil, or_false] at hx <;>
    rcases hx with rfl | rfl | rfl
  all_goals
    simp [convert_v1alpha1_VirtualMachinePowerState_To_v1alpha4_VirtualMachinePowerState,
      convert_v1alpha4_VirtualMachinePowerState_To_v1alpha1_VirtualMachinePowerState,
      convert_v1alpha1_VirtualMachinePowerOpMode_To_v1alpha4_VirtualMachinePowerOpMode,
      convert_v1alpha4_VirtualMachinePowerOpMode_To_v1alpha1_VirtualMachinePowerOpMode,
      a1, a2, a3, v1, v2, v3, b1, b2, b3, w1, w2, w3, Ne.symm a1, Ne.symm a2, Ne.symm a3,
      Ne.symm v1, Ne.symm v2, Ne.symm v3, Ne.symm b1, Ne.symm b2, Ne.symm b3, Ne.symm w1,
      Ne.symm w2, Ne.symm w3]

/-- The tables of the two API packages have pairwise distinct entries, and their twelve
constants round-trip. -/
theorem enum_tables_mutually_inverse_witness :
    PowerStatesDistinct v1alpha1.consts vmopv1.consts ∧
    PowerOpModesDistinct v1alpha1.consts vmopv1.consts ∧
    convert_v1alpha1_VirtualMachinePowerState_To_v1alpha4_VirtualMachinePowerState
      v1alpha1.consts vmopv1.consts
      (convert_v1alpha4_VirtualMachinePowerState_To_v1alpha1_VirtualMachinePowerState
        v1alpha1.consts vmopv1.consts "Suspended") = "Suspended" ∧
    convert_v1alpha4_VirtualMachinePowerOpMode_To_v1alpha1_VirtualMachinePowerOpMode
      v1alpha1.consts vmopv1.consts
      (convert_v1alpha1_VirtualMachinePowerOpMode_To_v1alpha4_VirtualMachinePowerOpMode
        v1alpha1.consts vmopv1.consts "trySoft") = "trySoft" :=
  have hs : PowerStatesDistinct v1alpha1.consts vmopv1.consts := by
    unfold PowerStatesDistinct; decide
  have hm : PowerOpModesDistinct v1alpha1.consts vmopv1.consts := by
    unfold PowerOpModesDistinct; decide
  have h := enum_tables_mutually_inverse v1alpha1.consts vmopv1.consts hs hm
  ⟨hs, hm, h.1 "Suspended" (by decide), h.2.2.2 "trySoft" (by decide)⟩

/-! ## Theorems: the classification loop -/

theorem classifyFrom_append (a : v1alpha1.Consts) (v : vmopv1.Consts)
    (l m : List v1alpha1.Condition) (i : Nat) (p : CondPtrs) :
    classifyFrom a v (l ++ m) i p = classifyFrom a v m (i + l.length) (classifyFrom a v l i p) := by
  induction l generalizing i p with
  | nil => simp [classifyFrom]
  | cons c rest ih =>
    rw [List.cons_append]
    simp only [classifyFrom, List.length_cons]
    rw [ih]
    congr 1
    omega

theorem classify_snoc (a : v1alpha1.Consts) (v : vmopv1.Consts)
    (l : List v1alpha1.Condition) (c : v1alpha1.Condition) :
    classify a v (l ++ [c]) = classifyStep a v l.length c (classify a v l) := by
  simp [classify, classifyFrom_append, classifyFrom]

theorem pointsTo_snoc_hit (l : List v1alpha1.Condition) (c : v1alpha1.Condition) (t : String)
    (h : c.Type_ = t) : PointsTo (l ++ [c]) t (some l.length) := by
  refine ⟨c, ?_, h⟩
  simp

theorem pointsTo_snoc_miss (l : List v1alpha1.Condition) (c : v1alpha1.Condition) (t : String)
    (q : Option Nat) (h : c.Type_ ≠ t) (hq : PointsTo l t q) : PointsTo (l ++ [c]) t q := by
  cases q with
  | none =>
    intro x hx
    rcases List.mem_append.1 hx with hx | hx
    · exact hq x hx
    · simp only [List.mem_singleton] at hx
      subst hx
      exact h
  | some k =>
    obtain ⟨x, hx, ht⟩ := hq
    refine ⟨x, ?_, ht⟩
    have hk : k < l.length := (List.getElem?_eq_some_iff.1 hx).1
    rw [List.getElem?_append_left hk]
    exact hx

/-- After the classification loop every pointer describes its condition Type. -/
theorem classify_pointsTo (a : v1alpha1.Consts) (v : vmopv1.Consts)
    (hd : ConditionTypesDistinct a v) (l : List v1alpha1.Condition) :
    PointsTo l a.VirtualMachinePrereqReadyCondition (classify a v l).preReqCond ∧
    PointsTo l v.VirtualMachineConditionClassReady (classify a v l).vmClassCond ∧
    PointsTo l v.VirtualMachineConditionImageReady (classify a v l).vmImageCond ∧
    PointsTo l v.VirtualMachineConditionVMSetResourcePolicyReady
      (classify a v l).vmSetResourcePolicyCond ∧
    PointsTo l v.VirtualMachineConditionBootstrapReady (classify a v l).vmBootstrapCond := by
  simp only [ConditionTypesDistinct, List.nodup_cons, List.mem_cons, List.mem_singleton,
    List.not_mem_nil, or_false, not_or, not_false_eq_true, List.nodup_nil, and_true] at hd
  obtain ⟨⟨d12, d13, d14, d15⟩, ⟨d23, d24, d25⟩, ⟨d34, d35⟩, d45⟩ := hd
  induction l using List.reverseRecOn with
  | nil => simp [classify, classifyFrom, PointsTo]
  | append_singleton l c ih =>
    obtain ⟨i1, i2, i3, i4, i5⟩ := ih
    rw [classify_snoc]
    unfold classifyStep
    split_ifs with h1 h2 h3 h4 h5
    · refine ⟨pointsTo_snoc_hit l c _ h1, pointsTo_snoc_miss l c _ _ ?_ i2,
        pointsTo_snoc_miss l c _ _ ?_ i3, pointsTo_snoc_miss l c _ _ ?_ i4,
        pointsTo_snoc_miss l c _ _ ?_ i5⟩ <;> rw [h1] <;> assumption
    · refine ⟨pointsTo_snoc_miss l c _ _ h1 i1, pointsTo_snoc_hit l c _ h2,
        pointsTo_snoc_miss l c _ _ ?_ i3, pointsTo_snoc_miss l c _ _ ?_ i4,
        pointsTo_snoc_miss l c _ _ ?_ i5⟩ <;> rw [h2] <;> assumption
    · refine ⟨pointsTo_snoc_miss l c _ _ h1 i1, pointsTo_snoc_miss l c _ _ h2 i2,
        pointsTo_snoc_hit l c _ h3, pointsTo_snoc_miss l c _ _ ?_ i4,
        pointsTo_snoc_miss l c _ _ ?_ i5⟩ <;> rw [h3] <;> assumption
    · refine ⟨pointsTo_snoc_miss l c _ _ h1 i1, pointsTo_snoc_miss l c _ _ h2 i2,
        pointsTo_snoc_miss l c _ _ h3 i3, pointsTo_snoc_hit l c _ h4,
        pointsTo_snoc_miss l c _ _ ?_ i5⟩
      rw [h4]
      assumption
    · exact ⟨pointsTo_snoc_miss l c _ _ h1 i1, pointsTo_snoc_miss l c _ _ h2 i2,
        pointsTo_snoc_miss l c _ _ h3 i3, pointsTo_snoc_miss l c _ _ h4 i4,
        pointsTo_snoc_hit l c _ h5⟩
    · exact ⟨pointsTo_snoc_miss l c _ _ h1 i1, pointsTo_snoc_miss l c _ _ h2 i2,
        pointsTo_snoc_miss l c _ _ h3 i3, pointsTo_snoc_miss l c _ _ h4 i4,
        pointsTo_snoc_miss l c _ _ h5 i5⟩

theorem deref_of_getElem? (l : List v1alpha1.Condition) (k : Nat) (c : v1alpha1.Condition)
    (h : l[k]? = some c) : deref l (some k) = c := by
  simp [deref, h]

/-- A pointer for a Type that occurs in the list is non-nil and points at a condition of
that Type. -/
theorem pointsTo_of_mem (l : List v1alpha1.Condition) (t : String) (q : Option Nat)
    (hq : PointsTo l t q) (h : ∃ c ∈ l, c.Type_ = t) :
    ∃ k c, q = some k ∧ l[k]? = some c ∧ c ∈ l ∧ c.Type_ = t ∧ deref l q = c := by
  cases q with
  | none =>
    obtain ⟨c, hc, ht⟩ := h
    exact absurd ht (hq c hc)
  | some k =>
    obtain ⟨c, hc, ht⟩ := hq
    exact ⟨k, c, rfl, hc, List.getElem?_mem hc, ht, deref_of_getElem? l k c hc⟩

theorem ptrStatusIs_of_hasStatus (l : List v1alpha1.Condition) (t s : String) (q : Option Nat)
    (hq : PointsTo l t q) (h : HasStatus l t s) : ptrStatusIs l q s = true := by
  obtain ⟨k, c, rfl, -, hm, ht, hd⟩ := pointsTo_of_mem l t q hq h.1
  simp [ptrStatusIs, hd, h.2 c hm ht]

theorem ptrStatusIs_eq_false (l : List v1alpha1.Condition) (t s : String) (q : Option Nat)
    (hq : PointsTo l t q) (h : ∀ c ∈ l, c.Type_ = t → c.Status ≠ s) :
    ptrStatusIs l q s = false := by
  cases q with
  | none => rfl
  | some k =>
    obtain ⟨c, hc, ht⟩ := hq
    simp [ptrStatusIs, deref_of_getElem? l k c hc, h c (List.getElem?_mem hc) ht]

theorem nilOrStatusIs_of_absentOrStatus (l : List v1alpha1.Condition) (t s : String)
    (q : Option Nat) (hq : PointsTo l t q) (h : AbsentOrStatus l t s) :
    nilOrStatusIs l q s = true := by
  cases q with
  | none => rfl
  | some k =>
    obtain ⟨c, hc, ht⟩ := hq
    simp [nilOrStatusIs, deref_of_getElem? l k c hc, h c (List.getElem?_mem hc) ht]

theorem nilOrStatusIs_eq_false (l : List v1alpha1.Condition) (t s s' : String) (q : Option Nat)
    (hq : PointsTo l t q) (h : HasStatus l t s') (hne : s' ≠ s) :
    nilOrStatusIs l q s = false := by
  obtain ⟨k, c, rfl, -, hm, ht, hd⟩ := pointsTo_of_mem l t q hq h.1
  simp [nilOrStatusIs, hd, h.2 c hm ht, hne]

/-- Writing through a pointer replaces the element it points at and nothing else. -/
theorem set_eq_append (l : List v1alpha1.Condition) (k : Nat) (c : v1alpha1.Condition)
    (h : l[k]? = some c) :
    ∃ l1 l2, l = l1 ++ c :: l2 ∧ l1.length = k ∧ ∀ p, l.set k p = l1 ++ p :: l2 := by
  induction l generalizing k with
  | nil => simp at h
  | cons x xs ih =>
    cases k with
    | zero =>
      simp only [List.getElem?_cons_zero, Option.some.injEq] at h
      subst h
      exact ⟨[], xs, rfl, rfl, fun p => rfl⟩
    | succ k =>
      simp only [List.getElem?_cons_succ] at h
      obtain ⟨l1, l2, h1, h2, h3⟩ := ih k h
      refine ⟨x :: l1, l2, by rw [h1]; rfl, by simp [h2], fun p => ?_⟩
      simp [List.set, h3 p]

theorem nodup_types_split (l1 l2 : List v1alpha1.Condition) (c : v1alpha1.Condition)
    (hn : ((l1 ++ c :: l2).map fun x => x.Type_).Nodup) :
    (∀ x ∈ l1, x.Type_ ≠ c.Type_) ∧ ∀ x ∈ l2, x.Type_ ≠ c.Type_ := by
  rw [List.map_append, List.map_cons, List.nodup_append] at hn
  obtain ⟨-, h2, h3⟩ := hn
  rw [List.nodup_cons] at h2
  constructor
  · intro x hx he
    exact h3 (List.mem_map.2 ⟨x, hx, rfl⟩) (by rw [he]; exact List.mem_cons_self _ _)
  · intro x hx he
    exact h2.1 (by rw [← he]; exact List.mem_map.2 ⟨x, hx, rfl⟩)

theorem filter_type_singleton (l1 l2 : List v1alpha1.Condition) (p : v1alpha1.Condition)
    (t : String) (hp : p.Type_ = t) (h1 : ∀ x ∈ l1, x.Type_ ≠ t) (h2 : ∀ x ∈ l2, x.Type_ ≠ t) :
    (l1 ++ p :: l2).filter (fun c => c.Type_ = t) = [p] := by
  have e1 : l1.filter (fun c => c.Type_ = t) = [] :=
    List.filter_eq_nil_iff.2 fun x hx => by simpa using h1 x hx
  have e2 : l2.filter (fun c => c.Type_ = t) = [] :=
    List.filter_eq_nil_iff.2 fun x hx => by simpa using h2 x hx
  simp [List.filter_append, List.filter_cons, hp, e1, e2]

/-- With at most one condition per Type, a condition of Type `t` with Status `s` in the list
is the only condition of Type `t`. -/
theorem hasStatus_of_nodup (l : List v1alpha1.Condition) (t s : String)
    (hn : (l.map fun x => x.Type_).Nodup) (h : ∃ c ∈ l, c.Type_ = t ∧ c.Status = s) :
    HasStatus l t s := by
  obtain ⟨c, hc, ht, hs⟩ := h
  refine ⟨⟨c, hc, ht⟩, fun x hx hxt => ?_⟩
  have : x = c := List.inj_on_of_nodup_map hn hx hc (by rw [hxt, ht])
  rw [this, hs]

theorem status_false_ne_true : corev1.ConditionFalse ≠ corev1.ConditionTrue := by decide

theorem ne_true_of_hasStatus_false (l : List v1alpha1.Condition) (t : String)
    (h : HasStatus l t corev1.ConditionFalse) :
    ∀ c ∈ l, c.Type_ = t → c.Status ≠ corev1.ConditionTrue := by
  intro c hc ht
  rw [h.2 c hc ht]
  exact status_false_ne_true

theorem ne_false_of_hasStatus_true (l : List v1alpha1.Condition) (t : String)
    (h : HasStatus l t corev1.ConditionTrue) :
    ∀ c ∈ l, c.Type_ = t → c.Status ≠ corev1.ConditionFalse := by
  intro c hc ht
  rw [h.2 c hc ht]
  exact status_false_ne_true.symm

/-- The all-ready branch: the aggregate is True and carries the transition time of the
existing aggregate, or of image-ready when there is none. -/
theorem translate_allReady (a : v1alpha1.Consts) (v : vmopv1.Consts)
    (hd : ConditionTypesDistinct a v) (l : List v1alpha1.Condition)
    (hc : HasStatus l v.VirtualMachineConditionClassReady corev1.ConditionTrue)
    (hi : HasStatus l v.VirtualMachineConditionImageReady corev1.ConditionTrue)
    (hp : AbsentOrStatus l v.VirtualMachineConditionVMSetResourcePolicyReady
      corev1.ConditionTrue)
    (hb : AbsentOrStatus l v.VirtualMachineConditionBootstrapReady corev1.ConditionTrue) :
    translate_v1alpha4_Conditions_To_v1alpha1_Conditions a v l =
      storePrereq l (classify a v l).preReqCond
        { Type_ := a.VirtualMachinePrereqReadyCondition, Status := corev1.ConditionTrue,
          LastTransitionTime :=
            (deref l (if (classify a v l).preReqCond.isSome then (classify a v l).preReqCond
              else (classify a v l).vmImageCond)).LastTransitionTime } := by
  obtain ⟨-, q2, q3, q4, q5⟩ := classify_pointsTo a v hd l
  have e2 := ptrStatusIs_of_hasStatus l _ _ _ q2 hc
  have e3 := ptrStatusIs_of_hasStatus l _ _ _ q3 hi
  have e4 := nilOrStatusIs_of_absentOrStatus l _ _ _ q4 hp
  have e5 := nilOrStatusIs_of_absentOrStatus l _ _ _ q5 hb
  unfold translate_v1alpha4_Conditions_To_v1alpha1_Conditions
  simp only [e2, e3, e4, e5, Bool.and_self, if_true]
  cases (classify a v l).preReqCond <;> simp [storePrereq]

/-- The class-ready False branch. -/
theorem translate_classFalse (a : v1alpha1.Consts) (v : vmopv1.Consts)
    (hd : ConditionTypesDistinct a v) (hr : ReasonsNonEmpty a) (l : List v1alpha1.Condition)
    (hc : HasStatus l v.VirtualMachineConditionClassReady corev1.ConditionFalse) :
    translate_v1alpha4_Conditions_To_v1alpha1_Conditions a v l =
      storePrereq l (classify a v l).preReqCond
        { Type_ := a.VirtualMachinePrereqReadyCondition, Status := corev1.ConditionFalse,
          Severity := a.ConditionSeverityError,
          Reason := a.VirtualMachineClassNotFoundReason,
          Message := (deref l (classify a v l).vmClassCond).Message,
          LastTransitionTime := (deref l (classify a v l).vmClassCond).LastTransitionTime } := by
  obtain ⟨-, q2, -, -, -⟩ := classify_pointsTo a v hd l
  have e1 := ptrStatusIs_eq_false l _ corev1.ConditionTrue _ q2
    (ne_true_of_hasStatus_false l _ hc)
  have e2 := ptrStatusIs_of_hasStatus l _ _ _ q2 hc
  unfold translate_v1alpha4_Conditions_To_v1alpha1_Conditions
  simp [e1, e2, hr.1]

/-- The image-ready False branch, taken when class-ready is not False. -/
theorem translate_imageFalse (a : v1alpha1.Consts) (v : vmopv1.Consts)
    (hd : ConditionTypesDistinct a v) (hr : ReasonsNonEmpty a) (l : List v1alpha1.Condition)
    (hc : ∀ c ∈ l, c.Type_ = v.VirtualMachineConditionClassReady →
      c.Status ≠ corev1.ConditionFalse)
    (hi : HasStatus l v.VirtualMachineConditionImageReady corev1.ConditionFalse) :
    translate_v1alpha4_Conditions_To_v1alpha1_Conditions a v l =
      storePrereq l (classify a v l).preReqCond
        { Type_ := a.VirtualMachinePrereqReadyCondition, Status := corev1.ConditionFalse,
          Severity := a.ConditionSeverityError,
          Reason := a.VirtualMachineImageNotFoundReason,
          Message := (deref l (classify a v l).vmImageCond).Message,
          LastTransitionTime := (deref l (classify a v l).vmImageCond).LastTransitionTime } := by
  obtain ⟨-, q2, q3, -, -⟩ := classify_pointsTo a v hd l
  have e1 := ptrStatusIs_eq_false l _ corev1.ConditionFalse _ q2 hc
  have e2 := ptrStatusIs_eq_false l _ corev1.ConditionTrue _ q3
    (ne_true_of_hasStatus_false l _ hi)
  have e3 := ptrStatusIs_of_hasStatus l _ _ _ q3 hi
  unfold translate_v1alpha4_Conditions_To_v1alpha1_Conditions
  simp [e1, e2, e3, hr.2]

theorem mem_storePrereq (l : List v1alpha1.Condition) (t : String) (q : Option Nat)
    (hq : PointsTo l t q) (p : v1alpha1.Condition) : p ∈ storePrereq l q p := by
  cases q with
  | none => simp [storePrereq]
  | some k =>
    obtain ⟨c, hk, -⟩ := hq
    obtain ⟨l1, l2, -, -, hset⟩ := set_eq_append l k c hk
    simp [storePrereq, hset]

/-- The translation returns its input, or stores one VirtualMachinePrereqReady condition
through the aggregate pointer. -/
theorem translate_shape (a : v1alpha1.Consts) (v : vmopv1.Consts)
    (l : List v1alpha1.Condition) :
    translate_v1alpha4_Conditions_To_v1alpha1_Conditions a v l = l ∨
    ∃ p, p.Type_ = a.VirtualMachinePrereqReadyCondition ∧
      translate_v1alpha4_Conditions_To_v1alpha1_Conditions a v l =
        storePrereq l (classify a v l).preReqCond p := by
  unfold translate_v1alpha4_Conditions_To_v1alpha1_Conditions
  simp only []
  split_ifs
  all_goals first
    | exact Or.inl rfl
    | (refine Or.inr ⟨_, ?_, rfl⟩; rfl)
    | (cases (classify a v l).preReqCond <;> (refine Or.inr ⟨_, ?_, rfl⟩; rfl))

/-- With at most one condition per Type, the stored aggregate is the only
VirtualMachinePrereqReady condition of the result. -/
theorem storePrereq_unique (l : List v1alpha1.Condition) (t : String) (q : Option Nat)
    (hn : (l.map fun x => x.Type_).Nodup) (hq : PointsTo l t q) (p : v1alpha1.Condition) :
    ∀ x ∈ storePrereq l q p, x.Type_ = t → x = p := by
  intro x hx hxt
  cases q with
  | none =>
    simp only [storePrereq, List.mem_append, List.mem_singleton] at hx
    rcases hx with hx | hx
    · exact absurd hxt (hq x hx)
    · exact hx
  | some k =>
    obtain ⟨c, hk, ht⟩ := hq
    obtain ⟨l1, l2, hl, -, hset⟩ := set_eq_append l k c hk
    have hsplit := nodup_types_split l1 l2 c (by rw [← hl]; exact hn)
    rw [ht] at hsplit
    simp only [storePrereq, hset, List.mem_append, List.mem_cons] at hx
    rcases hx with hx | hx | hx
    · exact absurd hxt (hsplit.1 x hx)
    · exact hx
    · exact absurd hxt (hsplit.2 x hx)

/-- With at most one condition per Type, the pointer for Type `t` points at the condition
of Type `t`. -/
theorem deref_unique (l : List v1alpha1.Condition) (t : String) (q : Option Nat)
    (hn : (l.map fun x => x.Type_).Nodup) (hq : PointsTo l t q) (c : v1alpha1.Condition)
    (hc : c ∈ l) (ht : c.Type_ = t) : q.isSome = true ∧ deref l q = c := by
  obtain ⟨k, x, hk, -, hm, hxt, hdr⟩ := pointsTo_of_mem l t q hq ⟨c, hc, ht⟩
  have : x = c := List.inj_on_of_nodup_map hn hm hc (by rw [hxt, ht])
  rw [hdr, this, hk]
  exact ⟨rfl, rfl⟩

/-! ## Theorems: down-conversion of the conditions -/

/-- C4: down-conversion "all ready" rule.  For every condition list with at most one
condition per Type in which class-ready and image-ready are present with Status True and
the optional conditions (VMSetResourcePolicyReady, BootstrapReady) are absent or True, the
result holds exactly one VirtualMachinePrereqReady condition; its Status is True and its
Reason and Message are empty. -/
theorem all_ready_rule (a : v1alpha1.Consts) (v : vmopv1.Consts)
    (hd : ConditionTypesDistinct a v) (l : List v1alpha1.Condition)
    (hn : (l.map fun x => x.Type_).Nodup)
    (hc : ∃ c ∈ l, c.Type_ = v.VirtualMachineConditionClassReady ∧
      c.Status = corev1.ConditionTrue)
    (hi : ∃ c ∈ l, c.Type_ = v.VirtualMachineConditionImageReady ∧
      c.Status = corev1.ConditionTrue)
    (hp : AbsentOrStatus l v.VirtualMachineConditionVMSetResourcePolicyReady
      corev1.ConditionTrue)
    (hb : AbsentOrStatus l v.VirtualMachineConditionBootstrapReady corev1.ConditionTrue) :
    ∃ p, (translate_v1alpha4_Conditions_To_v1alpha1_Conditions a v l).filter
        (fun c => c.Type_ = a.VirtualMachinePrereqReadyCondition) = [p] ∧
      p.Status = corev1.ConditionTrue ∧ p.Reason = "" ∧ p.Message = "" := by
  obtain ⟨q1, q2, q3, q4, q5⟩ := classify_pointsTo a v hd l
  have e2 := ptrStatusIs_of_hasStatus l _ _ _ q2 (hasStatus_of_nodup l _ _ hn hc)
  have e3 := ptrStatusIs_of_hasStatus l _ _ _ q3 (hasStatus_of_nodup l _ _ hn hi)
  have e4 := nilOrStatusIs_of_absentOrStatus l _ _ _ q4 hp
  have e5 := nilOrStatusIs_of_absentOrStatus l _ _ _ q5 hb
  unfold translate_v1alpha4_Conditions_To_v1alpha1_Conditions
  simp only [e2, e3, e4, e5, Bool.and_self, if_true]
  cases hpre : (classify a v l).preReqCond with
  | none =>
    rw [hpre] at q1
    refine ⟨
      { Type_ := a.VirtualMachinePrereqReadyCondition, Status := corev1.ConditionTrue,
        LastTransitionTime := (deref l (classify a v l).vmImageCond).LastTransitionTime },
      ?_, rfl, rfl, rfl⟩
    have := filter_type_singleton l []
      { Type_ := a.VirtualMachinePrereqReadyCondition, Status := corev1.ConditionTrue,
        LastTransitionTime := (deref l (classify a v l).vmImageCond).LastTransitionTime }
      a.VirtualMachinePrereqReadyCondition rfl q1 (by simp)
    simpa using this
  | some k =>
    rw [hpre] at q1
    obtain ⟨c, hk, ht⟩ := q1
    obtain ⟨l1, l2, hl, -, hset⟩ := set_eq_append l k c hk
    have hsplit := nodup_types_split l1 l2 c (by rw [← hl]; exact hn)
    rw [ht] at hsplit
    refine ⟨
      { Type_ := a.VirtualMachinePrereqReadyCondition, Status := corev1.ConditionTrue,
        LastTransitionTime := (deref l (some k)).LastTransitionTime }, ?_, rfl, rfl, rfl⟩
    simp only [hset]
    exact filter_type_singleton l1 l2 _ _ rfl hsplit.1 hsplit.2

/-- The list [class-ready True, image-ready True] gets exactly one True aggregate. -/
theorem all_ready_rule_witness :
    ∃ p, (translate_v1alpha4_Conditions_To_v1alpha1_Conditions v1alpha1.consts vmopv1.consts
        [{ Type_ := "VirtualMachineClassReady", Status := "True", LastTransitionTime := 3 },
         { Type_ := "VirtualMachineImageReady", Status := "True", LastTransitionTime := 5 }]
        ).filter (fun c => c.Type_ = "VirtualMachinePrereqReady") = [p] ∧
      p.Status = "True" ∧ p.Reason = "" ∧ p.Message = "" :=
  all_ready_rule v1alpha1.consts vmopv1.consts (by unfold ConditionTypesDistinct; decide)
    [{ Type_ := "VirtualMachineClassReady", Status := "True", LastTransitionTime := 3 },
     { Type_ := "VirtualMachineImageReady", Status := "True", LastTransitionTime := 5 }]
    (by decide) ⟨_, List.mem_cons_self _ _, rfl, rfl⟩
    ⟨_, List.mem_cons_of_mem _ (List.mem_cons_self _ _), rfl, rfl⟩
    (by unfold AbsentOrStatus; decide) (by unfold AbsentOrStatus; decide)

/-- C5 as stated fails: a class-ready False condition with Reason "ClassNotFound" yields an
aggregate whose Reason is the v1alpha1 constant VirtualMachineClassNotFoundReason, not the
Reason of the class-ready condition; the same aggregate Reason results from the Reason
"QuotaExceeded". -/
theorem required_false_reason_not_copied :
    translate_v1alpha4_Conditions_To_v1alpha1_Conditions v1alpha1.consts vmopv1.consts
      [{ Type_ := "VirtualMachineClassReady", Status := "False", Reason := "ClassNotFound",
         Message := "no such class", LastTransitionTime := 3 }] =
      [{ Type_ := "VirtualMachineClassReady", Status := "False", Reason := "ClassNotFound",
         Message := "no such class", LastTransitionTime := 3 },
       { Type_ := "VirtualMachinePrereqReady", Status := "False", Severity := "Error",
         Reason := "VirtualMachineClassNotFound", Message := "no such class",
         LastTransitionTime := 3 }] ∧
    translate_v1alpha4_Conditions_To_v1alpha1_Conditions v1alpha1.consts vmopv1.consts
      [{ Type_ := "VirtualMachineClassReady", Status := "False", Reason := "QuotaExceeded",
         Message := "no such class", LastTransitionTime := 3 }] =
      [{ Type_ := "VirtualMachineClassReady", Status := "False", Reason := "QuotaExceeded",
         Message := "no such class", LastTransitionTime := 3 },
       { Type_ := "VirtualMachinePrereqReady", Status := "False", Severity := "Error",
         Reason := "VirtualMachineClassNotFound", Message := "no such class",
         LastTransitionTime := 3 }] := by
  constructor <;> decide

/-- C5, amended: down-conversion "required False" rule.  When class-ready is False the
result contains a VirtualMachinePrereqReady condition with Status False and Severity Error
whose Reason is the constant VirtualMachineClassNotFoundReason and whose Message and
LastTransitionTime are those of the class-ready condition, whatever image-ready is.  When
class-ready is not False and image-ready is False, the Reason is the constant
VirtualMachineImageNotFoundReason and Message and LastTransitionTime are those of the
image-ready condition. -/
theorem required_false_rule (a : v1alpha1.Consts) (v : vmopv1.Consts)
    (hd : ConditionTypesDistinct a v) (hr : ReasonsNonEmpty a) (l : List v1alpha1.Condition) :
    (HasStatus l v.VirtualMachineConditionClassReady corev1.ConditionFalse →
      ∃ c ∈ l, c.Type_ = v.VirtualMachineConditionClassReady ∧
        c.Status = corev1.ConditionFalse ∧
        ({ Type_ := a.VirtualMachinePrereqReadyCondition, Status := corev1.ConditionFalse,
           Severity := a.ConditionSeverityError,
           Reason := a.VirtualMachineClassNotFoundReason,
           Message := c.Message, LastTransitionTime := c.LastTransitionTime } :
          v1alpha1.Condition) ∈ translate_v1alpha4_Conditions_To_v1alpha1_Conditions a v l) ∧
    ((∀ c ∈ l, c.Type_ = v.VirtualMachineConditionClassReady →
        c.Status ≠ corev1.ConditionFalse) →
      HasStatus l v.VirtualMachineConditionImageReady corev1.ConditionFalse →
      ∃ c ∈ l, c.Type_ = v.VirtualMachineConditionImageReady ∧
        c.Status = corev1.ConditionFalse ∧
        ({ Type_ := a.VirtualMachinePrereqReadyCondition, Status := corev1.ConditionFalse,
           Severity := a.ConditionSeverityError,
           Reason := a.VirtualMachineImageNotFoundReason,
           Message := c.Message, LastTransitionTime := c.LastTransitionTime } :
          v1alpha1.Condition) ∈ translate_v1alpha4_Conditions_To_v1alpha1_Conditions a v l) := by
  obtain ⟨q1, q2, q3, -, -⟩ := classify_pointsTo a v hd l
  constructor
  · intro hc
    obtain ⟨k, c, -, -, hm, ht, hdr⟩ := pointsTo_of_mem l _ _ q2 hc.1
    refine ⟨c, hm, ht, hc.2 c hm ht, ?_⟩
    rw [translate_classFalse a v hd hr l hc, hdr]
    exact mem_storePrereq l _ _ q1 _
  · intro hc hi
    obtain ⟨k, c, -, -, hm, ht, hdr⟩ := pointsTo_of_mem l _ _ q3 hi.1
    refine ⟨c, hm, ht, hi.2 c hm ht, ?_⟩
    rw [translate_imageFalse a v hd hr l hc hi, hdr]
    exact mem_storePrereq l _ _ q1 _

/-- The list with image-ready True and class-ready False: the aggregate carries the
constant reason and the Message and LastTransitionTime of class-ready. -/
theorem required_false_rule_witness :
    ∃ c ∈ ([{ Type_ := "VirtualMachineImageReady", Status := "True", LastTransitionTime := 2 },
            { Type_ := "VirtualMachineClassReady", Status := "False", Reason := "NotFound",
              Message := "no such class", LastTransitionTime := 3 }] :
          List v1alpha1.Condition),
      c.Type_ = "VirtualMachineClassReady" ∧ c.Status = "False" ∧
      ({ Type_ := "VirtualMachinePrereqReady", Status := "False", Severity := "Error",
         Reason := "VirtualMachineClassNotFound", Message := c.Message,
         LastTransitionTime := c.LastTransitionTime } : v1alpha1.Condition) ∈
        translate_v1alpha4_Conditions_To_v1alpha1_Conditions v1alpha1.consts vmopv1.consts
          [{ Type_ := "VirtualMachineImageReady", Status := "True", LastTransitionTime := 2 },
           { Type_ := "VirtualMachineClassReady", Status := "False", Reason := "NotFound",
             Message := "no such class", LastTransitionTime := 3 }] :=
  (required_false_rule v1alpha1.consts vmopv1.consts
    (by unfold ConditionTypesDistinct; decide) (by unfold ReasonsNonEmpty; decide)
    [{ Type_ := "VirtualMachineImageReady", Status := "True", LastTransitionTime := 2 },
     { Type_ := "VirtualMachineClassReady", Status := "False", Reason := "NotFound",
       Message := "no such class", LastTransitionTime := 3 }]).1
    (by unfold HasStatus; decide)

/-- C6: down-conversion lenient rule.  For every condition list in which class-ready and
image-ready are True and an optional condition (VMSetResourcePolicyReady or BootstrapReady)
is False, the translation returns the input list unchanged: no VirtualMachinePrereqReady
condition is added, and one already in the list keeps all its fields. -/
theorem lenient_rule (a : v1alpha1.Consts) (v : vmopv1.Consts)
    (hd : ConditionTypesDistinct a v) (l : List v1alpha1.Condition)
    (hc : HasStatus l v.VirtualMachineConditionClassReady corev1.ConditionTrue)
    (hi : HasStatus l v.VirtualMachineConditionImageReady corev1.ConditionTrue)
    (ho : HasStatus l v.VirtualMachineConditionVMSetResourcePolicyReady corev1.ConditionFalse ∨
      HasStatus l v.VirtualMachineConditionBootstrapReady corev1.ConditionFalse) :
    translate_v1alpha4_Conditions_To_v1alpha1_Conditions a v l = l := by
  obtain ⟨-, q2, q3, q4, q5⟩ := classify_pointsTo a v hd l
  have e2 := ptrStatusIs_eq_false l _ corev1.ConditionFalse _ q2
    (ne_false_of_hasStatus_true l _ hc)
  have e3 := ptrStatusIs_eq_false l _ corev1.ConditionFalse _ q3
    (ne_false_of_hasStatus_true l _ hi)
  have e45 : (nilOrStatusIs l (classify a v l).vmSetResourcePolicyCond corev1.ConditionTrue &&
      nilOrStatusIs l (classify a v l).vmBootstrapCond corev1.ConditionTrue) = false := by
    rcases ho with h | h
    · rw [nilOrStatusIs_eq_false l _ _ _ _ q4 h status_false_ne_true, Bool.false_and]
    · rw [nilOrStatusIs_eq_false l _ _ _ _ q5 h status_false_ne_true, Bool.and_false]
  unfold translate_v1alpha4_Conditions_To_v1alpha1_Conditions
  simp only [Bool.and_assoc, e45, Bool.and_false, e2, e3]
  simp

/-- With class-ready and image-ready True and BootstrapReady False the list, which holds a
stale aggregate, is returned as it is. -/
theorem lenient_rule_witness :
    translate_v1alpha4_Conditions_To_v1alpha1_Conditions v1alpha1.consts vmopv1.consts
      [{ Type_ := "VirtualMachinePrereqReady", Status := "True", LastTransitionTime := 1 },
       { Type_ := "VirtualMachineClassReady", Status := "True", LastTransitionTime := 2 },
       { Type_ := "VirtualMachineImageReady", Status := "True", LastTransitionTime := 3 },
       { Type_ := "VirtualMachineBootstrapReady", Status := "False", Reason := "Invalid",
         LastTransitionTime := 4 }] =
      [{ Type_ := "VirtualMachinePrereqReady", Status := "True", LastTransitionTime := 1 },
       { Type_ := "VirtualMachineClassReady", Status := "True", LastTransitionTime := 2 },
       { Type_ := "VirtualMachineImageReady", Status := "True", LastTransitionTime := 3 },
       { Type_ := "VirtualMachineBootstrapReady", Status := "False", Reason := "Invalid",
         LastTransitionTime := 4 }] :=
  lenient_rule v1alpha1.consts vmopv1.consts (by unfold ConditionTypesDistinct; decide) _
    (by unfold HasStatus; decide) (by unfold HasStatus; decide)
    (Or.inr (by unfold HasStatus; decide))

/-- C7: the legacy aggregate is updated in place, never duplicated.  When the input holds a
VirtualMachinePrereqReady condition, the output has the length of the input, every index
that held a VirtualMachinePrereqReady condition still holds one, and every other element is
unchanged.  When the input holds none, the output is the input, or the input with one
VirtualMachinePrereqReady condition appended at the end.  So the length changes only when the
input had none. -/
theorem prereq_updated_in_place (a : v1alpha1.Consts) (v : vmopv1.Consts)
    (hd : ConditionTypesDistinct a v) (l : List v1alpha1.Condition) :
    ((∃ c ∈ l, c.Type_ = a.VirtualMachinePrereqReadyCondition) →
      (translate_v1alpha4_Conditions_To_v1alpha1_Conditions a v l).length = l.length ∧
      ∀ (i : Nat) (c : v1alpha1.Condition), l[i]? = some c →
        (c.Type_ = a.VirtualMachinePrereqReadyCondition →
          ∃ c', (translate_v1alpha4_Conditions_To_v1alpha1_Conditions a v l)[i]? = some c' ∧
            c'.Type_ = a.VirtualMachinePrereqReadyCondition) ∧
        (c.Type_ ≠ a.VirtualMachinePrereqReadyCondition →
          (translate_v1alpha4_Conditions_To_v1alpha1_Conditions a v l)[i]? = some c)) ∧
    ((∀ c ∈ l, c.Type_ ≠ a.VirtualMachinePrereqReadyCondition) →
      translate_v1alpha4_Conditions_To_v1alpha1_Conditions a v l = l ∨
      ∃ p, p.Type_ = a.VirtualMachinePrereqReadyCondition ∧
        translate_v1alpha4_Conditions_To_v1alpha1_Conditions a v l = l ++ [p]) ∧
    ((translate_v1alpha4_Conditions_To_v1alpha1_Conditions a v l).length ≠ l.length →
      ∀ c ∈ l, c.Type_ ≠ a.VirtualMachinePrereqReadyCondition) := by
  obtain ⟨q1, -, -, -, -⟩ := classify_pointsTo a v hd l
  have hA : (∃ c ∈ l, c.Type_ = a.VirtualMachinePrereqReadyCondition) →
      (translate_v1alpha4_Conditions_To_v1alpha1_Conditions a v l).length = l.length ∧
      ∀ (i : Nat) (c : v1alpha1.Condition), l[i]? = some c →
        (c.Type_ = a.VirtualMachinePrereqReadyCondition →
          ∃ c', (translate_v1alpha4_Conditions_To_v1alpha1_Conditions a v l)[i]? = some c' ∧
            c'.Type_ = a.VirtualMachinePrereqReadyCondition) ∧
        (c.Type_ ≠ a.VirtualMachinePrereqReadyCondition →
          (translate_v1alpha4_Conditions_To_v1alpha1_Conditions a v l)[i]? = some c) := by
    intro hex
    obtain ⟨k, c0, hk, hk0, -, ht0, -⟩ := pointsTo_of_mem l _ _ q1 hex
    have hklt : k < l.length := (List.getElem?_eq_some_iff.1 hk0).1
    rcases translate_shape a v l with h | ⟨p, hp, h⟩
    · rw [h]
      exact ⟨rfl, fun i c hi => ⟨fun hc => ⟨c, hi, hc⟩, fun _ => hi⟩⟩
    · rw [h, hk]
      refine ⟨by simp [storePrereq], fun i c hi => ⟨fun _ => ?_, fun hc => ?_⟩⟩
      · by_cases hik : k = i
        · subst hik
          exact ⟨p, by simp [storePrereq, List.getElem?_set, hklt], hp⟩
        · exact ⟨c, by simp [storePrereq, List.getElem?_set, hik, hi], by assumption⟩
      · have hik : k ≠ i := by
          rintro rfl
          rw [hk0] at hi
          exact hc (by rw [← Option.some.inj hi]; exact ht0)
        simp [storePrereq, List.getElem?_set, hik, hi]
  refine ⟨hA, ?_, ?_⟩
  · intro hno
    have hnone : (classify a v l).preReqCond = none := by
      cases hq : (classify a v l).preReqCond with
      | none => rfl
      | some k =>
        rw [hq] at q1
        obtain ⟨c, hc, ht⟩ := q1
        exact absurd ht (hno c (List.getElem?_mem hc))
    rcases translate_shape a v l with h | ⟨p, hp, h⟩
    · exact Or.inl h
    · exact Or.inr ⟨p, hp, by rw [h, hnone]; rfl⟩
  · intro hlen c hc ht
    exact hlen (hA ⟨c, hc, ht⟩).1

/-- A stale False aggregate in front of class-ready and image-ready True is replaced at its
index and the list keeps its length. -/
theorem prereq_updated_in_place_witness :
    (translate_v1alpha4_Conditions_To_v1alpha1_Conditions v1alpha1.consts vmopv1.consts
      [{ Type_ := "VirtualMachinePrereqReady", Status := "False", LastTransitionTime := 1 },
       { Type_ := "VirtualMachineClassReady", Status := "True", LastTransitionTime := 2 },
       { Type_ := "VirtualMachineImageReady", Status := "True", LastTransitionTime := 3 }]
      ).length =
    ([{ Type_ := "VirtualMachinePrereqReady", Status := "False", LastTransitionTime := 1 },
      { Type_ := "VirtualMachineClassReady", Status := "True", LastTransitionTime := 2 },
      { Type_ := "VirtualMachineImageReady", Status := "True", LastTransitionTime := 3 }] :
      List v1alpha1.Condition).length :=
  ((prereq_updated_in_place v1alpha1.consts vmopv1.consts
    (by unfold ConditionTypesDistinct; decide)
    [{ Type_ := "VirtualMachinePrereqReady", Status := "False", LastTransitionTime := 1 },
     { Type_ := "VirtualMachineClassReady", Status := "True", LastTransitionTime := 2 },
     { Type_ := "VirtualMachineImageReady", Status := "True", LastTransitionTime := 3 }]).1
    ⟨_, List.mem_cons_self _ _, rfl⟩).1

/-- C8 as stated fails: the existing aggregate is False with transition time 1 and the
derived aggregate is False again (class-ready is False), yet the aggregate of the output
carries the transition time 2 of class-ready. -/
theorem transition_time_not_kept_when_false :
    translate_v1alpha4_Conditions_To_v1alpha1_Conditions v1alpha1.consts vmopv1.consts
      [{ Type_ := "VirtualMachinePrereqReady", Status := "False", Severity := "Error",
         Reason := "VirtualMachineClassNotFound", LastTransitionTime := 1 },
       { Type_ := "VirtualMachineClassReady", Status := "False", LastTransitionTime := 2 }] =
      [{ Type_ := "VirtualMachinePrereqReady", Status := "False", Severity := "Error",
         Reason := "VirtualMachineClassNotFound", LastTransitionTime := 2 },
       { Type_ := "VirtualMachineClassReady", Status := "False", LastTransitionTime := 2 }] := by
  decide

/-- C8, amended: with at most one condition per Type and an aggregate `c` in the input, the
output holds exactly one VirtualMachinePrereqReady condition and (1) when the derived
aggregate is True (the all-ready rule), it has Status True and the LastTransitionTime of `c`,
whatever the Status of `c` was; (2) when class-ready is False, it has Status False and the
LastTransitionTime of class-ready; (3) when class-ready is not False and image-ready is
False, it has Status False and the LastTransitionTime of image-ready. -/
theorem transition_time_rule (a : v1alpha1.Consts) (v : vmopv1.Consts)
    (hd : ConditionTypesDistinct a v) (hr : ReasonsNonEmpty a) (l : List v1alpha1.Condition)
    (hn : (l.map fun x => x.Type_).Nodup) (c : v1alpha1.Condition) (hc : c ∈ l)
    (ht : c.Type_ = a.VirtualMachinePrereqReadyCondition) :
    (HasStatus l v.VirtualMachineConditionClassReady corev1.ConditionTrue →
      HasStatus l v.VirtualMachineConditionImageReady corev1.ConditionTrue →
      AbsentOrStatus l v.VirtualMachineConditionVMSetResourcePolicyReady corev1.ConditionTrue →
      AbsentOrStatus l v.VirtualMachineConditionBootstrapReady corev1.ConditionTrue →
      ∃ p ∈ translate_v1alpha4_Conditions_To_v1alpha1_Conditions a v l,
        p.Type_ = a.VirtualMachinePrereqReadyCondition ∧ p.Status = corev1.ConditionTrue ∧
        p.LastTransitionTime = c.LastTransitionTime ∧
        ∀ x ∈ translate_v1alpha4_Conditions_To_v1alpha1_Conditions a v l,
          x.Type_ = a.VirtualMachinePrereqReadyCondition → x = p) ∧
    (∀ r ∈ l, r.Type_ = v.VirtualMachineConditionClassReady →
      r.Status = corev1.ConditionFalse →
      ∃ p ∈ translate_v1alpha4_Conditions_To_v1alpha1_Conditions a v l,
        p.Type_ = a.VirtualMachinePrereqReadyCondition ∧ p.Status = corev1.ConditionFalse ∧
        p.LastTransitionTime = r.LastTransitionTime ∧
        ∀ x ∈ translate_v1alpha4_Conditions_To_v1alpha1_Conditions a v l,
          x.Type_ = a.VirtualMachinePrereqReadyCondition → x = p) ∧
    ((∀ x ∈ l, x.Type_ = v.VirtualMachineConditionClassReady →
        x.Status ≠ corev1.ConditionFalse) →
      ∀ r ∈ l, r.Type_ = v.VirtualMachineConditionImageReady →
      r.Status = corev1.ConditionFalse →
      ∃ p ∈ translate_v1alpha4_Conditions_To_v1alpha1_Conditions a v l,
        p.Type_ = a.VirtualMachinePrereqReadyCondition ∧ p.Status = corev1.ConditionFalse ∧
        p.LastTransitionTime = r.LastTransitionTime ∧
        ∀ x ∈ translate_v1alpha4_Conditions_To_v1alpha1_Conditions a v l,
          x.Type_ = a.VirtualMachinePrereqReadyCondition → x = p) := by
  obtain ⟨q1, q2, q3, -, -⟩ := classify_pointsTo a v hd l
  obtain ⟨hsome, hdr⟩ := deref_unique l _ _ hn q1 c hc ht
  refine ⟨fun h1 h2 h3 h4 => ?_, fun r hr1 hr2 hr3 => ?_, fun hcl r hr1 hr2 hr3 => ?_⟩
  · rw [translate_allReady a v hd l h1 h2 h3 h4]
    refine ⟨_, mem_storePrereq l _ _ q1 _, rfl, rfl, ?_, storePrereq_unique l _ _ hn q1 _⟩
    simp only [hsome, if_true, hdr]
  · have hs := hasStatus_of_nodup l _ _ hn ⟨r, hr1, hr2, hr3⟩
    rw [translate_classFalse a v hd hr l hs]
    refine ⟨_, mem_storePrereq l _ _ q1 _, rfl, rfl, ?_, storePrereq_unique l _ _ hn q1 _⟩
    simp only [(deref_unique l _ _ hn q2 r hr1 hr2).2]
  · have hs := hasStatus_of_nodup l _ _ hn ⟨r, hr1, hr2, hr3⟩
    rw [translate_imageFalse a v hd hr l hcl hs]
    refine ⟨_, mem_storePrereq l _ _ q1 _, rfl, rfl, ?_, storePrereq_unique l _ _ hn q1 _⟩
    simp only [(deref_unique l _ _ hn q3 r hr1 hr2).2]

/-- A True aggregate with transition time 1 in front of class-ready and image-ready True
keeps the transition time 1. -/
theorem transition_time_rule_witness :
    ∃ p ∈ translate_v1alpha4_Conditions_To_v1alpha1_Conditions v1alpha1.consts vmopv1.consts
        [{ Type_ := "VirtualMachinePrereqReady", Status := "True", LastTransitionTime := 1 },
         { Type_ := "VirtualMachineClassReady", Status := "True", LastTransitionTime := 2 },
         { Type_ := "VirtualMachineImageReady", Status := "True", LastTransitionTime := 3 }],
      p.Type_ = "VirtualMachinePrereqReady" ∧ p.Status = "True" ∧
      p.LastTransitionTime = 1 ∧
      ∀ x ∈ translate_v1alpha4_Conditions_To_v1alpha1_Conditions v1alpha1.consts
          vmopv1.consts
          [{ Type_ := "VirtualMachinePrereqReady", Status := "True", LastTransitionTime := 1 },
           { Type_ := "VirtualMachineClassReady", Status := "True", LastTransitionTime := 2 },
           { Type_ := "VirtualMachineImageReady", Status := "True", LastTransitionTime := 3 }],
        x.Type_ = "VirtualMachinePrereqReady" → x = p :=
  (transition_time_rule v1alpha1.consts vmopv1.consts
    (by unfold ConditionTypesDistinct; decide) (by unfold ReasonsNonEmpty; decide)
    [{ Type_ := "VirtualMachinePrereqReady", Status := "True", LastTransitionTime := 1 },
     { Type_ := "VirtualMachineClassReady", Status := "True", LastTransitionTime := 2 },
     { Type_ := "VirtualMachineImageReady", Status := "True", LastTransitionTime := 3 }]
    (by decide)
    { Type_ := "VirtualMachinePrereqReady", Status := "True", LastTransitionTime := 1 }
    (List.mem_cons_self _ _) rfl).1
    (by unfold HasStatus; decide) (by unfold HasStatus; decide)
    (by unfold AbsentOrStatus; decide) (by unfold AbsentOrStatus; decide)

/-! ## Theorems: the legacy phase -/

theorem phase_eq_find (a : v1alpha1.Consts) (v : vmopv1.Consts) (l : List metav1.Condition) :
    convert_v1alpha4_Conditions_To_v1alpha1_Phase a v l =
      match l.find? (fun c => c.Type_ = v.VirtualMachineConditionCreated) with
      | some c => if c.Status = metav1.ConditionTrue then a.Created else a.Creating
      | none => a.Unknown := by
  induction l with
  | nil => rfl
  | cons c rest ih =>
    by_cases h : c.Type_ = v.VirtualMachineConditionCreated
    · simp [convert_v1alpha4_Conditions_To_v1alpha1_Phase, List.find?_cons, h]
    · simp [convert_v1alpha4_Conditions_To_v1alpha1_Phase, List.find?_cons, h, ih]

theorem phase_filter (a : v1alpha1.Consts) (v : vmopv1.Consts) (l : List metav1.Condition) :
    convert_v1alpha4_Conditions_To_v1alpha1_Phase a v l =
      convert_v1alpha4_Conditions_To_v1alpha1_Phase a v
        (l.filter fun c => c.Type_ = v.VirtualMachineConditionCreated) := by
  induction l with
  | nil => rfl
  | cons c rest ih =>
    by_cases h : c.Type_ = v.VirtualMachineConditionCreated
    · simp [convert_v1alpha4_Conditions_To_v1alpha1_Phase, List.filter_cons, h]
    · simp [convert_v1alpha4_Conditions_To_v1alpha1_Phase, List.filter_cons, h, ih]

/-- C9: the legacy phase is derived solely from the "created" condition.  The phase is
Created when the first condition of Type VirtualMachineConditionCreated has Status True,
Creating when that condition has any other Status, and Unknown when the list has no such
condition; two lists with the same conditions of that Type, in the same order, have the same
phase, so adding, removing or changing conditions of any other Type does not change it. -/
theorem phase_from_created_condition (a : v1alpha1.Consts) (v : vmopv1.Consts)
    (l l' : List metav1.Condition) :
    (convert_v1alpha4_Conditions_To_v1alpha1_Phase a v l =
      match l.find? (fun c => c.Type_ = v.VirtualMachineConditionCreated) with
      | some c => if c.Status = metav1.ConditionTrue then a.Created else a.Creating
      | none => a.Unknown) ∧
    (l.filter (fun c => c.Type_ = v.VirtualMachineConditionCreated) =
        l'.filter (fun c => c.Type_ = v.VirtualMachineConditionCreated) →
      convert_v1alpha4_Conditions_To_v1alpha1_Phase a v l =
        convert_v1alpha4_Conditions_To_v1alpha1_Phase a v l') := by
  refine ⟨phase_eq_find a v l, fun h => ?_⟩
  rw [phase_filter a v l, phase_filter a v l', h]

/-- Adding class-ready False and a False aggregate around a created condition leaves the
phase as it is. -/
theorem phase_from_created_condition_witness :
    convert_v1alpha4_Conditions_To_v1alpha1_Phase v1alpha1.consts vmopv1.consts
      [{ Type_ := "VirtualMachineCreated", Status := "True" }] =
    convert_v1alpha4_Conditions_To_v1alpha1_Phase v1alpha1.consts vmopv1.consts
      [{ Type_ := "VirtualMachineClassReady", Status := "False" },
       { Type_ := "VirtualMachineCreated", Status := "True" },
       { Type_ := "VirtualMachinePrereqReady", Status := "False" }] :=
  (phase_from_created_condition v1alpha1.consts vmopv1.consts
    [{ Type_ := "VirtualMachineCreated", Status := "True" }]
    [{ Type_ := "VirtualMachineClassReady", Status := "False" },
     { Type_ := "VirtualMachineCreated", Status := "True" },
     { Type_ := "VirtualMachinePrereqReady", Status := "False" }]).2 (by decide)

theorem convertVolumeStatuses_total (v : vmopv1.Consts) (g : Generated)
    (hg : ∀ x y, ∃ z,
      g.autoConvert_v1alpha4_VirtualMachineVolumeStatus_To_v1alpha1_VirtualMachineVolumeStatus
        x y = .ok z)
    (vols : List vmopv1.VirtualMachineVolumeStatus)
    (acc : List v1alpha1.VirtualMachineVolumeStatus) :
    ∃ r, convertVolumeStatuses v g vols acc = .ok r := by
  induction vols generalizing acc with
  | nil => exact ⟨acc, rfl⟩
  | cons x rest ih =>
    unfold convertVolumeStatuses
    split_ifs with h
    · obtain ⟨z, hz⟩ := hg x { DiskUuid := x.DiskUUID }
      simp only [Convert_v1alpha4_VirtualMachineVolumeStatus_To_v1alpha1_VirtualMachineVolumeStatus,
        hz]
      exact ih _
    · exact ih _

/-- The status down-conversion assigns the phase computed from the hub conditions. -/
theorem status_phase_eq (a : v1alpha1.Consts) (v : vmopv1.Consts) (g : Generated)
    (inp : vmopv1.VirtualMachineStatus) (out0 out : v1alpha1.VirtualMachineStatus)
    (h : Convert_v1alpha4_VirtualMachineStatus_To_v1alpha1_VirtualMachineStatus a v g inp out0
      = .ok out) :
    out.Phase = convert_v1alpha4_Conditions_To_v1alpha1_Phase a v inp.Conditions := by
  unfold Convert_v1alpha4_VirtualMachineStatus_To_v1alpha1_VirtualMachineStatus at h
  cases h1 : g.autoConvert_v1alpha4_VirtualMachineStatus_To_v1alpha1_VirtualMachineStatus
      inp out0 with
  | error e => simp [h1] at h
  | ok o1 =>
    simp only [h1] at h
    cases h2 : convertVolumeStatuses v g inp.Volumes [] with
    | error e => simp [h2] at h
    | ok vols =>
      simp only [h2] at h
      cases h3 : inp.Network with
      | none =>
        simp only [h3, Except.ok.injEq] at h
        rw [← h]
      | some n =>
        simp only [h3, Except.ok.injEq] at h
        rw [← h]

/-- C10 as stated fails: the hub status whose conditions are [class-ready True, image-ready
True] converts to a status whose Phase is Unknown, not Created; its condition list gets the
True aggregate. -/
theorem ready_conditions_phase_unknown :
    Convert_v1alpha4_VirtualMachineStatus_To_v1alpha1_VirtualMachineStatus v1alpha1.consts
      vmopv1.consts Generated.copying
      { Conditions :=
          [{ Type_ := "VirtualMachineClassReady", Status := "True", LastTransitionTime := 3 },
           { Type_ := "VirtualMachineImageReady", Status := "True", LastTransitionTime := 5 }] }
      {} =
    .ok
      { Phase := "Unknown",
        Conditions :=
          [{ Type_ := "VirtualMachineClassReady", Status := "True", LastTransitionTime := 3 },
           { Type_ := "VirtualMachineImageReady", Status := "True", LastTransitionTime := 5 },
           { Type_ := "VirtualMachinePrereqReady", Status := "True",
             LastTransitionTime := 5 }] } := by
  rfl

/-- C10, amended: the down-converted phase depends on the "created" condition only.  Every
successful status conversion yields Phase = Created exactly when the first condition of Type
VirtualMachineConditionCreated in the hub list has Status True, whatever class-ready,
image-ready and the optional conditions are; without such a condition the Phase is Unknown.
The conversion succeeds whenever the generated conversions it calls succeed. -/
theorem status_phase_rule (a : v1alpha1.Consts) (v : vmopv1.Consts) (hp : PhasesDistinct a)
    (g : Generated) (inp : vmopv1.VirtualMachineStatus) (out0 : v1alpha1.VirtualMachineStatus) :
    (∀ out,
      Convert_v1alpha4_VirtualMachineStatus_To_v1alpha1_VirtualMachineStatus a v g inp out0
        = .ok out →
      (out.Phase = a.Created ↔
        ∃ c, inp.Conditions.find? (fun c => c.Type_ = v.VirtualMachineConditionCreated)
          = some c ∧ c.Status = metav1.ConditionTrue) ∧
      (inp.Conditions.find? (fun c => c.Type_ = v.VirtualMachineConditionCreated) = none →
        out.Phase = a.Unknown)) ∧
    ((∀ x y, ∃ z,
        g.autoConvert_v1alpha4_VirtualMachineStatus_To_v1alpha1_VirtualMachineStatus x y
          = .ok z) →
      (∀ x y, ∃ z,
        g.autoConvert_v1alpha4_VirtualMachineVolumeStatus_To_v1alpha1_VirtualMachineVolumeStatus
          x y = .ok z) →
      ∃ out,
        Convert_v1alpha4_VirtualMachineStatus_To_v1alpha1_VirtualMachineStatus a v g inp out0
          = .ok out) := by
  simp only [PhasesDistinct, List.nodup_cons, List.mem_cons, List.mem_singleton,
    List.not_mem_nil, or_false, not_or, not_false_eq_true, List.nodup_nil, and_true] at hp
  obtain ⟨⟨p1, p2⟩, p3⟩ := hp
  constructor
  · intro out h
    rw [status_phase_eq a v g inp out0 out h, phase_eq_find]
    cases hf : inp.Conditions.find? (fun c => c.Type_ = v.VirtualMachineConditionCreated) with
    | none => simp [p2]
    | some c =>
      by_cases hs : c.Status = metav1.ConditionTrue
      · simp [hs]
      · simp [hs, p3]
  · intro h1 h2
    obtain ⟨o1, ho1⟩ := h1 inp out0
    obtain ⟨vols, hv⟩ := convertVolumeStatuses_total v g h2 inp.Volumes []
    unfold Convert_v1alpha4_VirtualMachineStatus_To_v1alpha1_VirtualMachineStatus
    simp only [ho1, hv]
    cases inp.Network with
    | none => exact ⟨_, rfl⟩
    | some n => exact ⟨_, rfl⟩

/-- With a created condition of Status True behind class-ready False the phase is Created. -/
theorem status_phase_rule_witness :
    ∃ out,
      Convert_v1alpha4_VirtualMachineStatus_To_v1alpha1_VirtualMachineStatus v1alpha1.consts
        vmopv1.consts Generated.copying
        { Conditions :=
            [{ Type_ := "VirtualMachineClassReady", Status := "False" },
             { Type_ := "VirtualMachineCreated", Status := "True" }] } {} = .ok out ∧
      out.Phase = "Created" :=
  have h := status_phase_rule v1alpha1.consts vmopv1.consts
    (by unfold PhasesDistinct; decide) Generated.copying
    { Conditions :=
        [{ Type_ := "VirtualMachineClassReady", Status := "False" },
         { Type_ := "VirtualMachineCreated", Status := "True" }] } {}
  have ⟨out, ho⟩ := h.2 (fun _ _ => ⟨_, rfl⟩) (fun _ _ => ⟨_, rfl⟩)
  ⟨out, ho, ((h.1 out ho).1).2 ⟨_, rfl, rfl⟩⟩

/-! ## Theorems: the classification loop of the up-conversion -/

theorem classifyHubFrom_eq (a : v1alpha1.Consts) (v : vmopv1.Consts)
    (l : List metav1.Condition) (i : Nat) (p : CondPtrs) :
    classifyHubFrom a v l i p = classifyFrom a v (l.map typeOnly) i p := by
  induction l generalizing i p with
  | nil => rfl
  | cons c rest ih =>
    simp only [classifyHubFrom, List.map_cons, classifyFrom]
    rw [ih]
    rfl

theorem classifyHub_eq (a : v1alpha1.Consts) (v : vmopv1.Consts)
    (l : List metav1.Condition) : classifyHub a v l = classify a v (l.map typeOnly) :=
  classifyHubFrom_eq a v l 0 {}

theorem pointsTo_map_some (l : List metav1.Condition) (t : String) (k : Nat)
    (h : PointsTo (l.map typeOnly) t (some k)) : ∃ c, l[k]? = some c ∧ c.Type_ = t := by
  obtain ⟨x, hx, ht⟩ := h
  rw [List.getElem?_map] at hx
  cases hk : l[k]? with
  | none => simp [hk] at hx
  | some c =>
    simp only [hk, Option.map_some', Option.some.injEq] at hx
    exact ⟨c, rfl, by rw [← ht, ← hx]; rfl⟩

theorem pointsTo_map_none (l : List metav1.Condition) (t : String)
    (h : PointsTo (l.map typeOnly) t none) : ∀ c ∈ l, c.Type_ ≠ t := by
  intro c hc
  exact h (typeOnly c) (List.mem_map.2 ⟨c, hc, rfl⟩)

/-- A list without well-known hub conditions moves the aggregate pointer only. -/
theorem classifyFrom_no_wellKnown (a : v1alpha1.Consts) (v : vmopv1.Consts)
    (l : List v1alpha1.Condition) (i : Nat) (p : CondPtrs)
    (h : ∀ c ∈ l, c.Type_ ∉ wellKnownTypes v) :
    ∃ q, classifyFrom a v l i p = { p with preReqCond := q } := by
  induction l generalizing i p with
  | nil => exact ⟨p.preReqCond, rfl⟩
  | cons c rest ih =>
    have hc := h c (List.mem_cons_self _ _)
    simp only [wellKnownTypes, List.mem_cons, List.mem_singleton, List.not_mem_nil, or_false,
      not_or] at hc
    obtain ⟨c1, c2, c3, c4⟩ := hc
    obtain ⟨q, hq⟩ := ih (i + 1) (classifyStep a v i c p)
      (fun x hx => h x (List.mem_cons_of_mem _ hx))
    simp only [classifyFrom]
    rw [hq]
    unfold classifyStep
    simp only [c1, c2, c3, c4, if_false]
    split_ifs
    · exact ⟨q, rfl⟩
    · exact ⟨q, rfl⟩

/-- When the aggregate is the last condition and no well-known hub condition precedes it,
the loop leaves the aggregate pointer at the last index and the other pointers nil. -/
theorem classifyHub_aggregate_last (a : v1alpha1.Consts) (v : vmopv1.Consts)
    (l : List metav1.Condition) (p : metav1.Condition)
    (hl : ∀ c ∈ l, c.Type_ ∉ wellKnownTypes v)
    (hp : p.Type_ = a.VirtualMachinePrereqReadyCondition) :
    classifyHub a v (l ++ [p]) = { preReqCond := some l.length } := by
  have hl' : ∀ c ∈ l.map typeOnly, c.Type_ ∉ wellKnownTypes v := by
    intro c hc
    obtain ⟨x, hx, rfl⟩ := List.mem_map.1 hc
    exact hl x hx
  obtain ⟨q, hq⟩ := classifyFrom_no_wellKnown a v (l.map typeOnly) 0 {} hl'
  rw [classifyHub_eq, List.map_append, List.map_cons, List.map_nil, classify_snoc, classify, hq]
  simp [classifyStep, typeOnly, hp]

/-- The up-conversion of a list whose last condition is the aggregate and that has no
well-known hub condition: the aggregate is removed and the conditions synthesized from it
are appended. -/
theorem up_aggregate_last (a : v1alpha1.Consts) (v : vmopv1.Consts)
    (dst : vmopv1.VirtualMachine) (l : List metav1.Condition) (p : metav1.Condition)
    (hc : dst.Status.Conditions = l ++ [p])
    (hl : ∀ c ∈ l, c.Type_ ∉ wellKnownTypes v)
    (hp : p.Type_ = a.VirtualMachinePrereqReadyCondition) :
    convert_v1alpha1_PreReqsReadyCondition_to_v1alpha4_Conditions a v dst =
      l ++ synthesize a v dst p := by
  unfold convert_v1alpha1_PreReqsReadyCondition_to_v1alpha4_Conditions
  rw [hc, classifyHub_aggregate_last a v l p hl hp]
  have e1 : (l ++ [p]).eraseIdx l.length = l := by
    rw [List.eraseIdx_append_of_length_le (Nat.le_refl _)]
    simp
  simp [e1, List.getLast?_concat, List.getElem?_append_right]

theorem getElem?_split {α : Type} (l : List α) (k : Nat) (c : α) (h : l[k]? = some c) :
    ∃ l1 l2, l = l1 ++ c :: l2 ∧ l1.length = k := by
  induction l generalizing k with
  | nil => simp at h
  | cons x xs ih =>
    cases k with
    | zero =>
      simp only [List.getElem?_cons_zero, Option.some.injEq] at h
      subst h
      exact ⟨[], xs, rfl, rfl⟩
    | succ k =>
      simp only [List.getElem?_cons_succ] at h
      obtain ⟨l1, l2, h1, h2⟩ := ih k h
      exact ⟨x :: l1, l2, by rw [h1]; rfl, by simp [h2]⟩

theorem nodup_map_split {α : Type} (f : α → String) (l1 l2 : List α) (c : α)
    (hn : ((l1 ++ c :: l2).map f).Nodup) :
    (∀ x ∈ l1, f x ≠ f c) ∧ ∀ x ∈ l2, f x ≠ f c := by
  rw [List.map_append, List.map_cons, List.nodup_append] at hn
  obtain ⟨-, h2, h3⟩ := hn
  rw [List.nodup_cons] at h2
  constructor
  · intro x hx he
    exact h3 (List.mem_map.2 ⟨x, hx, rfl⟩) (by rw [he]; exact List.mem_cons_self _ _)
  · intro x hx he
    exact h2.1 (by rw [← he]; exact List.mem_map.2 ⟨x, hx, rfl⟩)

/-! ## Theorems: up-conversion of the conditions -/

/-- C12: up-conversion skips synthesis when hub data is already present.  When the condition
list holds a VirtualMachinePrereqReady condition and at least one of the four well-known
conditions, the result is the input list with the VirtualMachinePrereqReady condition at one
index erased: no condition is added and the other conditions keep their values and order
(with at most one condition per Type the result is the input without its
VirtualMachinePrereqReady condition).  When the list holds no VirtualMachinePrereqReady
condition, it is returned unchanged. -/
theorem up_skips_synthesis (a : v1alpha1.Consts) (v : vmopv1.Consts)
    (hd : ConditionTypesDistinct a v) (dst : vmopv1.VirtualMachine) :
    ((∃ c ∈ dst.Status.Conditions, c.Type_ = a.VirtualMachinePrereqReadyCondition) →
      (∃ c ∈ dst.Status.Conditions, c.Type_ ∈ wellKnownTypes v) →
      (∃ idx c, dst.Status.Conditions[idx]? = some c ∧
        c.Type_ = a.VirtualMachinePrereqReadyCondition ∧
        convert_v1alpha1_PreReqsReadyCondition_to_v1alpha4_Conditions a v dst =
          dst.Status.Conditions.eraseIdx idx) ∧
      ((dst.Status.Conditions.map fun c => c.Type_).Nodup →
        convert_v1alpha1_PreReqsReadyCondition_to_v1alpha4_Conditions a v dst =
          dst.Status.Conditions.filter
            (fun c => c.Type_ ≠ a.VirtualMachinePrereqReadyCondition))) ∧
    ((∀ c ∈ dst.Status.Conditions, c.Type_ ≠ a.VirtualMachinePrereqReadyCondition) →
      convert_v1alpha1_PreReqsReadyCondition_to_v1alpha4_Conditions a v dst =
        dst.Status.Conditions) := by
  obtain ⟨q1, q2, q3, q4, q5⟩ := classify_pointsTo a v hd (dst.Status.Conditions.map typeOnly)
  rw [← classifyHub_eq] at q1 q2 q3 q4 q5
  constructor
  · intro hpre hwk
    cases h1 : (classifyHub a v dst.Status.Conditions).preReqCond with
    | none =>
      rw [h1] at q1
      obtain ⟨c, hc, ht⟩ := hpre
      exact absurd ht (pointsTo_map_none _ _ q1 c hc)
    | some idx =>
      rw [h1] at q1
      obtain ⟨c, hc, ht⟩ := pointsTo_map_some _ _ _ q1
      have hsome : ((classifyHub a v dst.Status.Conditions).vmClassCond.isSome ||
          (classifyHub a v dst.Status.Conditions).vmImageCond.isSome ||
          (classifyHub a v dst.Status.Conditions).vmSetResourcePolicyCond.isSome ||
          (classifyHub a v dst.Status.Conditions).vmBootstrapCond.isSome) = true := by
        obtain ⟨x, hx, hxt⟩ := hwk
        simp only [wellKnownTypes, List.mem_cons, List.mem_singleton, List.not_mem_nil,
          or_false] at hxt
        rcases hxt with e | e | e | e
        · cases h2 : (classifyHub a v dst.Status.Conditions).vmClassCond with
          | none => rw [h2] at q2; exact absurd e (pointsTo_map_none _ _ q2 x hx)
          | some k => simp
        · cases h3 : (classifyHub a v dst.Status.Conditions).vmImageCond with
          | none => rw [h3] at q3; exact absurd e (pointsTo_map_none _ _ q3 x hx)
          | some k => simp
        · cases h4 : (classifyHub a v dst.Status.Conditions).vmSetResourcePolicyCond with
          | none => rw [h4] at q4; exact absurd e (pointsTo_map_none _ _ q4 x hx)
          | some k => simp
        · cases h5 : (classifyHub a v dst.Status.Conditions).vmBootstrapCond with
          | none => rw [h5] at q5; exact absurd e (pointsTo_map_none _ _ q5 x hx)
          | some k => simp
      have hout : convert_v1alpha1_PreReqsReadyCondition_to_v1alpha4_Conditions a v dst =
          dst.Status.Conditions.eraseIdx idx := by
        unfold convert_v1alpha1_PreReqsReadyCondition_to_v1alpha4_Conditions
        simp only [h1, hsome, if_true]
      refine ⟨⟨idx, c, hc, ht, hout⟩, fun hn => ?_⟩
      rw [hout]
      obtain ⟨l1, l2, hl, hlen⟩ := getElem?_split _ _ _ hc
      rw [hl] at hn ⊢
      obtain ⟨s1, s2⟩ := nodup_map_split (fun c => c.Type_) l1 l2 c hn
      rw [ht] at s1 s2
      rw [List.eraseIdx_append_of_length_le (Nat.le_of_eq hlen), hlen, Nat.sub_self,
        List.filter_append, List.filter_cons]
      have e1 : l1.filter (fun c => c.Type_ ≠ a.VirtualMachinePrereqReadyCondition) = l1 :=
        List.filter_eq_self.2 fun x hx => by simpa using s1 x hx
      have e2 : l2.filter (fun c => c.Type_ ≠ a.VirtualMachinePrereqReadyCondition) = l2 :=
        List.filter_eq_self.2 fun x hx => by simpa using s2 x hx
      simp only [decide_not] at e1 e2 ⊢
      simp [e1, e2, ht]
  · intro hno
    cases h1 : (classifyHub a v dst.Status.Conditions).preReqCond with
    | none =>
      unfold convert_v1alpha1_PreReqsReadyCondition_to_v1alpha4_Conditions
      simp only [h1]
    | some idx =>
      rw [h1] at q1
      obtain ⟨c, hc, ht⟩ := pointsTo_map_some _ _ _ q1
      exact absurd ht (hno c (List.getElem?_mem hc))

/-- A list with class-ready and a stale aggregate loses the aggregate and gains nothing. -/
theorem up_skips_synthesis_witness :
    convert_v1alpha1_PreReqsReadyCondition_to_v1alpha4_Conditions v1alpha1.consts
      vmopv1.consts
      { Status := { Conditions :=
          [{ Type_ := "VirtualMachineClassReady", Status := "False", Reason := "NotFound" },
           { Type_ := "VirtualMachinePrereqReady", Status := "False",
             Reason := "VirtualMachineClassNotFound" },
           { Type_ := "VirtualMachineCreated", Status := "True" }] } } =
      ([{ Type_ := "VirtualMachineClassReady", Status := "False", Reason := "NotFound" },
        { Type_ := "VirtualMachinePrereqReady", Status := "False",
          Reason := "VirtualMachineClassNotFound" },
        { Type_ := "VirtualMachineCreated", Status := "True" }] :
        List metav1.Condition).filter (fun c => c.Type_ ≠ "VirtualMachinePrereqReady") :=
  ((up_skips_synthesis v1alpha1.consts vmopv1.consts
    (by unfold ConditionTypesDistinct; decide)
    { Status := { Conditions :=
        [{ Type_ := "VirtualMachineClassReady", Status := "False", Reason := "NotFound" },
         { Type_ := "VirtualMachinePrereqReady", Status := "False",
           Reason := "VirtualMachineClassNotFound" },
         { Type_ := "VirtualMachineCreated", Status := "True" }] } }).1
    ⟨_, List.mem_cons_of_mem _ (List.mem_cons_self _ _), rfl⟩
    ⟨_, List.mem_cons_self _ _, by decide⟩).2 (by decide)

/-- C14 as stated fails: the aggregate is False with Reason VirtualMachineClassNotFound and
Message "no such class"; the synthesized class-ready condition carries the Reason, and its
Message is empty. -/
theorem up_class_reason_message_not_copied :
    convert_v1alpha1_PreReqsReadyCondition_to_v1alpha4_Conditions v1alpha1.consts
      vmopv1.consts
      { Status := { Conditions :=
          [{ Type_ := "VirtualMachinePrereqReady", Status := "False",
             Reason := "VirtualMachineClassNotFound", Message := "no such class",
             LastTransitionTime := 7 }] } } =
      [{ Type_ := "VirtualMachineClassReady", Status := "False", LastTransitionTime := 7,
         Reason := "VirtualMachineClassNotFound", Message := "" },
       { Type_ := "VirtualMachineImageReady", Status := "Unknown", LastTransitionTime := 7,
         Reason := "Unknown", Message := "" }] := by
  decide

/-- C14, amended: up-conversion of a False aggregate with a class-related Reason.  When the
condition list is `l ++ [p]`, `p` is a VirtualMachinePrereqReady condition with Status False
and Reason VirtualMachineClassNotFound or VirtualMachineClassBindingNotFound and `l` holds
no well-known hub condition, the result is `l` followed by a ClassReady condition with
Status False, the Reason and LastTransitionTime of `p` and an empty Message, by an
ImageReady condition with Status Unknown, and by the Unknown conditions of the optional
features that the spec requests. -/
theorem up_false_class_reason (a : v1alpha1.Consts) (v : vmopv1.Consts)
    (dst : vmopv1.VirtualMachine) (l : List metav1.Condition) (p : metav1.Condition)
    (hc : dst.Status.Conditions = l ++ [p])
    (hp : p.Type_ = a.VirtualMachinePrereqReadyCondition)
    (hs : p.Status = metav1.ConditionFalse)
    (hr : p.Reason = a.VirtualMachineClassNotFoundReason ∨
      p.Reason = a.VirtualMachineClassBindingNotFoundReason)
    (hl : ∀ c ∈ l, c.Type_ ∉ wellKnownTypes v) :
    convert_v1alpha1_PreReqsReadyCondition_to_v1alpha4_Conditions a v dst =
      l ++
      [{ Type_ := v.VirtualMachineConditionClassReady, Status := metav1.ConditionFalse,
         LastTransitionTime := p.LastTransitionTime, Reason := p.Reason, Message := "" },
       { Type_ := v.VirtualMachineConditionImageReady, Status := metav1.ConditionUnknown,
         LastTransitionTime := p.LastTransitionTime, Reason := metav1.ConditionUnknown }] ++
      optionalConditions v dst metav1.ConditionUnknown p.LastTransitionTime := by
  rw [up_aggregate_last a v dst l p hc hl hp]
  have hne : ¬ (metav1.ConditionFalse = metav1.ConditionTrue) := by decide
  simp [synthesize, hs, hr, hne]

/-- A False aggregate with Reason VirtualMachineClassBindingNotFound and a Message, behind a
created condition. -/
theorem up_false_class_reason_witness :
    convert_v1alpha1_PreReqsReadyCondition_to_v1alpha4_Conditions v1alpha1.consts
      vmopv1.consts
      { Status := { Conditions :=
          [{ Type_ := "VirtualMachineCreated", Status := "True" },
           { Type_ := "VirtualMachinePrereqReady", Status := "False",
             Reason := "VirtualMachineClassBindingNotFound", Message := "no binding",
             LastTransitionTime := 7 }] } } =
      [{ Type_ := "VirtualMachineCreated", Status := "True" },
       { Type_ := "VirtualMachineClassReady", Status := "False", LastTransitionTime := 7,
         Reason := "VirtualMachineClassBindingNotFound", Message := "" },
       { Type_ := "VirtualMachineImageReady", Status := "Unknown", LastTransitionTime := 7,
         Reason := "Unknown" }] :=
  up_false_class_reason v1alpha1.consts vmopv1.consts
    { Status := { Conditions :=
        [{ Type_ := "VirtualMachineCreated", Status := "True" },
         { Type_ := "VirtualMachinePrereqReady", Status := "False",
           Reason := "VirtualMachineClassBindingNotFound", Message := "no binding",
           LastTransitionTime := 7 }] } }
    [{ Type_ := "VirtualMachineCreated", Status := "True" }]
    { Type_ := "VirtualMachinePrereqReady", Status := "False",
      Reason := "VirtualMachineClassBindingNotFound", Message := "no binding",
      LastTransitionTime := 7 }
    rfl rfl rfl (Or.inr rfl) (by decide)

/-- C15: up-conversion of a False aggregate with an image-related Reason.  When the
condition list is `l ++ [p]`, `p` is a VirtualMachinePrereqReady condition with Status False
and Reason one of VirtualMachineImageNotFound, VirtualMachineImageNotReady,
ContentSourceBindingNotFound, ContentLibraryProviderNotFound and `l` holds no well-known hub
condition, the result is `l` followed by ClassReady with Status True, by ImageReady with
Status False and the Reason of `p`, and by the Unknown conditions of the optional features
that the spec requests. -/
theorem up_false_image_reason (a : v1alpha1.Consts) (v : vmopv1.Consts)
    (hdis : ReasonClassesDisjoint a)
    (dst : vmopv1.VirtualMachine) (l : List metav1.Condition) (p : metav1.Condition)
    (hc : dst.Status.Conditions = l ++ [p])
    (hp : p.Type_ = a.VirtualMachinePrereqReadyCondition)
    (hs : p.Status = metav1.ConditionFalse)
    (hr : p.Reason ∈ [a.VirtualMachineImageNotFoundReason, a.VirtualMachineImageNotReadyReason,
      a.ContentSourceBindingNotFoundReason, a.ContentLibraryProviderNotFoundReason])
    (hl : ∀ c ∈ l, c.Type_ ∉ wellKnownTypes v) :
    convert_v1alpha1_PreReqsReadyCondition_to_v1alpha4_Conditions a v dst =
      l ++
      [{ Type_ := v.VirtualMachineConditionClassReady, Status := metav1.ConditionTrue,
         LastTransitionTime := p.LastTransitionTime, Reason := metav1.ConditionTrue },
       { Type_ := v.VirtualMachineConditionImageReady, Status := metav1.ConditionFalse,
         LastTransitionTime := p.LastTransitionTime, Reason := p.Reason }] ++
      optionalConditions v dst metav1.ConditionUnknown p.LastTransitionTime := by
  rw [up_aggregate_last a v dst l p hc hl hp]
  have hne : ¬ (metav1.ConditionFalse = metav1.ConditionTrue) := by decide
  have hcls := hdis p.Reason hr
  simp only [List.mem_cons, List.mem_singleton, List.not_mem_nil, or_false, not_or] at hcls hr
  simp [synthesize, hs, hne, hcls.1, hcls.2, hr]

/-- A False aggregate with Reason ContentSourceBindingNotFound and a requested resource
policy. -/
theorem up_false_image_reason_witness :
    convert_v1alpha1_PreReqsReadyCondition_to_v1alpha4_Conditions v1alpha1.consts
      vmopv1.consts
      { Spec := { Reserved := some { ResourcePolicyName := "policy" } },
        Status := { Conditions :=
          [{ Type_ := "VirtualMachinePrereqReady", Status := "False",
             Reason := "ContentSourceBindingNotFound", LastTransitionTime := 7 }] } } =
      [{ Type_ := "VirtualMachineClassReady", Status := "True", LastTransitionTime := 7,
         Reason := "True" },
       { Type_ := "VirtualMachineImageReady", Status := "False", LastTransitionTime := 7,
         Reason := "ContentSourceBindingNotFound" },
       { Type_ := "VirtualMachineConditionVMSetResourcePolicyReady", Status := "Unknown",
         LastTransitionTime := 7, Reason := "Unknown" }] :=
  up_false_image_reason v1alpha1.consts vmopv1.consts
    (by unfold ReasonClassesDisjoint; decide)
    { Spec := { Reserved := some { ResourcePolicyName := "policy" } },
      Status := { Conditions :=
        [{ Type_ := "VirtualMachinePrereqReady", Status := "False",
           Reason := "ContentSourceBindingNotFound", LastTransitionTime := 7 }] } }
    []
    { Type_ := "VirtualMachinePrereqReady", Status := "False",
      Reason := "ContentSourceBindingNotFound", LastTransitionTime := 7 }
    rfl rfl rfl (by decide) (by decide)

/-- C17 as stated fails: class-ready False with Reason "ClassNotFound" converts down to the
list with the False aggregate appended, and converting that list back up gives the
class-ready condition alone: no image-ready condition with Status Unknown is synthesized. -/
theorem scenario3_no_image_ready :
    translate_v1alpha4_Conditions_To_v1alpha1_Conditions v1alpha1.consts vmopv1.consts
      [{ Type_ := "VirtualMachineClassReady", Status := "False", Reason := "ClassNotFound",
         LastTransitionTime := 3 }] =
      [{ Type_ := "VirtualMachineClassReady", Status := "False", Reason := "ClassNotFound",
         LastTransitionTime := 3 },
       { Type_ := "VirtualMachinePrereqReady", Status := "False", Severity := "Error",
         Reason := "VirtualMachineClassNotFound", LastTransitionTime := 3 }] ∧
    convert_v1alpha1_PreReqsReadyCondition_to_v1alpha4_Conditions v1alpha1.consts
      vmopv1.consts
      { Status :=
        { Conditions :=
            List.map Convert_v1alpha1_Condition_To_v1_Condition
              (translate_v1alpha4_Conditions_To_v1alpha1_Conditions v1alpha1.consts
                vmopv1.consts
                [{ Type_ := "VirtualMachineClassReady", Status := "False",
                   Reason := "ClassNotFound", LastTransitionTime := 3 }]) } } =
      [{ Type_ := "VirtualMachineClassReady", Status := "False", Reason := "ClassNotFound",
         LastTransitionTime := 3 }] := by
  constructor <;> decide

/-- C17, amended: scenario 3 round trip.  A list that consists of class-ready False with any
Reason converts down to that condition followed by the False aggregate, and the up-conversion
of the resulting list (each condition converted to the hub type by a conversion that keeps
the Type) removes the aggregate and synthesizes nothing, because class-ready is present: the
result is the class-ready condition alone, with its own Reason, and holds no image-ready
condition. -/
theorem scenario3_round_trip (a : v1alpha1.Consts) (v : vmopv1.Consts)
    (hd : ConditionTypesDistinct a v) (hr : ReasonsNonEmpty a)
    (up : v1alpha1.Condition → metav1.Condition) (hup : ∀ c, (up c).Type_ = c.Type_)
    (c : v1alpha1.Condition) (hc : c.Type_ = v.VirtualMachineConditionClassReady)
    (hs : c.Status = corev1.ConditionFalse)
    (dst : vmopv1.VirtualMachine)
    (hdst : dst.Status.Conditions =
      (translate_v1alpha4_Conditions_To_v1alpha1_Conditions a v [c]).map up) :
    translate_v1alpha4_Conditions_To_v1alpha1_Conditions a v [c] =
      [c, { Type_ := a.VirtualMachinePrereqReadyCondition, Status := corev1.ConditionFalse,
            Severity := a.ConditionSeverityError,
            Reason := a.VirtualMachineClassNotFoundReason, Message := c.Message,
            LastTransitionTime := c.LastTransitionTime }] ∧
    convert_v1alpha1_PreReqsReadyCondition_to_v1alpha4_Conditions a v dst = [up c] ∧
    ∀ x ∈ convert_v1alpha1_PreReqsReadyCondition_to_v1alpha4_Conditions a v dst,
      x.Type_ ≠ v.VirtualMachineConditionImageReady := by
  have hd' := hd
  simp only [ConditionTypesDistinct, List.nodup_cons, List.mem_cons, List.mem_singleton,
    List.not_mem_nil, or_false, not_or, not_false_eq_true, List.nodup_nil, and_true] at hd'
  obtain ⟨⟨d12, -, -, -⟩, ⟨d23, -, -⟩, -, -⟩ := hd'
  have hcls : classify a v [c] = { vmClassCond := some 0 } := by
    simp [classify, classifyFrom, classifyStep, hc, Ne.symm d12]
  have hdown : translate_v1alpha4_Conditions_To_v1alpha1_Conditions a v [c] =
      [c, { Type_ := a.VirtualMachinePrereqReadyCondition, Status := corev1.ConditionFalse,
            Severity := a.ConditionSeverityError,
            Reason := a.VirtualMachineClassNotFoundReason, Message := c.Message,
            LastTransitionTime := c.LastTransitionTime }] := by
    rw [translate_classFalse a v hd hr [c] ⟨⟨c, List.mem_singleton_self c, hc⟩,
      fun x hx _ => by rw [List.mem_singleton.1 hx]; exact hs⟩, hcls]
    simp [storePrereq, deref]
  have hup1 : (up c).Type_ = v.VirtualMachineConditionClassReady := by rw [hup, hc]
  have hout : convert_v1alpha1_PreReqsReadyCondition_to_v1alpha4_Conditions a v dst =
      [up c] := by
    unfold convert_v1alpha1_PreReqsReadyCondition_to_v1alpha4_Conditions
    rw [hdst, hdown]
    simp [classifyHub, classifyHubFrom, classifyStepHub, hup, hc, Ne.symm d12]
  refine ⟨hdown, hout, ?_⟩
  rw [hout]
  intro x hx
  rw [List.mem_singleton.1 hx, hup1]
  exact d23

/-- Class-ready False with Reason "NotFound" round-trips to itself. -/
theorem scenario3_round_trip_witness :
    convert_v1alpha1_PreReqsReadyCondition_to_v1alpha4_Conditions v1alpha1.consts
      vmopv1.consts
      { Status :=
        { Conditions :=
            List.map Convert_v1alpha1_Condition_To_v1_Condition
              (translate_v1alpha4_Conditions_To_v1alpha1_Conditions v1alpha1.consts
                vmopv1.consts
                [{ Type_ := "VirtualMachineClassReady", Status := "False",
                   Reason := "NotFound", LastTransitionTime := 3 }]) } } =
      [Convert_v1alpha1_Condition_To_v1_Condition
        { Type_ := "VirtualMachineClassReady", Status := "False", Reason := "NotFound",
          LastTransitionTime := 3 }] :=
  (scenario3_round_trip v1alpha1.consts vmopv1.consts
    (by unfold ConditionTypesDistinct; decide) (by unfold ReasonsNonEmpty; decide)
    Convert_v1alpha1_Condition_To_v1_Condition (fun _ => rfl)
    { Type_ := "VirtualMachineClassReady", Status := "False", Reason := "NotFound",
      LastTransitionTime := 3 }
    rfl rfl
    { Status :=
      { Conditions :=
          List.map Convert_v1alpha1_Condition_To_v1_Condition
            (translate_v1alpha4_Conditions_To_v1alpha1_Conditions v1alpha1.consts
              vmopv1.consts
              [{ Type_ := "VirtualMachineClassReady", Status := "False",
                 Reason := "NotFound", LastTransitionTime := 3 }]) } }
    rfl).2.1

/-! ## Theorems: order independence -/

theorem filter_le_one {α : Type} (f : α → String) (t : String) (l : List α)
    (hn : (l.map f).Nodup) :
    l.filter (fun c => f c = t) = [] ∨ ∃ c, l.filter (fun c => f c = t) = [c] := by
  induction l with
  | nil => exact Or.inl rfl
  | cons x xs ih =>
    rw [List.map_cons, List.nodup_cons] at hn
    by_cases hx : f x = t
    · right
      refine ⟨x, ?_⟩
      have e : xs.filter (fun c => f c = t) = [] :=
        List.filter_eq_nil_iff.2 fun y hy => by
          intro hyt
          exact hn.1 (List.mem_map.2 ⟨y, hy, by rw [hx]; simpa using hyt⟩)
      simp [List.filter_cons, hx, e]
    · simpa [List.filter_cons, hx] using ih hn.2

/-- With at most one element per key, the elements with a given key do not depend on the
order of the list. -/
theorem filter_eq_of_perm_nodup {α : Type} (f : α → String) (t : String) (l l' : List α)
    (hn : (l.map f).Nodup) (hp : l.Perm l') :
    l.filter (fun c => f c = t) = l'.filter (fun c => f c = t) := by
  have hperm := hp.filter (fun c => decide (f c = t))
  rcases filter_le_one f t l hn with h | ⟨c, h⟩
  · rw [h] at hperm ⊢
    exact (List.nil_perm.1 hperm).symm
  · rw [h] at hperm ⊢
    exact List.singleton_perm.1 hperm

theorem ptrStatusIs_eq_pointee (l : List v1alpha1.Condition) (q : Option Nat) (s : String) :
    ptrStatusIs l q s =
      (match pointee l q with
       | some c => c.Status == s
       | none => false) := by
  cases q <;> rfl

theorem nilOrStatusIs_eq_pointee (l : List v1alpha1.Condition) (q : Option Nat) (s : String) :
    nilOrStatusIs l q s =
      (match pointee l q with
       | some c => c.Status == s
       | none => true) := by
  cases q <;> rfl

theorem deref_eq_pointee (l : List v1alpha1.Condition) (q : Option Nat) :
    deref l q = (pointee l q).getD {} := by
  cases q <;> rfl

/-- The translation stores the aggregate that `deriveLegacy` computes from the five
classified conditions, or returns its input when there is none. -/
theorem translate_eq_deriveLegacy (a : v1alpha1.Consts) (v : vmopv1.Consts)
    (l : List v1alpha1.Condition) :
    translate_v1alpha4_Conditions_To_v1alpha1_Conditions a v l =
      match deriveLegacy a (pointee l (classify a v l).preReqCond)
          (pointee l (classify a v l).vmClassCond) (pointee l (classify a v l).vmImageCond)
          (pointee l (classify a v l).vmSetResourcePolicyCond)
          (pointee l (classify a v l).vmBootstrapCond) with
      | some p => storePrereq l (classify a v l).preReqCond p
      | none => l := by
  unfold translate_v1alpha4_Conditions_To_v1alpha1_Conditions deriveLegacy
  simp only [ptrStatusIs_eq_pointee, nilOrStatusIs_eq_pointee, deref_eq_pointee]
  split_ifs <;> first
    | rfl
    | (cases (classify a v l).preReqCond <;> rfl)
    | simp_all

/-- With at most one condition per Type, what a pointer points at does not depend on the
order of the list. -/
theorem pointee_perm (l l' : List v1alpha1.Condition) (t : String) (q q' : Option Nat)
    (hn : (l.map fun x => x.Type_).Nodup) (hp : l.Perm l')
    (hq : PointsTo l t q) (hq' : PointsTo l' t q') : pointee l q = pointee l' q' := by
  cases q with
  | none =>
    cases q' with
    | none => rfl
    | some k' =>
      obtain ⟨c', hc', ht'⟩ := hq'
      exact absurd ht' (hq c' (hp.mem_iff.2 (List.getElem?_mem hc')))
  | some k =>
    obtain ⟨c, hc, ht⟩ := hq
    cases q' with
    | none => exact absurd ht (hq' c (hp.mem_iff.1 (List.getElem?_mem hc)))
    | some k' =>
      obtain ⟨c', hc', ht'⟩ := hq'
      have : c = c' := List.inj_on_of_nodup_map hn (List.getElem?_mem hc)
        (hp.mem_iff.2 (List.getElem?_mem hc')) (by rw [ht, ht'])
      simp [pointee, deref_of_getElem? l k c hc, deref_of_getElem? l' k' c' hc', this]

theorem deriveLegacy_type (a : v1alpha1.Consts)
    (preReq cls img pol boot : Option v1alpha1.Condition) (p : v1alpha1.Condition)
    (h : deriveLegacy a preReq cls img pol boot = some p) :
    p.Type_ = a.VirtualMachinePrereqReadyCondition := by
  unfold deriveLegacy at h
  simp only [] at h
  split_ifs at h <;> rw [← Option.some.inj h]

/-- With at most one condition per Type, the stored aggregate is the one
VirtualMachinePrereqReady condition of the result. -/
theorem storePrereq_filter (l : List v1alpha1.Condition) (t : String) (q : Option Nat)
    (hn : (l.map fun x => x.Type_).Nodup) (hq : PointsTo l t q) (p : v1alpha1.Condition)
    (hp : p.Type_ = t) : (storePrereq l q p).filter (fun c => c.Type_ = t) = [p] := by
  cases q with
  | none =>
    have := filter_type_singleton l [] p t hp hq (by simp)
    simpa [storePrereq] using this
  | some k =>
    obtain ⟨c, hk, ht⟩ := hq
    obtain ⟨l1, l2, hl, -, hset⟩ := set_eq_append l k c hk
    have hsplit := nodup_types_split l1 l2 c (by rw [← hl]; exact hn)
    rw [ht] at hsplit
    simp only [storePrereq, hset]
    exact filter_type_singleton l1 l2 p t hp hsplit.1 hsplit.2

/-- C11: condition derivation is order-independent.  For two condition lists that are
permutations of each other, with pairwise distinct Types, the translation derives the same
legacy aggregate: the VirtualMachinePrereqReady conditions of the two results are the same
(none in both, or one with the same fields in both).  For two hub condition lists that are
permutations of each other, with pairwise distinct Types, the derived phase is the same. -/
theorem derivation_order_independent (a : v1alpha1.Consts) (v : vmopv1.Consts)
    (hd : ConditionTypesDistinct a v) :
    (∀ l l' : List v1alpha1.Condition, l.Perm l' → (l.map fun x => x.Type_).Nodup →
      (translate_v1alpha4_Conditions_To_v1alpha1_Conditions a v l).filter
          (fun c => c.Type_ = a.VirtualMachinePrereqReadyCondition) =
        (translate_v1alpha4_Conditions_To_v1alpha1_Conditions a v l').filter
          (fun c => c.Type_ = a.VirtualMachinePrereqReadyCondition)) ∧
    (∀ h h' : List metav1.Condition, h.Perm h' → (h.map fun x => x.Type_).Nodup →
      convert_v1alpha4_Conditions_To_v1alpha1_Phase a v h =
        convert_v1alpha4_Conditions_To_v1alpha1_Phase a v h') := by
  constructor
  · intro l l' hp hn
    have hn' : (l'.map fun x => x.Type_).Nodup := (hp.map _).nodup_iff.1 hn
    obtain ⟨q1, q2, q3, q4, q5⟩ := classify_pointsTo a v hd l
    obtain ⟨r1, r2, r3, r4, r5⟩ := classify_pointsTo a v hd l'
    rw [translate_eq_deriveLegacy a v l, translate_eq_deriveLegacy a v l',
      ← pointee_perm l l' _ _ _ hn hp q1 r1, ← pointee_perm l l' _ _ _ hn hp q2 r2,
      ← pointee_perm l l' _ _ _ hn hp q3 r3, ← pointee_perm l l' _ _ _ hn hp q4 r4,
      ← pointee_perm l l' _ _ _ hn hp q5 r5]
    cases hdl : deriveLegacy a (pointee l (classify a v l).preReqCond)
        (pointee l (classify a v l).vmClassCond) (pointee l (classify a v l).vmImageCond)
        (pointee l (classify a v l).vmSetResourcePolicyCond)
        (pointee l (classify a v l).vmBootstrapCond) with
    | none => exact filter_eq_of_perm_nodup (fun x => x.Type_) _ l l' hn hp
    | some p =>
      have hpt := deriveLegacy_type a _ _ _ _ _ p hdl
      simp only []
      rw [storePrereq_filter l _ _ hn q1 p hpt, storePrereq_filter l' _ _ hn' r1 p hpt]
  · intro h h' hp hn
    rw [phase_filter a v h, phase_filter a v h',
      filter_eq_of_perm_nodup (fun x => x.Type_) _ h h' hn hp]

/-- The list [class-ready False, image-ready True, stale True aggregate] and the same
conditions in another order derive the same False aggregate. -/
theorem derivation_order_independent_witness :
    (translate_v1alpha4_Conditions_To_v1alpha1_Conditions v1alpha1.consts vmopv1.consts
      [{ Type_ := "VirtualMachineClassReady", Status := "False", LastTransitionTime := 1 },
       { Type_ := "VirtualMachineImageReady", Status := "True", LastTransitionTime := 2 },
       { Type_ := "VirtualMachinePrereqReady", Status := "True", LastTransitionTime := 3 }]
      ).filter (fun c => c.Type_ = "VirtualMachinePrereqReady") =
    (translate_v1alpha4_Conditions_To_v1alpha1_Conditions v1alpha1.consts vmopv1.consts
      [{ Type_ := "VirtualMachinePrereqReady", Status := "True", LastTransitionTime := 3 },
       { Type_ := "VirtualMachineImageReady", Status := "True", LastTransitionTime := 2 },
       { Type_ := "VirtualMachineClassReady", Status := "False", LastTransitionTime := 1 }]
      ).filter (fun c => c.Type_ = "VirtualMachinePrereqReady") :=
  (derivation_order_independent v1alpha1.consts vmopv1.consts
    (by unfold ConditionTypesDistinct; decide)).1
    [{ Type_ := "VirtualMachineClassReady", Status := "False", LastTransitionTime := 1 },
     { Type_ := "VirtualMachineImageReady", Status := "True", LastTransitionTime := 2 },
     { Type_ := "VirtualMachinePrereqReady", Status := "True", LastTransitionTime := 3 }]
    [{ Type_ := "VirtualMachinePrereqReady", Status := "True", LastTransitionTime := 3 },
     { Type_ := "VirtualMachineImageReady", Status := "True", LastTransitionTime := 2 },
     { Type_ := "VirtualMachineClassReady", Status := "False", LastTransitionTime := 1 }]
    (by decide) (by decide)

/-! ## Theorems: ConvertTo -/

/-- The branch of `ConvertTo` taken when `UnmarshalData` reports an error or no snapshot. -/
theorem convertTo_no_snapshot (a : v1alpha1.Consts) (v : vmopv1.Consts) (g : GeneratedVM)
    (u : v1alpha1.VirtualMachine → UnmarshalResult) (src : v1alpha1.VirtualMachine)
    (dstRaw d : vmopv1.VirtualMachine)
    (hconv : Convert_v1alpha1_VirtualMachine_To_v1alpha4_VirtualMachine a v g src dstRaw
      = .ok d)
    (hu : (u src).err.isSome = true ∨ (u src).ok = false) :
    src.ConvertTo a v g u dstRaw =
      { dst :=
          { d with
            Status.Conditions :=
              convert_v1alpha1_PreReqsReadyCondition_to_v1alpha4_Conditions a v d },
        err := (u src).err } := by
  unfold v1alpha1.VirtualMachine.ConvertTo
  have hc : ((u src).err.isSome || !(u src).ok) = true := by
    rcases hu with h | h <;> simp [h]
  simp only [hconv, hc, if_true]

/-- The branch of `ConvertTo` taken when `UnmarshalData` restored a snapshot. -/
theorem convertTo_snapshot (a : v1alpha1.Consts) (v : vmopv1.Consts) (g : GeneratedVM)
    (u : v1alpha1.VirtualMachine → UnmarshalResult) (src : v1alpha1.VirtualMachine)
    (dstRaw d : vmopv1.VirtualMachine)
    (hconv : Convert_v1alpha1_VirtualMachine_To_v1alpha4_VirtualMachine a v g src dstRaw
      = .ok d)
    (hok : (u src).ok = true) (herr : (u src).err = none) :
    src.ConvertTo a v g u dstRaw =
      { dst := { restoreAll d (u src).restored with Status := (u src).restored.Status },
        err := none } := by
  unfold v1alpha1.VirtualMachine.ConvertTo
  simp [hconv, hok, herr]

/-- C18 as stated fails: when `UnmarshalData` reports a parse error, `ConvertTo` returns that
error to the caller. -/
theorem convertTo_returns_unmarshal_error :
    (v1alpha1.VirtualMachine.ConvertTo
      { Spec := { ImageName := "photon" },
        Status := { Conditions :=
          [{ Type_ := "VirtualMachinePrereqReady", Status := "True",
             LastTransitionTime := 7 }] } }
      v1alpha1.consts vmopv1.consts GeneratedVM.copying
      (fun _ => { ok := false, err := some "unexpected end of JSON input" }) {}).err =
      some "unexpected end of JSON input" := by
  rfl

/-- C18, amended: a malformed side-channel snapshot does not change what is written to the
hub object, and its error is returned.  When the structural conversion succeeds and
`UnmarshalData` reports an error, `ConvertTo` leaves the hub object that it leaves when the
annotation is absent (`UnmarshalData` reports no snapshot and no error): the structural
conversion with the condition list backfilled by the heuristic; the call returns the error of
`UnmarshalData`, whereas it returns no error when the annotation is absent. -/
theorem convertTo_malformed_snapshot (a : v1alpha1.Consts) (v : vmopv1.Consts)
    (g : GeneratedVM) (u u' : v1alpha1.VirtualMachine → UnmarshalResult)
    (src : v1alpha1.VirtualMachine) (dstRaw d : vmopv1.VirtualMachine) (e : String)
    (hconv : Convert_v1alpha1_VirtualMachine_To_v1alpha4_VirtualMachine a v g src dstRaw
      = .ok d)
    (hu : (u src).err = some e)
    (hu' : (u' src).ok = false ∧ (u' src).err = none) :
    src.ConvertTo a v g u dstRaw =
      { dst :=
          { d with
            Status.Conditions :=
              convert_v1alpha1_PreReqsReadyCondition_to_v1alpha4_Conditions a v d },
        err := some e } ∧
    src.ConvertTo a v g u' dstRaw =
      { dst :=
          { d with
            Status.Conditions :=
              convert_v1alpha1_PreReqsReadyCondition_to_v1alpha4_Conditions a v d },
        err := none } := by
  constructor
  · rw [convertTo_no_snapshot a v g u src dstRaw d hconv (Or.inl (by simp [hu])), hu]
  · rw [convertTo_no_snapshot a v g u' src dstRaw d hconv (Or.inr hu'.1), hu'.2]

/-- A spoke object with a True aggregate and an unparseable snapshot: the error comes back
and the conditions are the backfilled ones. -/
theorem convertTo_malformed_snapshot_witness :
    (v1alpha1.VirtualMachine.ConvertTo
      { Status := { Conditions :=
          [{ Type_ := "VirtualMachinePrereqReady", Status := "True",
             LastTransitionTime := 7 }] } }
      v1alpha1.consts vmopv1.consts GeneratedVM.copying
      (fun _ => { ok := false, err := some "unexpected end of JSON input" }) {}).err =
      some "unexpected end of JSON input" ∧
    (v1alpha1.VirtualMachine.ConvertTo
      { Status := { Conditions :=
          [{ Type_ := "VirtualMachinePrereqReady", Status := "True",
             LastTransitionTime := 7 }] } }
      v1alpha1.consts vmopv1.consts GeneratedVM.copying
      (fun _ => { ok := false, err := some "unexpected end of JSON input" })
      {}).dst.Status.Conditions =
      [{ Type_ := "VirtualMachineClassReady", Status := "True", LastTransitionTime := 7,
         Reason := "True" },
       { Type_ := "VirtualMachineImageReady", Status := "True", LastTransitionTime := 7,
         Reason := "True" }] :=
  have h := (convertTo_malformed_snapshot v1alpha1.consts vmopv1.consts GeneratedVM.copying
    (fun _ => { ok := false, err := some "unexpected end of JSON input" })
    (fun _ => { ok := false, err := none })
    { Status := { Conditions :=
        [{ Type_ := "VirtualMachinePrereqReady", Status := "True",
           LastTransitionTime := 7 }] } }
    {} _ "unexpected end of JSON input" rfl rfl ⟨rfl, rfl⟩).1
  ⟨congrArg ConvertResult.err h, by rw [h]; decide⟩

/-- C19: a valid snapshot takes precedence over heuristic backfilling.  When the structural
conversion succeeds and `UnmarshalData` restores a snapshot, `ConvertTo` returns no error and
the Status of the hub object, condition list included, is the Status of the snapshot: the
heuristic is not applied, whatever conditions the spoke carries.  The condition list is the
result of the heuristic only when `UnmarshalData` reports an error or no snapshot. -/
theorem snapshot_takes_precedence (a : v1alpha1.Consts) (v : vmopv1.Consts) (g : GeneratedVM)
    (u : v1alpha1.VirtualMachine → UnmarshalResult) (src : v1alpha1.VirtualMachine)
    (dstRaw d : vmopv1.VirtualMachine)
    (hconv : Convert_v1alpha1_VirtualMachine_To_v1alpha4_VirtualMachine a v g src dstRaw
      = .ok d) :
    ((u src).ok = true → (u src).err = none →
      (src.ConvertTo a v g u dstRaw).err = none ∧
      (src.ConvertTo a v g u dstRaw).dst.Status = (u src).restored.Status) ∧
    ((u src).err.isSome = true ∨ (u src).ok = false →
      (src.ConvertTo a v g u dstRaw).dst.Status.Conditions =
        convert_v1alpha1_PreReqsReadyCondition_to_v1alpha4_Conditions a v d) := by
  constructor
  · intro hok herr
    rw [convertTo_snapshot a v g u src dstRaw d hconv hok herr]
    exact ⟨rfl, rfl⟩
  · intro hu
    rw [convertTo_no_snapshot a v g u src dstRaw d hconv hu]

/-- A spoke object with a True aggregate and a snapshot whose only condition is class-ready
False: the hub status is the one of the snapshot. -/
theorem snapshot_takes_precedence_witness :
    (v1alpha1.VirtualMachine.ConvertTo
      { Status := { Conditions :=
          [{ Type_ := "VirtualMachinePrereqReady", Status := "True",
             LastTransitionTime := 7 }] } }
      v1alpha1.consts vmopv1.consts GeneratedVM.copying
      (fun _ =>
        { ok := true,
          restored :=
            { Status :=
              { PowerState := "PoweredOn",
                Conditions :=
                  [{ Type_ := "VirtualMachineClassReady", Status := "False" }] } } })
      {}).dst.Status =
      { PowerState := "PoweredOn",
        Conditions := [{ Type_ := "VirtualMachineClassReady", Status := "False" }] } :=
  ((snapshot_takes_precedence v1alpha1.consts vmopv1.consts GeneratedVM.copying
    (fun _ =>
      { ok := true,
        restored :=
          { Status :=
            { PowerState := "PoweredOn",
              Conditions :=
                [{ Type_ := "VirtualMachineClassReady", Status := "False" }] } } })
    { Status := { Conditions :=
        [{ Type_ := "VirtualMachinePrereqReady", Status := "True",
           LastTransitionTime := 7 }] } }
    {} _ rfl).1 rfl rfl).2

theorem restore_bootstrap_image (dst src : vmopv1.VirtualMachine) :
    (restore_v1alpha4_VirtualMachineBootstrapSpec dst src).Spec.ImageName
      = dst.Spec.ImageName ∧
    (restore_v1alpha4_VirtualMachineBootstrapSpec dst src).Spec.Image = dst.Spec.Image := by
  unfold restore_v1alpha4_VirtualMachineBootstrapSpec
  split
  · exact ⟨rfl, rfl⟩
  · split
    · split <;> exact ⟨rfl, rfl⟩
    · exact ⟨rfl, rfl⟩

theorem restore_network_image (dst src : vmopv1.VirtualMachine) :
    (restore_v1alpha4_VirtualMachineNetworkSpec dst src).Spec.ImageName
      = dst.Spec.ImageName ∧
    (restore_v1alpha4_VirtualMachineNetworkSpec dst src).Spec.Image = dst.Spec.Image := by
  unfold restore_v1alpha4_VirtualMachineNetworkSpec
  split
  · exact ⟨rfl, rfl⟩
  · simp only []
    split_ifs <;> exact ⟨rfl, rfl⟩

theorem restore_probe_image (dst src : vmopv1.VirtualMachine) :
    (restore_v1alpha4_VirtualMachineReadinessProbeSpec dst src).Spec.ImageName
      = dst.Spec.ImageName ∧
    (restore_v1alpha4_VirtualMachineReadinessProbeSpec dst src).Spec.Image
      = dst.Spec.Image := by
  unfold restore_v1alpha4_VirtualMachineReadinessProbeSpec
  split <;> exact ⟨rfl, rfl⟩

theorem restore_instanceID_image (dst src : vmopv1.VirtualMachine) :
    (restore_v1alpha4_VirtualMachineBootstrapCloudInitInstanceID dst src).Spec.ImageName
      = dst.Spec.ImageName ∧
    (restore_v1alpha4_VirtualMachineBootstrapCloudInitInstanceID dst src).Spec.Image
      = dst.Spec.Image := by
  unfold restore_v1alpha4_VirtualMachineBootstrapCloudInitInstanceID
  simp only []
  split_ifs <;> exact ⟨rfl, rfl⟩

/-- After the restore pass the image name and the image reference are the ones of the
snapshot. -/
theorem restoreAll_image (dst restored : vmopv1.VirtualMachine) :
    (restoreAll dst restored).Spec.ImageName = restored.Spec.ImageName ∧
    (restoreAll dst restored).Spec.Image = restored.Spec.Image := by
  unfold restoreAll
  simp only [restore_v1alpha4_VirtualMachineGroupName, restore_v1alpha4_VirtualMachineAffinitySpec,
    restore_v1alpha4_VirtualMachineBootOptions, restore_v1alpha4_VirtualMachinePromoteDisksMode,
    restore_v1alpha4_VirtualMachineCryptoSpec, restore_v1alpha4_VirtualMachineCdrom,
    restore_v1alpha4_VirtualMachineGuestID, restore_v1alpha4_VirtualMachineInstanceUUID,
    (restore_instanceID_image _ _).1, (restore_instanceID_image _ _).2,
    restore_v1alpha4_VirtualMachineBiosUUID,
    (restore_probe_image _ _).1, (restore_probe_image _ _).2,
    (restore_network_image _ _).1, (restore_network_image _ _).2,
    (restore_bootstrap_image _ _).1, (restore_bootstrap_image _ _).2,
    restore_v1alpha4_VirtualMachineImage, and_self]

/-- C20 as stated fails: the spoke object sets the image name "photon-5", the snapshot holds
"photon-4", and the hub object returned by `ConvertTo` has the image name of the snapshot. -/
theorem restore_overwrites_image_name :
    (v1alpha1.VirtualMachine.ConvertTo { Spec := { ImageName := "photon-5" } }
      v1alpha1.consts vmopv1.consts GeneratedVM.copying
      (fun _ => { ok := true, restored := { Spec := { ImageName := "photon-4" } } })
      {}).dst.Spec.ImageName = "photon-4" := by
  rfl

/-- C20, amended: the restore pass takes the image from the snapshot.  For every spoke
VirtualMachine (whatever its Spec.ImageName) for which the structural conversion succeeds and
`UnmarshalData` restores a snapshot, the hub object returned by `ConvertTo` has the
Spec.ImageName and the Spec.Image of the snapshot. -/
theorem restore_takes_image_from_snapshot (a : v1alpha1.Consts) (v : vmopv1.Consts)
    (g : GeneratedVM) (u : v1alpha1.VirtualMachine → UnmarshalResult)
    (src : v1alpha1.VirtualMachine) (dstRaw d : vmopv1.VirtualMachine)
    (hconv : Convert_v1alpha1_VirtualMachine_To_v1alpha4_VirtualMachine a v g src dstRaw
      = .ok d)
    (hok : (u src).ok = true) (herr : (u src).err = none) :
    (src.ConvertTo a v g u dstRaw).err = none ∧
    (src.ConvertTo a v g u dstRaw).dst.Spec.ImageName = (u src).restored.Spec.ImageName ∧
    (src.ConvertTo a v g u dstRaw).dst.Spec.Image = (u src).restored.Spec.Image := by
  rw [convertTo_snapshot a v g u src dstRaw d hconv hok herr]
  exact ⟨rfl, (restoreAll_image d (u src).restored).1, (restoreAll_image d (u src).restored).2⟩

/-- A persisted spoke object with image name "photon-5" and a snapshot with the image name
"photon-4" and an image reference. -/
theorem restore_takes_image_from_snapshot_witness :
    (v1alpha1.VirtualMachine.ConvertTo
      { ObjectMeta := { Generation := 2 }, Spec := { ImageName := "photon-5" } }
      v1alpha1.consts vmopv1.consts GeneratedVM.copying
      (fun _ =>
        { ok := true,
          restored :=
            { Spec :=
              { ImageName := "photon-4",
                Image := some { Kind := "VirtualMachineImage", Name := "vmi-1" } } } })
      {}).dst.Spec.Image = some { Kind := "VirtualMachineImage", Name := "vmi-1" } :=
  (restore_takes_image_from_snapshot v1alpha1.consts vmopv1.consts GeneratedVM.copying
    (fun _ =>
      { ok := true,
        restored :=
          { Spec :=
            { ImageName := "photon-4",
              Image := some { Kind := "VirtualMachineImage", Name := "vmi-1" } } } })
    { ObjectMeta := { Generation := 2 }, Spec := { ImageName := "photon-5" } }
    {} _ rfl rfl rfl).2.2

/-! ## Theorems: volumes and the boot-disk sentinel -/

/-- Volumes without a `VsphereVolume` are passed over by the search for the boot disk. -/
theorem bootDiskCapacity_skip (vs rest : List v1alpha1.VirtualMachineVolume)
    (h : ∀ x ∈ vs, x.VsphereVolume = none) :
    convert_v1alpha1_VsphereVolumes_To_v1alpha4_BootDiskCapacity (vs ++ rest) =
      convert_v1alpha1_VsphereVolumes_To_v1alpha4_BootDiskCapacity rest := by
  induction vs with
  | nil => rfl
  | cons x xs ih =>
    rw [List.cons_append]
    simp only [convert_v1alpha1_VsphereVolumes_To_v1alpha4_BootDiskCapacity,
      h x (List.mem_cons_self _ _)]
    exact ih fun y hy => h y (List.mem_cons_of_mem _ hy)

/-- C24 as stated fails: the search goes by the device key, not by the name.  A volume with
the reserved name and another device key yields nil, and a volume with another name and the
device key 2000 yields its capacity. -/
theorem boot_disk_not_located_by_name :
    convert_v1alpha1_VsphereVolumes_To_v1alpha4_BootDiskCapacity
      [{ Name := "vmoperator-vm-boot-disk",
         VsphereVolume := some
           { Capacity := [("ephemeral-storage", { Value := 10737418240, Format := "BinarySI" })],
             DeviceKey := some 2001 } }] = none ∧
    convert_v1alpha1_VsphereVolumes_To_v1alpha4_BootDiskCapacity
      [{ Name := "data",
         VsphereVolume := some
           { Capacity := [("ephemeral-storage", { Value := 10737418240, Format := "BinarySI" })],
             DeviceKey := some 2000 } }] =
      some { Value := 10737418240, Format := "BinarySI" } := by
  constructor <;> decide

/-- C24, amended: on Spoke -> Hub the boot-disk record is located by its well-known device
key.  For every v1alpha1 volume list the function returns the ephemeral-storage capacity of
the first volume whose VsphereVolume has the device key 2000, whatever its name, and nil
exactly when no volume has that device key; the volume written by
`convert_v1alpha4_BootDiskCapacity_To_v1alpha1_VirtualMachineVolume` has that device key. -/
theorem boot_disk_located_by_device_key (volumes : List v1alpha1.VirtualMachineVolume)
    (c : resource.Quantity) :
    convert_v1alpha1_VsphereVolumes_To_v1alpha4_BootDiskCapacity volumes =
      (match volumes.find? (fun x =>
          match x.VsphereVolume with
          | some vsVol => vsVol.DeviceKey = some bootDiskDeviceKey
          | none => false) with
       | some x => (x.VsphereVolume.getD {}).Capacity.StorageEphemeral
       | none => none) ∧
    (convert_v1alpha1_VsphereVolumes_To_v1alpha4_BootDiskCapacity volumes = none ↔
      ∀ x ∈ volumes, ∀ vsVol, x.VsphereVolume = some vsVol →
        vsVol.DeviceKey ≠ some bootDiskDeviceKey) ∧
    convert_v1alpha1_VsphereVolumes_To_v1alpha4_BootDiskCapacity
      ((convert_v1alpha4_BootDiskCapacity_To_v1alpha1_VirtualMachineVolume (some c)).toList)
      = some c := by
  refine ⟨?_, ?_, ?_⟩
  · induction volumes with
    | nil => rfl
    | cons x xs ih =>
      cases hx : x.VsphereVolume with
      | none =>
        simp [convert_v1alpha1_VsphereVolumes_To_v1alpha4_BootDiskCapacity, hx,
          List.find?_cons, ih]
      | some vsVol =>
        by_cases hk : vsVol.DeviceKey = some bootDiskDeviceKey
        · simp [convert_v1alpha1_VsphereVolumes_To_v1alpha4_BootDiskCapacity, hx,
            List.find?_cons, hk, corev1.ResourceList.StorageEphemeral]
          cases vsVol.Capacity.lookup corev1.ResourceEphemeralStorage <;> rfl
        · simp [convert_v1alpha1_VsphereVolumes_To_v1alpha4_BootDiskCapacity, hx,
            List.find?_cons, hk, ih]
  · induction volumes with
    | nil => simp [convert_v1alpha1_VsphereVolumes_To_v1alpha4_BootDiskCapacity]
    | cons x xs ih =>
      cases hx : x.VsphereVolume with
      | none =>
        simp [convert_v1alpha1_VsphereVolumes_To_v1alpha4_BootDiskCapacity, hx, ih]
      | some vsVol =>
        by_cases hk : vsVol.DeviceKey = some bootDiskDeviceKey
        · simp only [convert_v1alpha1_VsphereVolumes_To_v1alpha4_BootDiskCapacity, hx, hk,
            if_true, corev1.ResourceList.StorageEphemeral]
          constructor
          · intro h
            cases hl : vsVol.Capacity.lookup corev1.ResourceEphemeralStorage <;>
              simp [hl] at h
          · intro h
            exact absurd hk (h x (List.mem_cons_self _ _) vsVol hx)
        · simp [convert_v1alpha1_VsphereVolumes_To_v1alpha4_BootDiskCapacity, hx, hk, ih]
  · simp [convert_v1alpha4_BootDiskCapacity_To_v1alpha1_VirtualMachineVolume,
      convert_v1alpha1_VsphereVolumes_To_v1alpha4_BootDiskCapacity,
      corev1.ResourceList.StorageEphemeral, List.lookup]

/-- C25: the hub boot-disk capacity round-trips exactly through the sentinel volume.  For
every quantity `c` and every list `vs` of PersistentVolumeClaim-backed volumes (the claim is
set, the VsphereVolume is not), the down-conversion appends exactly one sentinel volume, the
up-conversion of the resulting list returns `c`, and so does a second down/up pair; when the
capacity is unset no volume is appended and the up-conversion returns nil. -/
theorem boot_disk_round_trip (c : resource.Quantity) (vs : List v1alpha1.VirtualMachineVolume)
    (hvs : ∀ x ∈ vs, x.PersistentVolumeClaim.isSome = true ∧ x.VsphereVolume = none) :
    (∃ sentinel,
      convert_v1alpha4_BootDiskCapacity_To_v1alpha1_VirtualMachineVolume (some c)
        = some sentinel ∧
      appendBootDiskVolume (some (some c)) vs = vs ++ [sentinel]) ∧
    convert_v1alpha1_VsphereVolumes_To_v1alpha4_BootDiskCapacity
      (appendBootDiskVolume (some (some c)) vs) = some c ∧
    convert_v1alpha1_VsphereVolumes_To_v1alpha4_BootDiskCapacity
      (appendBootDiskVolume
        (some (convert_v1alpha1_VsphereVolumes_To_v1alpha4_BootDiskCapacity
          (appendBootDiskVolume (some (some c)) vs))) vs) = some c ∧
    appendBootDiskVolume (some none) vs = vs ∧
    appendBootDiskVolume none vs = vs ∧
    convert_v1alpha1_VsphereVolumes_To_v1alpha4_BootDiskCapacity vs = none := by
  have hskip := fun rest => bootDiskCapacity_skip vs rest (fun x hx => (hvs x hx).2)
  have h1 : convert_v1alpha1_VsphereVolumes_To_v1alpha4_BootDiskCapacity
      (appendBootDiskVolume (some (some c)) vs) = some c := by
    simp only [appendBootDiskVolume,
      convert_v1alpha4_BootDiskCapacity_To_v1alpha1_VirtualMachineVolume]
    rw [hskip]
    simp [convert_v1alpha1_VsphereVolumes_To_v1alpha4_BootDiskCapacity,
      corev1.ResourceList.StorageEphemeral, List.lookup]
  refine ⟨⟨_, rfl, rfl⟩, h1, ?_, rfl, rfl, ?_⟩
  · rw [h1]
    exact h1
  · have := hskip []
    rw [List.append_nil] at this
    rw [this]
    rfl

/-- The capacity 10GiB next to one claim-backed volume. -/
theorem boot_disk_round_trip_witness :
    convert_v1alpha1_VsphereVolumes_To_v1alpha4_BootDiskCapacity
      (appendBootDiskVolume (some (some { Value := 10737418240, Format := "BinarySI" }))
        [{ Name := "data", PersistentVolumeClaim := some { ClaimName := "data-claim" } }]) =
      some { Value := 10737418240, Format := "BinarySI" } :=
  (boot_disk_round_trip { Value := 10737418240, Format := "BinarySI" }
    [{ Name := "data", PersistentVolumeClaim := some { ClaimName := "data-claim" } }]
    (by decide)).2.1

theorem keepClaimVolumes_eq (inp out : List vmopv1.VirtualMachineVolume) :
    keepClaimVolumes inp out = out ++ inp.filter fun x => x.PersistentVolumeClaim.isSome := by
  induction inp generalizing out with
  | nil => simp [keepClaimVolumes]
  | cons x xs ih =>
    simp only [keepClaimVolumes, ih, List.filter_cons]
    split_ifs <;> simp

/-- C26: drop-with-filter of the spoke-only volume variants.  The function is total and
returns exactly the sub-sequence of the input volumes whose PersistentVolumeClaim is set, in
the original order, or nil when that sub-sequence is empty; so no returned volume lacks the
claim, and applying the function to its own result gives the same result. -/
theorem filter_out_keeps_claim_volumes (inp : List vmopv1.VirtualMachineVolume) :
    filter_out_VirtualMachineVolumes_VsphereVolumes inp =
      (if inp.filter (fun x => x.PersistentVolumeClaim.isSome) = [] then none
       else some (inp.filter fun x => x.PersistentVolumeClaim.isSome)) ∧
    (∀ x ∈ (filter_out_VirtualMachineVolumes_VsphereVolumes inp).getD [],
      x.PersistentVolumeClaim ≠ none) ∧
    filter_out_VirtualMachineVolumes_VsphereVolumes
      ((filter_out_VirtualMachineVolumes_VsphereVolumes inp).getD []) =
      filter_out_VirtualMachineVolumes_VsphereVolumes inp := by
  have key : ∀ l : List vmopv1.VirtualMachineVolume,
      filter_out_VirtualMachineVolumes_VsphereVolumes l =
        (if l.filter (fun x => x.PersistentVolumeClaim.isSome) = [] then none
         else some (l.filter fun x => x.PersistentVolumeClaim.isSome)) := by
    intro l
    unfold filter_out_VirtualMachineVolumes_VsphereVolumes
    simp only [keepClaimVolumes_eq, List.nil_append, List.length_eq_zero]
    by_cases h : l = []
    · simp [h]
    · simp [h]
  refine ⟨key inp, ?_, ?_⟩
  · rw [key inp]
    intro x hx
    split_ifs at hx with h
    · simp at hx
    · simp only [Option.getD_some, List.mem_filter] at hx
      intro hn
      simp [hn] at hx
  · rw [key inp]
    split_ifs with h
    · simp [key]
    · rw [Option.getD_some, key, List.filter_filter]
      simp [h]

/-! ## Theorems: bootstrap and the metadata transport -/

/-- On a non-empty bootstrap spec the down-conversion returns a metadata object whose
transport is the one read off by the presence chain. -/
theorem bootstrap_down_some (a : v1alpha1.Consts) (v : vmopv1.Consts)
    (b : vmopv1.VirtualMachineBootstrapSpec) (ann : Annotations) (hb : b ≠ {}) :
    ∃ md, convert_v1alpha4_BootstrapSpec_To_v1alpha1_VmMetadata a v (some b) ann = some md ∧
      md.Transport = (bootstrapTransport a b).1 := by
  unfold convert_v1alpha4_BootstrapSpec_To_v1alpha1_VmMetadata
  simp only [if_neg hb]
  split_ifs
  · cases ann v.V1alpha1ConfigMapTransportAnnotation
    · exact ⟨_, rfl, rfl⟩
    · exact ⟨_, rfl, rfl⟩
  · exact ⟨_, rfl, rfl⟩

/-- The transport of the down-conversion's result, as an optional string. -/
theorem bootstrap_down_transport (a : v1alpha1.Consts) (v : vmopv1.Consts)
    (b : vmopv1.VirtualMachineBootstrapSpec) (ann : Annotations) (hb : b ≠ {}) :
    (convert_v1alpha4_BootstrapSpec_To_v1alpha1_VmMetadata a v (some b) ann).map
      (fun md => md.Transport) = some (bootstrapTransport a b).1 := by
  obtain ⟨md, h, ht⟩ := bootstrap_down_some a v b ann hb
  rw [h, Option.map_some', ht]

/-- Claim C21: the down-conversion of the bootstrap spec returns nil on a nil or empty spec,
and on every other spec a metadata object whose transport is decided in the fixed order
CloudInit (ExtraConfig for the key "guestinfo.userdata"), Sysprep, VAppConfig (OvfEnv together
with LinuxPrep); changing the lower-priority sub-objects leaves the transport unchanged. -/
theorem bootstrap_down_decision_tree (a : v1alpha1.Consts) (v : vmopv1.Consts)
    (b : vmopv1.VirtualMachineBootstrapSpec) (ann : Annotations) :
    convert_v1alpha4_BootstrapSpec_To_v1alpha1_VmMetadata a v none ann = none ∧
    convert_v1alpha4_BootstrapSpec_To_v1alpha1_VmMetadata a v (some {}) ann = none ∧
    (b ≠ {} →
      ∃ md, convert_v1alpha4_BootstrapSpec_To_v1alpha1_VmMetadata a v (some b) ann = some md ∧
        md.Transport =
          (match b.CloudInit with
           | some ci =>
             if ci.RawCloudConfig.map (fun r => r.Key) = some "guestinfo.userdata" then
               a.VirtualMachineMetadataExtraConfigTransport
             else a.VirtualMachineMetadataCloudInitTransport
           | none =>
             match b.Sysprep with
             | some _ => a.VirtualMachineMetadataSysprepTransport
             | none =>
               match b.VAppConfig with
               | some _ =>
                 if b.LinuxPrep.isSome then a.VirtualMachineMetadataOvfEnvTransport
                 else a.VirtualMachineMetadataVAppConfigTransport
               | none => "")) ∧
    (b.CloudInit.isSome = true → ∀ lp sp vc,
      (convert_v1alpha4_BootstrapSpec_To_v1alpha1_VmMetadata a v
          (some { b with LinuxPrep := lp, Sysprep := sp, VAppConfig := vc }) ann).map
        (fun md => md.Transport) =
      (convert_v1alpha4_BootstrapSpec_To_v1alpha1_VmMetadata a v (some b) ann).map
        (fun md => md.Transport)) ∧
    (b.CloudInit = none → b.Sysprep.isSome = true → ∀ lp vc,
      (convert_v1alpha4_BootstrapSpec_To_v1alpha1_VmMetadata a v
          (some { b with LinuxPrep := lp, VAppConfig := vc }) ann).map
        (fun md => md.Transport) =
      (convert_v1alpha4_BootstrapSpec_To_v1alpha1_VmMetadata a v (some b) ann).map
        (fun md => md.Transport)) := by
  refine ⟨rfl, ?_, ?_, ?_, ?_⟩
  · simp [convert_v1alpha4_BootstrapSpec_To_v1alpha1_VmMetadata]
  · intro hb
    obtain ⟨md, h, ht⟩ := bootstrap_down_some a v b ann hb
    refine ⟨md, h, ?_⟩
    rw [ht]
    unfold bootstrapTransport
    cases b.CloudInit with
    | some ci =>
      cases hr : ci.RawCloudConfig with
      | none => simp [hr]
      | some raw =>
        by_cases hk : raw.Key = "guestinfo.userdata"
        · simp [hr, hk]
        · simp [hr, hk]
    | none =>
      cases b.Sysprep with
      | some sp => rfl
      | none =>
        cases b.VAppConfig with
        | some vc => rfl
        | none => rfl
  · intro hci lp sp vc
    obtain ⟨ci, hci⟩ := Option.isSome_iff_exists.mp hci
    have h1 : ({ b with LinuxPrep := lp, Sysprep := sp, VAppConfig := vc } :
        vmopv1.VirtualMachineBootstrapSpec) ≠ {} := by
      intro h
      have h2 := congrArg vmopv1.VirtualMachineBootstrapSpec.CloudInit h
      simp [hci] at h2
    rw [bootstrap_down_transport a v _ ann h1,
      bootstrap_down_transport a v b ann (by intro h; simp [h] at hci)]
    simp [bootstrapTransport, hci]
  · intro hci hsp lp vc
    obtain ⟨sp, hsp⟩ := Option.isSome_iff_exists.mp hsp
    have h1 : ({ b with LinuxPrep := lp, VAppConfig := vc } :
        vmopv1.VirtualMachineBootstrapSpec) ≠ {} := by
      intro h
      have h2 := congrArg vmopv1.VirtualMachineBootstrapSpec.Sysprep h
      simp [hsp] at h2
    rw [bootstrap_down_transport a v _ ann h1,
      bootstrap_down_transport a v b ann (by intro h; simp [h] at hsp)]
    simp [bootstrapTransport, hci, hsp]

/-- Witness for C21: a spec with VAppConfig and LinuxPrep gets the OvfEnv transport. -/
theorem bootstrap_down_decision_tree_witness :
    ∃ md, convert_v1alpha4_BootstrapSpec_To_v1alpha1_VmMetadata v1alpha1.consts vmopv1.consts
        (some { LinuxPrep := some {}, VAppConfig := some { RawProperties := "props" } })
        (fun _ => none) = some md ∧ md.Transport = "OvfEnv" :=
  (bootstrap_down_decision_tree v1alpha1.consts vmopv1.consts
    { LinuxPrep := some {}, VAppConfig := some { RawProperties := "props" } }
    (fun _ => none)).2.2.1 (by decide)

/-- The metadata round trip on the inputs where it holds: a known transport, at most one of
the two names, a name when the transport is ExtraConfig, and an annotation map that carries
the marker when the ConfigMap name is set and does not carry it when the secret name is. -/
theorem metadata_down_up (a : v1alpha1.Consts) (v : vmopv1.Consts)
    (md : v1alpha1.VirtualMachineMetadata) (ann : Annotations)
    (hW : TransportsWellFormed a)
    (hT : md.Transport ∈
      [a.VirtualMachineMetadataExtraConfigTransport, a.VirtualMachineMetadataOvfEnvTransport,
        a.VirtualMachineMetadataVAppConfigTransport, a.VirtualMachineMetadataCloudInitTransport,
        a.VirtualMachineMetadataSysprepTransport])
    (hone : md.SecretName = "" ∨ md.ConfigMapName = "")
    (hex : md.Transport = a.VirtualMachineMetadataExtraConfigTransport →
      md.SecretName ≠ "" ∨ md.ConfigMapName ≠ "")
    (hc : md.ConfigMapName ≠ "" → (ann v.V1alpha1ConfigMapTransportAnnotation).isSome = true)
    (hs : md.SecretName ≠ "" → ann v.V1alpha1ConfigMapTransportAnnotation = none) :
    convert_v1alpha4_BootstrapSpec_To_v1alpha1_VmMetadata a v
      (convert_v1alpha1_VmMetadata_To_v1alpha4_BootstrapSpec a (some md)) ann = some md := by
  obtain ⟨cm, sn, tr⟩ := md
  unfold TransportsWellFormed at hW
  simp only [List.nodup_cons, List.mem_cons, List.mem_singleton, not_or, List.not_mem_nil,
    not_false_eq_true, List.nodup_nil, and_true] at hW
  obtain ⟨⟨e1, e2, e3, e4, e5⟩, ⟨o1, o2, o3, o4⟩, ⟨p1, p2, p3⟩, ⟨c1, c2⟩, s1⟩ := hW
  simp only [List.mem_cons, List.mem_singleton, List.not_mem_nil, or_false] at hT
  simp only at hone hex hc hs
  have hne : ∀ x : String, x ≠ "" →
      ({ ConfigMapName := cm, SecretName := sn, Transport := x } :
        v1alpha1.VirtualMachineMetadata) ≠ {} := by
    intro x hx h
    exact hx (congrArg v1alpha1.VirtualMachineMetadata.Transport h)
  rcases hone with hsn | hcm
  · subst hsn
    by_cases hcm : cm = ""
    · subst hcm
      rcases hT with rfl | rfl | rfl | rfl | rfl
      · exact False.elim (by simpa using hex rfl)
      · simp [convert_v1alpha1_VmMetadata_To_v1alpha4_BootstrapSpec,
          convert_v1alpha4_BootstrapSpec_To_v1alpha1_VmMetadata, bootstrapTransport, hne _ o4,
          Ne.symm e1]
      · simp [convert_v1alpha1_VmMetadata_To_v1alpha4_BootstrapSpec,
          convert_v1alpha4_BootstrapSpec_To_v1alpha1_VmMetadata, bootstrapTransport, hne _ p3,
          Ne.symm e2, Ne.symm o1]
      · simp [convert_v1alpha1_VmMetadata_To_v1alpha4_BootstrapSpec,
          convert_v1alpha4_BootstrapSpec_To_v1alpha1_VmMetadata, bootstrapTransport, hne _ c2,
          Ne.symm e3, Ne.symm o2, Ne.symm p1]
      · simp [convert_v1alpha1_VmMetadata_To_v1alpha4_BootstrapSpec,
          convert_v1alpha4_BootstrapSpec_To_v1alpha1_VmMetadata, bootstrapTransport, hne _ s1,
          Ne.symm e4, Ne.symm o3, Ne.symm p2, Ne.symm c1]
    · obtain ⟨val, hval⟩ := Option.isSome_iff_exists.mp (hc hcm)
      rcases hT with rfl | rfl | rfl | rfl | rfl
      · simp [convert_v1alpha1_VmMetadata_To_v1alpha4_BootstrapSpec,
          convert_v1alpha4_BootstrapSpec_To_v1alpha1_VmMetadata, bootstrapTransport, hne _ e5,
          hcm, hval]
      · simp [convert_v1alpha1_VmMetadata_To_v1alpha4_BootstrapSpec,
          convert_v1alpha4_BootstrapSpec_To_v1alpha1_VmMetadata, bootstrapTransport, hne _ o4,
          Ne.symm e1, hcm, hval]
      · simp [convert_v1alpha1_VmMetadata_To_v1alpha4_BootstrapSpec,
          convert_v1alpha4_BootstrapSpec_To_v1alpha1_VmMetadata, bootstrapTransport, hne _ p3,
          Ne.symm e2, Ne.symm o1, hcm, hval]
      · simp [convert_v1alpha1_VmMetadata_To_v1alpha4_BootstrapSpec,
          convert_v1alpha4_BootstrapSpec_To_v1alpha1_VmMetadata, bootstrapTransport, hne _ c2,
          Ne.symm e3, Ne.symm o2, Ne.symm p1, hcm, hval]
      · simp [convert_v1alpha1_VmMetadata_To_v1alpha4_BootstrapSpec,
          convert_v1alpha4_BootstrapSpec_To_v1alpha1_VmMetadata, bootstrapTransport, hne _ s1,
          Ne.symm e4, Ne.symm o3, Ne.symm p2, Ne.symm c1, hcm, hval]
  · subst hcm
    by_cases hsn : sn = ""
    · subst hsn
      rcases hT with rfl | rfl | rfl | rfl | rfl
      · exact False.elim (by simpa using hex rfl)
      · simp [convert_v1alpha1_VmMetadata_To_v1alpha4_BootstrapSpec,
          convert_v1alpha4_BootstrapSpec_To_v1alpha1_VmMetadata, bootstrapTransport, hne _ o4,
          Ne.symm e1]
      · simp [convert_v1alpha1_VmMetadata_To_v1alpha4_BootstrapSpec,
          convert_v1alpha4_BootstrapSpec_To_v1alpha1_VmMetadata, bootstrapTransport, hne _ p3,
          Ne.symm e2, Ne.symm o1]
      · simp [convert_v1alpha1_VmMetadata_To_v1alpha4_BootstrapSpec,
          convert_v1alpha4_BootstrapSpec_To_v1alpha1_VmMetadata, bootstrapTransport, hne _ c2,
          Ne.symm e3, Ne.symm o2, Ne.symm p1]
      · simp [convert_v1alpha1_VmMetadata_To_v1alpha4_BootstrapSpec,
          convert_v1alpha4_BootstrapSpec_To_v1alpha1_VmMetadata, bootstrapTransport, hne _ s1,
          Ne.symm e4, Ne.symm o3, Ne.symm p2, Ne.symm c1]
    · have hval := hs hsn
      rcases hT with rfl | rfl | rfl | rfl | rfl
      · simp [convert_v1alpha1_VmMetadata_To_v1alpha4_BootstrapSpec,
          convert_v1alpha4_BootstrapSpec_To_v1alpha1_VmMetadata, bootstrapTransport, hne _ e5,
          hsn, hval]
      · simp [convert_v1alpha1_VmMetadata_To_v1alpha4_BootstrapSpec,
          convert_v1alpha4_BootstrapSpec_To_v1alpha1_VmMetadata, bootstrapTransport, hne _ o4,
          Ne.symm e1, hsn, hval]
      · simp [convert_v1alpha1_VmMetadata_To_v1alpha4_BootstrapSpec,
          convert_v1alpha4_BootstrapSpec_To_v1alpha1_VmMetadata, bootstrapTransport, hne _ p3,
          Ne.symm e2, Ne.symm o1, hsn, hval]
      · simp [convert_v1alpha1_VmMetadata_To_v1alpha4_BootstrapSpec,
          convert_v1alpha4_BootstrapSpec_To_v1alpha1_VmMetadata, bootstrapTransport, hne _ c2,
          Ne.symm e3, Ne.symm o2, Ne.symm p1, hsn, hval]
      · simp [convert_v1alpha1_VmMetadata_To_v1alpha4_BootstrapSpec,
          convert_v1alpha4_BootstrapSpec_To_v1alpha1_VmMetadata, bootstrapTransport, hne _ s1,
          Ne.symm e4, Ne.symm o3, Ne.symm p2, Ne.symm c1, hsn, hval]

/-- Claim C22, counterexample: the metadata round trip loses fields. ExtraConfig without a
name comes back as CloudInit; a transport outside the five known ones comes back as nil, with
its secret name lost; and when both names are set, with the marker annotation that the
up-conversion writes for a ConfigMap name, the secret name comes back as the ConfigMap name. -/
theorem vmMetadata_round_trip_loses_fields :
    convert_v1alpha4_BootstrapSpec_To_v1alpha1_VmMetadata v1alpha1.consts vmopv1.consts
        (convert_v1alpha1_VmMetadata_To_v1alpha4_BootstrapSpec v1alpha1.consts
          (some { Transport := "ExtraConfig" }))
        (fun _ => none) = some { Transport := "CloudInit" } ∧
    convert_v1alpha4_BootstrapSpec_To_v1alpha1_VmMetadata v1alpha1.consts vmopv1.consts
        (convert_v1alpha1_VmMetadata_To_v1alpha4_BootstrapSpec v1alpha1.consts
          (some { Transport := "Other", SecretName := "s" }))
        (fun _ => none) = none ∧
    convert_v1alpha4_BootstrapSpec_To_v1alpha1_VmMetadata v1alpha1.consts vmopv1.consts
        (convert_v1alpha1_VmMetadata_To_v1alpha4_BootstrapSpec v1alpha1.consts
          (some { Transport := "CloudInit", SecretName := "s", ConfigMapName := "c" }))
        (Annotations.set (fun _ => none) "vmoperator.vmware.com/v1a1-configmap-md-transport"
          "true") = some { Transport := "CloudInit", ConfigMapName := "s" } := by
  refine ⟨by decide, by decide, by decide⟩

/-- Claim C22, amended: the metadata round trip returns the original metadata when its
transport is one of the five known ones, at most one of SecretName and ConfigMapName is set,
a name is set when the transport is ExtraConfig, and the annotations carry the marker when
the ConfigMap name is set and do not carry it when the secret name is set. -/
theorem vmMetadata_round_trip (a : v1alpha1.Consts) (v : vmopv1.Consts)
    (md : v1alpha1.VirtualMachineMetadata) (ann : Annotations)
    (hW : TransportsWellFormed a)
    (hT : md.Transport ∈
      [a.VirtualMachineMetadataExtraConfigTransport, a.VirtualMachineMetadataOvfEnvTransport,
        a.VirtualMachineMetadataVAppConfigTransport, a.VirtualMachineMetadataCloudInitTransport,
        a.VirtualMachineMetadataSysprepTransport])
    (hone : md.SecretName = "" ∨ md.ConfigMapName = "")
    (hex : md.Transport = a.VirtualMachineMetadataExtraConfigTransport →
      md.SecretName ≠ "" ∨ md.ConfigMapName ≠ "")
    (hc : md.ConfigMapName ≠ "" → (ann v.V1alpha1ConfigMapTransportAnnotation).isSome = true)
    (hs : md.SecretName ≠ "" → ann v.V1alpha1ConfigMapTransportAnnotation = none) :
    convert_v1alpha4_BootstrapSpec_To_v1alpha1_VmMetadata a v
      (convert_v1alpha1_VmMetadata_To_v1alpha4_BootstrapSpec a (some md)) ann = some md :=
  metadata_down_up a v md ann hW hT hone hex hc hs

/-- Witness for C22: an OvfEnv metadata object naming a ConfigMap, with the marker set. -/
theorem vmMetadata_round_trip_witness :
    convert_v1alpha4_BootstrapSpec_To_v1alpha1_VmMetadata v1alpha1.consts vmopv1.consts
      (convert_v1alpha1_VmMetadata_To_v1alpha4_BootstrapSpec v1alpha1.consts
        (some { Transport := "OvfEnv", ConfigMapName := "cm" }))
      (Annotations.set (fun _ => none) "vmoperator.vmware.com/v1a1-configmap-md-transport"
        "true") = some { Transport := "OvfEnv", ConfigMapName := "cm" } :=
  vmMetadata_round_trip v1alpha1.consts vmopv1.consts
    { Transport := "OvfEnv", ConfigMapName := "cm" }
    (Annotations.set (fun _ => none) "vmoperator.vmware.com/v1a1-configmap-md-transport" "true")
    (by unfold TransportsWellFormed; decide) (by decide) (by decide) (by decide) (by decide)
    (by decide)

/-- The up-conversion of the whole object leaves the marker annotation on the hub object when
the spoke metadata names a ConfigMap, provided the spoke pause key is not the marker key. -/
theorem up_sets_marker (a : v1alpha1.Consts) (v : vmopv1.Consts) (g : GeneratedVM)
    (s : v1alpha1.VirtualMachine) (out h : vmopv1.VirtualMachine)
    (md : v1alpha1.VirtualMachineMetadata)
    (hs : s.Spec.VmMetadata = some md) (hcm : md.ConfigMapName ≠ "")
    (hpause : a.PauseAnnotation ≠ v.V1alpha1ConfigMapTransportAnnotation)
    (hup : Convert_v1alpha1_VirtualMachine_To_v1alpha4_VirtualMachine a v g s out = .ok h) :
    (h.ObjectMeta.Annotations v.V1alpha1ConfigMapTransportAnnotation).isSome = true := by
  unfold Convert_v1alpha1_VirtualMachine_To_v1alpha4_VirtualMachine at hup
  cases hg : g.autoConvert_v1alpha1_VirtualMachine_To_v1alpha4_VirtualMachine s out with
  | error e => simp [hg] at hup
  | ok o =>
    simp only [hg, hs, hcm, ne_eq, not_false_eq_true, if_true, Except.ok.injEq] at hup
    subst hup
    have hp : ¬ v.V1alpha1ConfigMapTransportAnnotation = a.PauseAnnotation := fun e => hpause e.symm
    have key : ∀ (m : Annotations) (val : String),
        (m v.V1alpha1ConfigMapTransportAnnotation).isSome = true →
        (((m.set v.PauseAnnotation val).delete a.PauseAnnotation)
          v.V1alpha1ConfigMapTransportAnnotation).isSome = true := by
      intro m val hm
      simp only [Annotations.set, Annotations.delete, if_neg hp]
      split_ifs
      · rfl
      · exact hm
    have hset : ∀ m : Annotations, ((m.set v.V1alpha1ConfigMapTransportAnnotation "true")
        v.V1alpha1ConfigMapTransportAnnotation).isSome = true := by
      intro m
      simp [Annotations.set]
    cases hm : o.ObjectMeta.Annotations v.V1alpha1ConfigMapTransportAnnotation with
    | none =>
      cases hq : s.ObjectMeta.Annotations a.PauseAnnotation with
      | none =>
        split_ifs
        all_goals simp only [hm]
        all_goals exact hset _
      | some val =>
        split_ifs
        all_goals simp only [hm]
        all_goals exact key _ _ (hset _)
    | some x =>
      cases hq : s.ObjectMeta.Annotations a.PauseAnnotation with
      | none =>
        split_ifs
        all_goals simp [hm]
      | some val =>
        split_ifs
        all_goals simp only [hm]
        all_goals exact key _ _ (by simp [hm])

/-- The up-conversion of the whole object keeps the bootstrap spec that the generated
conversion produced. -/
theorem up_keeps_bootstrap (a : v1alpha1.Consts) (v : vmopv1.Consts) (g : GeneratedVM)
    (s : v1alpha1.VirtualMachine) (out h : vmopv1.VirtualMachine)
    (hup : Convert_v1alpha1_VirtualMachine_To_v1alpha4_VirtualMachine a v g s out = .ok h) :
    ∃ o, g.autoConvert_v1alpha1_VirtualMachine_To_v1alpha4_VirtualMachine s out = .ok o ∧
      h.Spec.Bootstrap = o.Spec.Bootstrap := by
  unfold Convert_v1alpha1_VirtualMachine_To_v1alpha4_VirtualMachine at hup
  cases hg : g.autoConvert_v1alpha1_VirtualMachine_To_v1alpha4_VirtualMachine s out with
  | error e => simp [hg] at hup
  | ok o =>
    refine ⟨o, rfl, ?_⟩
    simp only [hg, Except.ok.injEq] at hup
    subst hup
    cases s.Spec.VmMetadata <;> cases s.ObjectMeta.Annotations a.PauseAnnotation <;>
      repeat' (first | rfl | split)

/-- The down-conversion of the whole object succeeds when the generated conversion does, and
its metadata is the down-conversion of the hub bootstrap under the hub annotations. -/
theorem down_metadata (a : v1alpha1.Consts) (v : vmopv1.Consts) (g : GeneratedVM)
    (h : vmopv1.VirtualMachine) (out o : v1alpha1.VirtualMachine)
    (hg : g.autoConvert_v1alpha4_VirtualMachine_To_v1alpha1_VirtualMachine h out = .ok o) :
    ∃ d, Convert_v1alpha4_VirtualMachine_To_v1alpha1_VirtualMachine a v g h out = .ok d ∧
      d.Spec.VmMetadata =
        convert_v1alpha4_BootstrapSpec_To_v1alpha1_VmMetadata a v h.Spec.Bootstrap
          h.ObjectMeta.Annotations := by
  unfold Convert_v1alpha4_VirtualMachine_To_v1alpha1_VirtualMachine
  simp only [hg]
  cases h.ObjectMeta.Annotations v.PauseAnnotation with
  | none => exact ⟨_, rfl, rfl⟩
  | some val => exact ⟨_, rfl, rfl⟩

/-- The up-conversion of the metadata reads the ConfigMap name and the secret name through the
same object name, so moving the only name from one field to the other gives the same
bootstrap spec. -/
theorem metadata_up_name_field (a : v1alpha1.Consts) (md : v1alpha1.VirtualMachineMetadata)
    (hsec : md.SecretName = "") (hcm : md.ConfigMapName ≠ "") :
    convert_v1alpha1_VmMetadata_To_v1alpha4_BootstrapSpec a (some md) =
      convert_v1alpha1_VmMetadata_To_v1alpha4_BootstrapSpec a
        (some { Transport := md.Transport, SecretName := md.ConfigMapName }) := by
  obtain ⟨cm, sn, tr⟩ := md
  simp only at hsec hcm
  subst hsec
  have h1 : ({ ConfigMapName := cm, SecretName := "", Transport := tr } :
      v1alpha1.VirtualMachineMetadata) ≠ {} := by
    intro h
    exact hcm (congrArg v1alpha1.VirtualMachineMetadata.ConfigMapName h)
  have h2 : ({ Transport := tr, SecretName := cm } : v1alpha1.VirtualMachineMetadata) ≠ {} := by
    intro h
    exact hcm (congrArg v1alpha1.VirtualMachineMetadata.SecretName h)
  simp [convert_v1alpha1_VmMetadata_To_v1alpha4_BootstrapSpec, h1, h2, hcm]

/-- Claim C23: for a v1alpha1 VirtualMachine whose metadata has one of the five known
transports, an empty SecretName and a non-empty ConfigMapName c, the hub object produced by
the up-conversion carries the marker annotation, the following down-conversion succeeds with
ConfigMapName = c and an empty SecretName, and under annotations without the marker the same
hub bootstrap gives SecretName = c and an empty ConfigMapName. -/
theorem configmap_marker_routes_name (a : v1alpha1.Consts) (v : vmopv1.Consts)
    (g : GeneratedVM) (s : v1alpha1.VirtualMachine) (out h : vmopv1.VirtualMachine)
    (md : v1alpha1.VirtualMachineMetadata) (out1 o1 : v1alpha1.VirtualMachine)
    (hW : TransportsWellFormed a)
    (hpause : a.PauseAnnotation ≠ v.V1alpha1ConfigMapTransportAnnotation)
    (hs : s.Spec.VmMetadata = some md)
    (hT : md.Transport ∈
      [a.VirtualMachineMetadataExtraConfigTransport, a.VirtualMachineMetadataOvfEnvTransport,
        a.VirtualMachineMetadataVAppConfigTransport, a.VirtualMachineMetadataCloudInitTransport,
        a.VirtualMachineMetadataSysprepTransport])
    (hsec : md.SecretName = "") (hcm : md.ConfigMapName ≠ "")
    (hup : Convert_v1alpha1_VirtualMachine_To_v1alpha4_VirtualMachine a v g s out = .ok h)
    (hboot : h.Spec.Bootstrap =
      convert_v1alpha1_VmMetadata_To_v1alpha4_BootstrapSpec a s.Spec.VmMetadata)
    (hdown : g.autoConvert_v1alpha4_VirtualMachine_To_v1alpha1_VirtualMachine h out1 = .ok o1) :
    (h.ObjectMeta.Annotations v.V1alpha1ConfigMapTransportAnnotation).isSome = true ∧
    (∃ d, Convert_v1alpha4_VirtualMachine_To_v1alpha1_VirtualMachine a v g h out1 = .ok d ∧
      d.Spec.VmMetadata =
        some { Transport := md.Transport, ConfigMapName := md.ConfigMapName, SecretName := "" }) ∧
    (∀ ann : Annotations, ann v.V1alpha1ConfigMapTransportAnnotation = none →
      convert_v1alpha4_BootstrapSpec_To_v1alpha1_VmMetadata a v h.Spec.Bootstrap ann =
        some { Transport := md.Transport, SecretName := md.ConfigMapName, ConfigMapName := "" }) := by
  have hmark := up_sets_marker a v g s out h md hs hcm hpause hup
  refine ⟨hmark, ?_, ?_⟩
  · obtain ⟨d, hd, hmd⟩ := down_metadata a v g h out1 o1 hdown
    refine ⟨d, hd, ?_⟩
    rw [hmd, hboot, hs]
    have key := metadata_down_up a v md h.ObjectMeta.Annotations hW hT (Or.inl hsec)
      (fun _ => Or.inr hcm) (fun _ => hmark) (fun hne => absurd hsec hne)
    rw [key]
    obtain ⟨cm, sn, tr⟩ := md
    simp only at hsec
    subst hsec
    rfl
  · intro ann hann
    rw [hboot, hs, metadata_up_name_field a md hsec hcm]
    exact metadata_down_up a v { Transport := md.Transport, SecretName := md.ConfigMapName } ann
      hW hT (Or.inr rfl) (fun _ => Or.inl hcm) (fun hne => absurd rfl hne) (fun _ => hann)

/-- Witness for C23: a fresh v1alpha1 VirtualMachine with the CloudInit transport and the
ConfigMap name "cm". -/
theorem configmap_marker_routes_name_witness :
    ((Annotations.set (fun _ => none) "vmoperator.vmware.com/v1a1-configmap-md-transport" "true")
      vmopv1.consts.V1alpha1ConfigMapTransportAnnotation).isSome = true ∧
    (∃ d, Convert_v1alpha4_VirtualMachine_To_v1alpha1_VirtualMachine v1alpha1.consts
        vmopv1.consts (GeneratedVM.delegating v1alpha1.consts)
        { ObjectMeta :=
            { Annotations :=
                Annotations.set (fun _ => none)
                  "vmoperator.vmware.com/v1a1-configmap-md-transport" "true" },
          Spec :=
            { Bootstrap := some
                { CloudInit := some
                    { RawCloudConfig := some { Name := "cm", Key := "user-data" } } } } }
        {} = .ok d ∧
      d.Spec.VmMetadata =
        some { Transport := "CloudInit", ConfigMapName := "cm", SecretName := "" }) ∧
    (∀ ann : Annotations, ann vmopv1.consts.V1alpha1ConfigMapTransportAnnotation = none →
      convert_v1alpha4_BootstrapSpec_To_v1alpha1_VmMetadata v1alpha1.consts vmopv1.consts
        (some
          { CloudInit := some { RawCloudConfig := some { Name := "cm", Key := "user-data" } } })
        ann = some { Transport := "CloudInit", SecretName := "cm", ConfigMapName := "" }) :=
  configmap_marker_routes_name v1alpha1.consts vmopv1.consts
    (GeneratedVM.delegating v1alpha1.consts)
    { Spec := { VmMetadata := some { Transport := "CloudInit", ConfigMapName := "cm" } } } {}
    { ObjectMeta :=
        { Annotations :=
            Annotations.set (fun _ => none)
              "vmoperator.vmware.com/v1a1-configmap-md-transport" "true" },
      Spec :=
        { Bootstrap := some
            { CloudInit := some
                { RawCloudConfig := some { Name := "cm", Key := "user-data" } } } } }
    { Transport := "CloudInit", ConfigMapName := "cm" } {} _
    (by unfold TransportsWellFormed; decide) (by decide) rfl (by decide) rfl (by decide)
    rfl rfl rfl

/-! ## Theorems: annotation maps held by reference -/

/-- The table behind an address other than the one a `delete` acts on is left as it is. -/
theorem MapHeap.content_delete_ne (hp : MapHeap) (r r2 : MapRef) (k : String)
    (h : ∀ p, r2 = some p → r ≠ some p) :
    (hp.delete r k).content r2 = hp.content r2 := by
  cases r with
  | none => rfl
  | some q =>
    cases r2 with
    | none => rfl
    | some p =>
      have hpq : p ≠ q := fun e => h p rfl (by rw [e])
      simp [MapHeap.delete, MapHeap.content, hpq]

/-- The table behind an address other than the one an assignment acts on is left as it is. -/
theorem MapHeap.content_assign_ne (hp : MapHeap) (q : Nat) (r2 : MapRef) (k val : String)
    (h : ∀ p, r2 = some p → p ≠ q) :
    (hp.assign q k val).content r2 = hp.content r2 := by
  cases r2 with
  | none => rfl
  | some p => simp [MapHeap.assign, MapHeap.content, h p rfl]

/-- The reference that `orMake` returns for the map of the output is not the reference of
another map that was allocated before, and the table of that map is left as it is. -/
theorem MapHeap.orMake_ne (hp : MapHeap) (r r2 : MapRef)
    (h : ∀ p, r2 = some p → r ≠ some p ∧ p < hp.next) :
    (∀ p, r2 = some p → p ≠ (hp.orMake r).1) ∧
      (hp.orMake r).2.content r2 = hp.content r2 := by
  cases r with
  | some q =>
    refine ⟨fun p hp2 e => (h p hp2).1 (by rw [e]; rfl), rfl⟩
  | none =>
    cases r2 with
    | none => exact ⟨fun p hp2 => by simp at hp2, rfl⟩
    | some p =>
      have hlt := (h p rfl).2
      have hne : p ≠ hp.next := by omega
      refine ⟨fun p2 hp2 => ?_, ?_⟩
      · simp only [Option.some.injEq] at hp2
        subst hp2
        exact hne
      · simp [MapHeap.orMake, MapHeap.make, MapHeap.content, hne]

/-- The marker block leaves the table of a map that the output does not hold as it is, and
the output still does not hold that map afterwards. -/
theorem markConfigMapTransport_frame (v : vmopv1.Consts) (hp : MapHeap)
    (md : Option v1alpha1.VirtualMachineMetadata) (out : vmopv1.VirtualMachineRef)
    (r2 : MapRef) (h : ∀ p, r2 = some p → out.Annotations ≠ some p ∧ p < hp.next) :
    (markConfigMapTransport v hp md out).1.content r2 = hp.content r2 ∧
      ∀ p, r2 = some p →
        (markConfigMapTransport v hp md out).2.Annotations ≠ some p ∧
          p < (markConfigMapTransport v hp md out).1.next := by
  unfold markConfigMapTransport
  have h2 := MapHeap.orMake_ne hp out.Annotations r2 h
  have hnext : hp.next ≤ (hp.orMake out.Annotations).2.next := by
    cases out.Annotations with
    | none => simp [MapHeap.orMake, MapHeap.make]
    | some q => exact Nat.le_refl _
  split
  · split_ifs
    · split
      · exact ⟨rfl, h⟩
      · refine ⟨?_, fun p hp2 => ⟨?_, ?_⟩⟩
        · simp only
          rw [MapHeap.content_assign_ne _ _ _ _ _ h2.1, h2.2]
        · intro e
          simp only [Option.some.injEq] at e
          exact h2.1 p hp2 e.symm
        · have := (h p hp2).2
          simp only [MapHeap.assign]
          omega
    · exact ⟨rfl, h⟩
  · exact ⟨rfl, h⟩

/-- When the output holds the map at address `p`, the marker block leaves it holding that map
and sets the marker in it unless the metadata has no ConfigMap name or the marker is there. -/
theorem markConfigMapTransport_shared (v : vmopv1.Consts) (hp : MapHeap)
    (md : Option v1alpha1.VirtualMachineMetadata) (out : vmopv1.VirtualMachineRef) (p : Nat)
    (h : out.Annotations = some p) :
    (markConfigMapTransport v hp md out).2.Annotations = some p ∧
      (markConfigMapTransport v hp md out).1.table p =
        if (md.any fun md => decide (md.ConfigMapName ≠ "")) = true ∧
            hp.table p v.V1alpha1ConfigMapTransportAnnotation = none then
          (hp.table p).set v.V1alpha1ConfigMapTransportAnnotation "true"
        else hp.table p := by
  unfold markConfigMapTransport
  cases md with
  | none => simp [h]
  | some m =>
    by_cases hc : m.ConfigMapName = ""
    · simp [h, hc]
    · cases hl : hp.table p v.V1alpha1ConfigMapTransportAnnotation with
      | none => simp [h, hc, hl, MapHeap.content, MapHeap.orMake, MapHeap.assign]
      | some x => simp [h, hc, hl, MapHeap.content]

/-- Counterexample to C27 as stated, with a structural copy that hands the output the
annotation map of the source: the source hub object holds the map at address 0, which carries
the marker annotation; the down-conversion succeeds, leaves the source holding the same map,
and the marker is gone from it. -/
theorem down_conversion_mutates_source_map :
    (MapHeap.single
      (Annotations.set (fun _ => none) "vmoperator.vmware.com/v1a1-configmap-md-transport"
        "true")).content (some 0) "vmoperator.vmware.com/v1a1-configmap-md-transport" =
      some "true" ∧
    (Convert_v1alpha4_VirtualMachine_To_v1alpha1_VirtualMachine.byRef v1alpha1.consts
      vmopv1.consts GeneratedVMRef.copying
      (MapHeap.single
        (Annotations.set (fun _ => none) "vmoperator.vmware.com/v1a1-configmap-md-transport"
          "true"))
      { Annotations := some 0 } {}).err = none ∧
    (Convert_v1alpha4_VirtualMachine_To_v1alpha1_VirtualMachine.byRef v1alpha1.consts
      vmopv1.consts GeneratedVMRef.copying
      (MapHeap.single
        (Annotations.set (fun _ => none) "vmoperator.vmware.com/v1a1-configmap-md-transport"
          "true"))
      { Annotations := some 0 } {}).src.Annotations = some 0 ∧
    (Convert_v1alpha4_VirtualMachine_To_v1alpha1_VirtualMachine.byRef v1alpha1.consts
      vmopv1.consts GeneratedVMRef.copying
      (MapHeap.single
        (Annotations.set (fun _ => none) "vmoperator.vmware.com/v1a1-configmap-md-transport"
          "true"))
      { Annotations := some 0 } {}).heap.content (some 0)
        "vmoperator.vmware.com/v1a1-configmap-md-transport" = none := by
  refine ⟨by decide, by decide, by decide, by decide⟩

/-- Claim C27, amended: the hand-written part of either conversion leaves the source object as
the generated conversion left it and returns its error; it leaves the annotation map of the
source as it was whenever the output holds another map (or none); and when the generated
conversion left the output holding the map of the source, the output still holds it after the
call and the deletion of the marker and the renaming of the pause annotation (down), the
setting of the marker and the renaming of the pause annotation (up), are made in that map. -/
theorem conversion_writes_through_output_map (a : v1alpha1.Consts) (v : vmopv1.Consts)
    (g : GeneratedVMRef) (hp : MapHeap)
    (h : vmopv1.VirtualMachineRef) (out : v1alpha1.VirtualMachineRef)
    (s : v1alpha1.VirtualMachineRef) (out2 : vmopv1.VirtualMachineRef)
    (down : ByRef vmopv1.VirtualMachineRef v1alpha1.VirtualMachineRef)
    (up : ByRef v1alpha1.VirtualMachineRef vmopv1.VirtualMachineRef)
    (hdown : g.autoConvert_v1alpha4_VirtualMachine_To_v1alpha1_VirtualMachine hp h out = down)
    (hup : g.autoConvert_v1alpha1_VirtualMachine_To_v1alpha4_VirtualMachine hp s out2 = up) :
    ((Convert_v1alpha4_VirtualMachine_To_v1alpha1_VirtualMachine.byRef a v g hp h out).src =
        down.src ∧
      (Convert_v1alpha4_VirtualMachine_To_v1alpha1_VirtualMachine.byRef a v g hp h out).err =
        down.err ∧
      ((∀ p, down.src.Annotations = some p →
          down.dst.Annotations ≠ some p ∧ p < down.heap.next) →
        (Convert_v1alpha4_VirtualMachine_To_v1alpha1_VirtualMachine.byRef a v g hp h
          out).heap.content down.src.Annotations = down.heap.content down.src.Annotations) ∧
      ∀ p, down.err = none → down.src.Annotations = some p → down.dst.Annotations = some p →
        (Convert_v1alpha4_VirtualMachine_To_v1alpha1_VirtualMachine.byRef a v g hp h
          out).dst.Annotations = some p ∧
        (Convert_v1alpha4_VirtualMachine_To_v1alpha1_VirtualMachine.byRef a v g hp h
          out).heap.content (some p) =
          match ((down.heap.table p).delete v.V1alpha1ConfigMapTransportAnnotation)
            v.PauseAnnotation with
          | some val =>
            (((down.heap.table p).delete v.V1alpha1ConfigMapTransportAnnotation).set
              a.PauseAnnotation val).delete v.PauseAnnotation
          | none => (down.heap.table p).delete v.V1alpha1ConfigMapTransportAnnotation) ∧
    ((Convert_v1alpha1_VirtualMachine_To_v1alpha4_VirtualMachine.byRef a v g hp s out2).src =
        up.src ∧
      (Convert_v1alpha1_VirtualMachine_To_v1alpha4_VirtualMachine.byRef a v g hp s out2).err =
        up.err ∧
      ((∀ p, up.src.Annotations = some p →
          up.dst.Annotations ≠ some p ∧ p < up.heap.next) →
        (Convert_v1alpha1_VirtualMachine_To_v1alpha4_VirtualMachine.byRef a v g hp s
          out2).heap.content up.src.Annotations = up.heap.content up.src.Annotations) ∧
      ∀ p, up.err = none → up.src.Annotations = some p → up.dst.Annotations = some p →
        (Convert_v1alpha1_VirtualMachine_To_v1alpha4_VirtualMachine.byRef a v g hp s
          out2).dst.Annotations = some p ∧
        (Convert_v1alpha1_VirtualMachine_To_v1alpha4_VirtualMachine.byRef a v g hp s
          out2).heap.content (some p) =
          match
            (if (up.src.Spec.VmMetadata.any fun md => decide (md.ConfigMapName ≠ "")) = true ∧
                up.heap.table p v.V1alpha1ConfigMapTransportAnnotation = none then
              (up.heap.table p).set v.V1alpha1ConfigMapTransportAnnotation "true"
            else up.heap.table p) a.PauseAnnotation with
          | some val =>
            ((if (up.src.Spec.VmMetadata.any fun md => decide (md.ConfigMapName ≠ "")) = true ∧
                up.heap.table p v.V1alpha1ConfigMapTransportAnnotation = none then
              (up.heap.table p).set v.V1alpha1ConfigMapTransportAnnotation "true"
            else up.heap.table p).set v.PauseAnnotation val).delete a.PauseAnnotation
          | none =>
            if (up.src.Spec.VmMetadata.any fun md => decide (md.ConfigMapName ≠ "")) = true ∧
                up.heap.table p v.V1alpha1ConfigMapTransportAnnotation = none then
              (up.heap.table p).set v.V1alpha1ConfigMapTransportAnnotation "true"
            else up.heap.table p) := by
  subst hdown hup
  constructor
  · unfold Convert_v1alpha4_VirtualMachine_To_v1alpha1_VirtualMachine.byRef
    generalize g.autoConvert_v1alpha4_VirtualMachine_To_v1alpha1_VirtualMachine hp h out = st
    obtain ⟨heap, src, dst, err⟩ := st
    cases err with
    | some e => exact ⟨rfl, rfl, fun _ => rfl, fun p he => by simp at he⟩
    | none =>
      simp only
      refine ⟨?_, ?_, ?_, ?_⟩
      · split <;> rfl
      · split <;> rfl
      · intro hne
        have h1 := MapHeap.content_delete_ne heap dst.Annotations src.Annotations
          v.V1alpha1ConfigMapTransportAnnotation (fun p hp2 => (hne p hp2).1)
        split
        · have h2 := MapHeap.orMake_ne
            (heap.delete dst.Annotations v.V1alpha1ConfigMapTransportAnnotation)
            dst.Annotations src.Annotations (fun p hp2 => by
              refine ⟨(hne p hp2).1, ?_⟩
              have := (hne p hp2).2
              cases hd : dst.Annotations <;> simpa [MapHeap.delete, hd] using this)
          simp only
          rw [MapHeap.content_delete_ne _ _ _ _ (fun p hp2 e => h2.1 p hp2 (by
              simp only [Option.some.injEq] at e; exact e.symm)),
            MapHeap.content_assign_ne _ _ _ _ _ h2.1, h2.2, h1]
        · exact h1
      · intro p _ hs hd
        simp only [hs, hd, MapHeap.delete, MapHeap.content, MapHeap.orMake, MapHeap.assign,
          if_true]
        split <;> simp_all
  · unfold Convert_v1alpha1_VirtualMachine_To_v1alpha4_VirtualMachine.byRef
    generalize g.autoConvert_v1alpha1_VirtualMachine_To_v1alpha4_VirtualMachine hp s out2 = st
    obtain ⟨heap, src, dst, err⟩ := st
    cases err with
    | some e => exact ⟨rfl, rfl, fun _ => rfl, fun p he => by simp at he⟩
    | none =>
      simp only
      have himg : (if src.Generation > 0 then
            if src.Spec.ImageName ≠ "" then
              { dst with Spec.Image := some { Name := src.Spec.ImageName } }
            else dst
          else dst).Annotations = dst.Annotations := by
        split_ifs <;> rfl
      generalize (if src.Generation > 0 then
            if src.Spec.ImageName ≠ "" then
              { dst with Spec.Image := some { Name := src.Spec.ImageName } }
            else dst
          else dst) = imaged at himg ⊢
      refine ⟨?_, ?_, ?_, ?_⟩
      · split <;> rfl
      · split <;> rfl
      · intro hne
        have hm := markConfigMapTransport_frame v heap src.Spec.VmMetadata imaged
          src.Annotations (by rw [himg]; exact hne)
        generalize markConfigMapTransport v heap src.Spec.VmMetadata imaged = marked at hm ⊢
        split
        · have h2 := MapHeap.orMake_ne marked.1 marked.2.Annotations src.Annotations hm.2
          simp only
          rw [MapHeap.content_delete_ne _ _ _ _ (fun p hp2 e => h2.1 p hp2 (by
              simp only [Option.some.injEq] at e; exact e.symm)),
            MapHeap.content_assign_ne _ _ _ _ _ h2.1, h2.2, hm.1]
        · exact hm.1
      · intro p _ hs hd
        have hm := markConfigMapTransport_shared v heap src.Spec.VmMetadata imaged p
          (by rw [himg]; exact hd)
        generalize markConfigMapTransport v heap src.Spec.VmMetadata imaged = marked at hm ⊢
        obtain ⟨mh, mo⟩ := marked
        simp only at hm
        simp only [hs, hm.1, MapHeap.content, hm.2, MapHeap.orMake, MapHeap.assign,
          MapHeap.delete, if_true]
        split <;> simp_all
/-- Witness for C27. With a generated conversion that copies the entries to a table of its
own, the down-conversion of a hub object that carries the marker leaves the source's table as
it was; with the structural copy that hands over the reference, the up-conversion of a spoke
object with a ConfigMap name leaves the output holding the map of the source. -/
theorem conversion_writes_through_output_map_witness :
    (Convert_v1alpha4_VirtualMachine_To_v1alpha1_VirtualMachine.byRef v1alpha1.consts
        vmopv1.consts GeneratedVMRef.cloning
        (MapHeap.single
          (Annotations.set (fun _ => none)
            "vmoperator.vmware.com/v1a1-configmap-md-transport" "true"))
        { Annotations := some 0 } {}).heap.content (some 0) =
      (MapHeap.single
        (Annotations.set (fun _ => none)
          "vmoperator.vmware.com/v1a1-configmap-md-transport" "true")).content (some 0) ∧
    (Convert_v1alpha1_VirtualMachine_To_v1alpha4_VirtualMachine.byRef v1alpha1.consts
        vmopv1.consts GeneratedVMRef.copying (MapHeap.single fun _ => none)
        { Annotations := some 0,
          Spec := { VmMetadata := some { Transport := "CloudInit", ConfigMapName := "cm" } } }
        {}).dst.Annotations = some 0 :=
  ⟨(conversion_writes_through_output_map v1alpha1.consts vmopv1.consts GeneratedVMRef.cloning
      (MapHeap.single
        (Annotations.set (fun _ => none)
          "vmoperator.vmware.com/v1a1-configmap-md-transport" "true"))
      { Annotations := some 0 } {} {} {} _ _ rfl rfl).1.2.2.1
      (fun p hp => Option.some.inj hp ▸ ⟨by decide, by decide⟩),
    ((conversion_writes_through_output_map v1alpha1.consts vmopv1.consts GeneratedVMRef.copying
      (MapHeap.single fun _ => none) {} {}
      { Annotations := some 0,
        Spec := { VmMetadata := some { Transport := "CloudInit", ConfigMapName := "cm" } } }
      {} _ _ rfl rfl).2.2.2.2 0 rfl rfl rfl).1⟩

/-- With the structural copy that hands over the map reference, the object that the
down-conversion on Go objects leaves behind `out` is, read as a value, the result of the
down-conversion on values, when the hub pause key is not the marker key. -/
theorem down_byRef_value (a : v1alpha1.Consts) (v : vmopv1.Consts) (hp : MapHeap)
    (h : vmopv1.VirtualMachineRef) (out : v1alpha1.VirtualMachineRef)
    (hkeys : v.PauseAnnotation ≠ v.V1alpha1ConfigMapTransportAnnotation) :
    Convert_v1alpha4_VirtualMachine_To_v1alpha1_VirtualMachine a v GeneratedVM.copying
        (h.value hp) (out.value hp) =
      .ok
        ((Convert_v1alpha4_VirtualMachine_To_v1alpha1_VirtualMachine.byRef a v
            GeneratedVMRef.copying hp h out).dst.value
          (Convert_v1alpha4_VirtualMachine_To_v1alpha1_VirtualMachine.byRef a v
            GeneratedVMRef.copying hp h out).heap) := by
  obtain ⟨hg, ha, hs, hst⟩ := h
  have hempty : ∀ k, Annotations.delete (fun _ => none) k = fun _ => none := by
    intro k
    funext y
    simp [Annotations.delete]
  cases ha with
  | none =>
    simp only [Convert_v1alpha4_VirtualMachine_To_v1alpha1_VirtualMachine,
      Convert_v1alpha4_VirtualMachine_To_v1alpha1_VirtualMachine.byRef, GeneratedVM.copying,
      GeneratedVMRef.copying, vmopv1.VirtualMachineRef.value, v1alpha1.VirtualMachineRef.value,
      MapHeap.content, MapHeap.delete, hempty]
  | some p =>
    cases hl : hp.table p v.PauseAnnotation with
    | none =>
      simp [Convert_v1alpha4_VirtualMachine_To_v1alpha1_VirtualMachine,
        Convert_v1alpha4_VirtualMachine_To_v1alpha1_VirtualMachine.byRef, GeneratedVM.copying,
        GeneratedVMRef.copying, vmopv1.VirtualMachineRef.value,
        v1alpha1.VirtualMachineRef.value, MapHeap.content, MapHeap.delete, Annotations.delete,
        hkeys, hl]
    | some val =>
      simp [Convert_v1alpha4_VirtualMachine_To_v1alpha1_VirtualMachine,
        Convert_v1alpha4_VirtualMachine_To_v1alpha1_VirtualMachine.byRef, GeneratedVM.copying,
        GeneratedVMRef.copying, vmopv1.VirtualMachineRef.value,
        v1alpha1.VirtualMachineRef.value, MapHeap.content, MapHeap.delete, Annotations.delete,
        hkeys, hl, MapHeap.orMake, MapHeap.assign, Annotations.set]

set_option maxHeartbeats 1600000 in
/-- With the structural copy that hands over the map reference, the object that the
up-conversion on Go objects leaves behind `out` is, read as a value, the result of the
up-conversion on values, when the `v1alpha1` pause key is not the marker key. -/
theorem up_byRef_value (a : v1alpha1.Consts) (v : vmopv1.Consts) (hp : MapHeap)
    (s : v1alpha1.VirtualMachineRef) (out : vmopv1.VirtualMachineRef)
    (hkeys : a.PauseAnnotation ≠ v.V1alpha1ConfigMapTransportAnnotation) :
    Convert_v1alpha1_VirtualMachine_To_v1alpha4_VirtualMachine a v GeneratedVM.copying
        (s.value hp) (out.value hp) =
      .ok
        ((Convert_v1alpha1_VirtualMachine_To_v1alpha4_VirtualMachine.byRef a v
            GeneratedVMRef.copying hp s out).dst.value
          (Convert_v1alpha1_VirtualMachine_To_v1alpha4_VirtualMachine.byRef a v
            GeneratedVMRef.copying hp s out).heap) := by
  obtain ⟨sg, sa, ss, sst⟩ := s
  have hkeys2 : ¬ v.V1alpha1ConfigMapTransportAnnotation = a.PauseAnnotation :=
    fun e => hkeys e.symm
  cases sa with
  | none =>
    cases hmd : ss.VmMetadata with
    | none =>
      by_cases hgen : sg > 0 <;> by_cases him : ss.ImageName = "" <;>
        simp [Convert_v1alpha1_VirtualMachine_To_v1alpha4_VirtualMachine,
          Convert_v1alpha1_VirtualMachine_To_v1alpha4_VirtualMachine.byRef, GeneratedVM.copying,
          GeneratedVMRef.copying, vmopv1.VirtualMachineRef.value,
          v1alpha1.VirtualMachineRef.value, MapHeap.content, markConfigMapTransport, hmd, hgen,
          him]
    | some md =>
      by_cases hc : md.ConfigMapName = "" <;> by_cases hgen : sg > 0 <;>
        by_cases him : ss.ImageName = "" <;>
        simp [Convert_v1alpha1_VirtualMachine_To_v1alpha4_VirtualMachine,
          Convert_v1alpha1_VirtualMachine_To_v1alpha4_VirtualMachine.byRef, GeneratedVM.copying,
          GeneratedVMRef.copying, vmopv1.VirtualMachineRef.value,
          v1alpha1.VirtualMachineRef.value, MapHeap.content, markConfigMapTransport, hmd, hc,
          hgen, him, MapHeap.orMake, MapHeap.make, MapHeap.assign, Annotations.set]
  | some p =>
    have hmd : ss.VmMetadata = none ∨
        (∃ md, ss.VmMetadata = some md ∧ md.ConfigMapName = "") ∨
        (∃ md, ss.VmMetadata = some md ∧ md.ConfigMapName ≠ "") := by
      cases ss.VmMetadata with
      | none => exact Or.inl rfl
      | some md =>
        by_cases hc : md.ConfigMapName = ""
        · exact Or.inr (Or.inl ⟨md, rfl, hc⟩)
        · exact Or.inr (Or.inr ⟨md, rfl, hc⟩)
    simp only [Convert_v1alpha1_VirtualMachine_To_v1alpha4_VirtualMachine,
      Convert_v1alpha1_VirtualMachine_To_v1alpha4_VirtualMachine.byRef, GeneratedVM.copying,
      GeneratedVMRef.copying, vmopv1.VirtualMachineRef.value, v1alpha1.VirtualMachineRef.value,
      MapHeap.content, markConfigMapTransport]
    by_cases hgen : sg > 0 <;> by_cases him : ss.ImageName = "" <;>
      simp only [hgen, him, if_true, if_false, ne_eq, not_true_eq_false, not_false_eq_true] <;>
      rcases hmd with hmd | ⟨md, hmd, hc⟩ | ⟨md, hmd, hc⟩ <;>
      (first
        | simp only [hmd, hc, if_true, if_false, ne_eq, not_true_eq_false,
            not_false_eq_true, MapHeap.content]
        | simp only [hmd, MapHeap.content]) <;>
      cases hl1 : hp.table p v.V1alpha1ConfigMapTransportAnnotation <;>
      cases hl2 : hp.table p a.PauseAnnotation <;>
      simp [hl1, hl2, hkeys, hkeys2, MapHeap.content, MapHeap.orMake, MapHeap.assign,
        MapHeap.delete, Annotations.set, Annotations.delete]
/-! ## Theorems: the VirtualMachineClass round trip -/

/-- Deleting a key that was just set on a map without that key gives the map back. -/
theorem Annotations.delete_set (m : Annotations) (k val : String) (hk : m k = none) :
    (m.set k val).delete k = m := by
  funext y
  by_cases hy : y = k
  · simp [Annotations.set, Annotations.delete, hy, hk]
  · simp [Annotations.set, Annotations.delete, hy]

/-- Counterexample to C28 as stated. A hub class with 4 reserved slots that itself carries an
annotation under the reserved snapshot key comes back without that annotation when the store
deletes the snapshot it consumes, and with the snapshot in its place when it does not; and
with a store that does not delete, a hub class with 4 reserved slots and no annotation comes
back with the snapshot left on it. Each round trip succeeds. -/
theorem class_round_trip_reserved_key :
    ((hubSpokeHub (SideChannelStore.unary true)
        { ObjectMeta :=
            { Annotations :=
                Annotations.set (fun _ => none) "vmoperator.vmware.com/conversion-data" "x" },
          Spec := { ReservedSlots := 4 } }).toOption.map
      fun after => after.ObjectMeta.Annotations "vmoperator.vmware.com/conversion-data") =
      some none ∧
    ((hubSpokeHub (SideChannelStore.unary false)
        { ObjectMeta :=
            { Annotations :=
                Annotations.set (fun _ => none) "vmoperator.vmware.com/conversion-data" "x" },
          Spec := { ReservedSlots := 4 } }).toOption.map
      fun after => after.ObjectMeta.Annotations "vmoperator.vmware.com/conversion-data") =
      some (some "####|") ∧
    ((hubSpokeHub (SideChannelStore.unary false) { Spec := { ReservedSlots := 4 } }).toOption.map
      fun after => after.ObjectMeta.Annotations "vmoperator.vmware.com/conversion-data") =
      some (some "####|") := by
  decide

/-- Claim C28, amended: for every hub VirtualMachineClass that does not itself carry the
reserved snapshot key, and a side-channel encoding whose decoder returns the reserved profile
id and the reserved slots of the encoded object, ConvertFrom into v1alpha2 followed by
ConvertTo succeeds; it yields the original hub object, annotations included, when the store
deletes the snapshot it consumes or the hub object is in its zero state (no snapshot is
written), and otherwise the original hub object with the snapshot left under the reserved
key. -/
theorem class_hub_spoke_hub (sc : SideChannelStore) (hub : vmopv1.VirtualMachineClass)
    (hcodec : ∃ r, sc.decode (sc.encode hub) = some r ∧
      r.Spec.ReservedProfileID = hub.Spec.ReservedProfileID ∧
      r.Spec.ReservedSlots = hub.Spec.ReservedSlots)
    (hkey : hub.ObjectMeta.Annotations sc.AnnotationKey = none) :
    (sc.deleteConsumed = true ∨ (hub.Spec = {} ∧ hub.Status = "") →
      hubSpokeHub sc hub = .ok hub) ∧
    (sc.deleteConsumed = false → ¬ (hub.Spec = {} ∧ hub.Status = "") →
      hubSpokeHub sc hub =
        .ok
          { hub with
            ObjectMeta.Annotations :=
              hub.ObjectMeta.Annotations.set sc.AnnotationKey (sc.encode hub) }) := by
  obtain ⟨r, hr, hp, hs⟩ := hcodec
  obtain ⟨⟨gen, ann⟩, ⟨sh, pid, slots⟩, st⟩ := hub
  simp only at hkey hp hs
  unfold hubSpokeHub v1alpha2.VirtualMachineClass.ConvertFrom
    v1alpha2.VirtualMachineClass.ConvertTo SideChannelStore.write SideChannelStore.read
  by_cases hz : ({ Shared := sh, ReservedProfileID := pid, ReservedSlots := slots } :
      vmopv1.VirtualMachineClassSpec) = {} ∧ st = ""
  · have h1 := congrArg vmopv1.VirtualMachineClassSpec.ReservedProfileID hz.1
    have h2 := congrArg vmopv1.VirtualMachineClassSpec.ReservedSlots hz.1
    simp only at h1 h2
    subst h1 h2
    refine ⟨fun _ => ?_, fun _ hn => absurd hz hn⟩
    simp only [hz, and_self, if_true, hkey]
  · have key := Annotations.delete_set ann sc.AnnotationKey
      (sc.encode
        { ObjectMeta := { Generation := gen, Annotations := ann },
          Spec := { Shared := sh, ReservedProfileID := pid, ReservedSlots := slots },
          Status := st }) hkey
    simp only [Annotations.set] at key
    refine ⟨fun hdel => ?_, fun hdel _ => ?_⟩
    · rcases hdel with hdel | hdel
      · simp only [hz, if_false, Annotations.set, if_true, hr, hp, hs, hdel]
        rw [key]
      · exact absurd hdel hz
    · simp only [hz, if_false, Annotations.set, if_true, hr, hp, hs, hdel,
        Bool.false_eq_true]

/-- Witness for C28: the class of the test, with the annotation fizz=buzz, the reserved
profile id "my-profile-id" and 4 reserved slots, and a store that deletes the snapshot it
consumes. -/
theorem class_hub_spoke_hub_witness :
    hubSpokeHub (SideChannelStore.unary true)
      { ObjectMeta := { Annotations := Annotations.set (fun _ => none) "fizz" "buzz" },
        Spec := { ReservedProfileID := "my-profile-id", ReservedSlots := 4 } } =
    .ok
      { ObjectMeta := { Annotations := Annotations.set (fun _ => none) "fizz" "buzz" },
        Spec := { ReservedProfileID := "my-profile-id", ReservedSlots := 4 } } :=
  (class_hub_spoke_hub (SideChannelStore.unary true)
    { ObjectMeta := { Annotations := Annotations.set (fun _ => none) "fizz" "buzz" },
      Spec := { ReservedProfileID := "my-profile-id", ReservedSlots := 4 } }
    ⟨{ Spec := { ReservedSlots := 4, ReservedProfileID := "my-profile-id" } }, rfl, rfl, rfl⟩
    (by decide)).1 (Or.inl rfl)

/-! ## Theorems: NetPlan customization -/

/-- The loops of `NetPlanCustomization` leave `AcceptRa` as they find it. -/
theorem netPlanEthernet_acceptRa (toLower : Char → Char) (r : network.NetworkInterfaceResult) :
    (netPlanEthernet toLower r).AcceptRa = none := by
  have h4 : ∀ (l : List network.NetworkInterfaceIPConfig) (e : netplan.Ethernet),
      (l.foldl addIPv4Config e).AcceptRa = e.AcceptRa := by
    intro l
    induction l with
    | nil => intro e; rfl
    | cons x xs ih =>
      intro e
      rw [List.foldl_cons, ih]
      unfold addIPv4Config
      split_ifs <;> rfl
  have h6 : ∀ (l : List network.NetworkInterfaceIPConfig) (e : netplan.Ethernet),
      (l.foldl addIPv6Config e).AcceptRa = e.AcceptRa := by
    intro l
    induction l with
    | nil => intro e; rfl
    | cons x xs ih =>
      intro e
      rw [List.foldl_cons, ih]
      unfold addIPv6Config
      split_ifs <;> rfl
  have hr : ∀ (l : List network.NetworkInterfaceRoute) (e : netplan.Ethernet),
      (l.foldl addRoute e).AcceptRa = e.AcceptRa := by
    intro l
    induction l with
    | nil => intro e; rfl
    | cons x xs ih =>
      intro e
      rw [List.foldl_cons, ih]
      rfl
  unfold netPlanEthernet
  simp only [hr]
  split_ifs <;> simp only [h4, h6]

/-- Claim C29, the code at the inputs of the test: for the static adapter and for the DHCP
adapter the call succeeds and the entry stored under "my-interface" has a nil AcceptRa, with
Dhcp6 false and true; the entry built for any interface result has a nil AcceptRa. This holds
whatever `unicode.ToLower` is. -/
theorem netplan_acceptRa_is_nil :
    ∀ toLower : Char → Char,
      (netPlanEntry toLower 2 (staticAdapter "192.168.1.1" "fd8e:b5a0:f172:123::1")
        "my-interface").map (fun e => (e.Dhcp6, e.AcceptRa)) = some (some false, none) ∧
      (netPlanEntry toLower 2 dhcpAdapter "my-interface").map
        (fun e => (e.Dhcp6, e.AcceptRa)) = some (some true, none) ∧
      ∀ r : network.NetworkInterfaceResult, (netPlanEthernet toLower r).AcceptRa = none := by
  intro toLower
  exact ⟨rfl, rfl, netPlanEthernet_acceptRa toLower⟩

/-- Once `Gateway4` points to a non-empty string the first loop over the IP configs keeps
it. -/
theorem foldl_addIPv4Config_keep (l : List network.NetworkInterfaceIPConfig)
    (e : netplan.Ethernet) (g : String) (hg : e.Gateway4 = some g) (hne : g ≠ "") :
    (l.foldl addIPv4Config e).Gateway4 = some g := by
  induction l generalizing e with
  | nil => exact hg
  | cons x xs ih =>
    rw [List.foldl_cons]
    apply ih
    unfold addIPv4Config
    split_ifs with h1 h2
    · rcases h2 with h2 | h2
      · rw [hg] at h2
        cases h2
      · rw [hg] at h2
        exact absurd (Option.some.inj h2) hne
    · exact hg
    · exact hg

/-- The first loop over the IP configs, started without a gateway: `Gateway4` ends as the
first non-empty gateway among the IPv4 configs, as the empty string when there are IPv4
configs and all their gateways are empty, and as it was when there is no IPv4 config. -/
theorem foldl_addIPv4Config_gateway (l : List network.NetworkInterfaceIPConfig)
    (e : netplan.Ethernet) (hg : e.Gateway4 = none ∨ e.Gateway4 = some "") :
    (l.foldl addIPv4Config e).Gateway4 =
      (match ((l.filter fun c => c.IsIPv4).map fun c => c.Gateway).find? (fun g => g ≠ "") with
       | some g => some g
       | none => if (l.filter fun c => c.IsIPv4) = [] then e.Gateway4 else some "") := by
  induction l generalizing e with
  | nil => rfl
  | cons x xs ih =>
    rw [List.foldl_cons]
    by_cases hx : x.IsIPv4 = true
    · by_cases hgw : x.Gateway = ""
      · have he : (addIPv4Config e x).Gateway4 = some "" := by
          simp [addIPv4Config, hx, hg, hgw]
        rw [ih _ (Or.inr he)]
        simp [List.filter_cons, hx, hgw, he]
      · have he : (addIPv4Config e x).Gateway4 = some x.Gateway := by
          simp [addIPv4Config, hx, hg]
        rw [foldl_addIPv4Config_keep xs _ x.Gateway he hgw]
        simp [List.filter_cons, hx, hgw]
    · have he : addIPv4Config e x = e := by
        simp [addIPv4Config, hx]
      rw [he, ih e hg]
      simp [List.filter_cons, hx]

/-- Claim C30, the code at the input of the test: for the static adapter whose two gateways
are empty the call succeeds and the entry stored under "my-interface" has Gateway4 and
Gateway6 pointing to the empty string, not nil. This holds whatever `unicode.ToLower` is. -/
theorem netplan_empty_gateways_not_nil :
    ∀ toLower : Char → Char,
      (netPlanEntry toLower 2 (staticAdapter "" "") "my-interface").map
        (fun e => (e.Gateway4, e.Gateway6)) = some (some "", some "") := by
  intro toLower
  rfl

/-! ## Theorems: NormalizeNetplanMac -/

theorem toLower_of_upper (c : Char) (h : 65 ≤ c.toNat ∧ c.toNat ≤ 90) :
    c.toLower = Char.ofNat (c.toNat + 32) := by
  simp [Char.toLower, h]

theorem toLower_of_not_upper (c : Char) (h : ¬ (65 ≤ c.toNat ∧ c.toNat ≤ 90)) :
    c.toLower = c := by
  simp only [Char.toLower, ge_iff_le]
  rw [if_neg h]

theorem isUpper_iff (c : Char) : c.isUpper = true ↔ (65 ≤ c.toNat ∧ c.toNat ≤ 90) := by
  simp [Char.isUpper, Char.toNat, UInt32.le_def, Fin.le_def]
  rfl

/-- Lower-casing leaves a character that is not an upper-case letter as it is, and maps an
upper-case letter to a lower-case letter. -/
theorem toLower_cases (c : Char) :
    (c.toLower = c ∧ ¬ (65 ≤ c.toNat ∧ c.toNat ≤ 90)) ∨
    (97 ≤ c.toLower.toNat ∧ c.toLower.toNat ≤ 122) := by
  by_cases h : 65 ≤ c.toNat ∧ c.toNat ≤ 90
  · right
    rw [toLower_of_upper c h]
    obtain ⟨h1, h2⟩ := h
    generalize c.toNat = n at h1 h2
    interval_cases n <;> decide
  · left
    exact ⟨toLower_of_not_upper c h, h⟩

theorem toLower_not_upper (c : Char) : c.toLower.isUpper = false := by
  rw [Bool.eq_false_iff, ne_eq, isUpper_iff]
  rcases toLower_cases c with ⟨h1, h2⟩ | ⟨h1, h2⟩
  · rw [h1]
    exact h2
  · omega

/-- Claim C32: `SetQuotaCheckAnnotation` returns true exactly when the annotation map is not
nil and maps the perform-check key to the true value; it then sets the requested-capacity key
to the empty string and leaves every other key as it was; otherwise it returns false and
leaves the map as it was, as for the nil map and for the values "false" and "". -/
theorem setQuotaCheckAnnotation_spec (k : pkgconst.Consts) (annotations : Option Annotations) :
    (( SetQuotaCheckAnnotation k annotations).1 = true ↔
      ∃ m, annotations = some m ∧
        m k.AsyncQuotaPerformCheckAnnotationKey =
          some k.AsyncQuotaPerformCheckAnnotationValueTrue) ∧
    (( SetQuotaCheckAnnotation k annotations).1 = true →
      ∃ m m1, annotations = some m ∧ ( SetQuotaCheckAnnotation k annotations).2 = some m1 ∧
        m1 k.AsyncQuotaCheckRequestedCapacityAnnotationKey = some "" ∧
        ∀ y, y ≠ k.AsyncQuotaCheckRequestedCapacityAnnotationKey → m1 y = m y) ∧
    (( SetQuotaCheckAnnotation k annotations).1 = false →
      ( SetQuotaCheckAnnotation k annotations).2 = annotations) ∧
    ( SetQuotaCheckAnnotation pkgconst.consts none).1 = false ∧
    ( SetQuotaCheckAnnotation pkgconst.consts (some fun _ => none)).1 = false ∧
    ( SetQuotaCheckAnnotation pkgconst.consts
      (some (Annotations.set (fun _ => none)
        pkgconst.consts.AsyncQuotaPerformCheckAnnotationKey "false"))).1 = false ∧
    ( SetQuotaCheckAnnotation pkgconst.consts
      (some (Annotations.set (fun _ => none)
        pkgconst.consts.AsyncQuotaPerformCheckAnnotationKey ""))).1 = false := by
  refine ⟨?_, ?_, ?_, by decide, by decide, by decide, by decide⟩
  · cases annotations with
    | none => simp [ SetQuotaCheckAnnotation]
    | some m =>
      cases hm : m k.AsyncQuotaPerformCheckAnnotationKey with
      | none => simp [ SetQuotaCheckAnnotation, hm]
      | some val =>
        by_cases hv : val = k.AsyncQuotaPerformCheckAnnotationValueTrue
        · simp [ SetQuotaCheckAnnotation, hm, hv]
        · simp [ SetQuotaCheckAnnotation, hm, hv]
  · cases annotations with
    | none => simp [ SetQuotaCheckAnnotation]
    | some m =>
      cases hm : m k.AsyncQuotaPerformCheckAnnotationKey with
      | none => simp [ SetQuotaCheckAnnotation, hm]
      | some val =>
        by_cases hv : val = k.AsyncQuotaPerformCheckAnnotationValueTrue
        · intro _
          refine ⟨m, m.set k.AsyncQuotaCheckRequestedCapacityAnnotationKey "", rfl, ?_, ?_, ?_⟩
          · simp [ SetQuotaCheckAnnotation, hm, hv]
          · simp [Annotations.set]
          · intro y hy
            simp [Annotations.set, hy]
        · simp [ SetQuotaCheckAnnotation, hm, hv]
  · cases annotations with
    | none => simp [ SetQuotaCheckAnnotation]
    | some m =>
      cases hm : m k.AsyncQuotaPerformCheckAnnotationKey with
      | none => simp [ SetQuotaCheckAnnotation, hm]
      | some val =>
        by_cases hv : val = k.AsyncQuotaPerformCheckAnnotationValueTrue
        · simp [ SetQuotaCheckAnnotation, hm, hv]
        · simp [ SetQuotaCheckAnnotation, hm, hv]

/-- Witness for C32: the request of the test, with the perform-check key set to "true". -/
theorem setQuotaCheckAnnotation_spec_witness :
    ∃ m m1,
      some (Annotations.set (fun _ => none)
        pkgconst.consts.AsyncQuotaPerformCheckAnnotationKey "true") = some m ∧
      ( SetQuotaCheckAnnotation pkgconst.consts
        (some (Annotations.set (fun _ => none)
          pkgconst.consts.AsyncQuotaPerformCheckAnnotationKey "true"))).2 = some m1 ∧
      m1 pkgconst.consts.AsyncQuotaCheckRequestedCapacityAnnotationKey = some "" ∧
      ∀ y, y ≠ pkgconst.consts.AsyncQuotaCheckRequestedCapacityAnnotationKey → m1 y = m y :=
  (setQuotaCheckAnnotation_spec pkgconst.consts
    (some (Annotations.set (fun _ => none)
      pkgconst.consts.AsyncQuotaPerformCheckAnnotationKey "true"))).2.1 (by decide)

/-! ## Theorems: the image reference and the pause annotation -/

/-- The hub object that the up-conversion returns, when the generated conversion succeeds:
its image reference and its annotations in terms of the object `o` that the generated
conversion left. -/
theorem up_result (a : v1alpha1.Consts) (v : vmopv1.Consts) (g : GeneratedVM)
    (s : v1alpha1.VirtualMachine) (out o : vmopv1.VirtualMachine)
    (hg : g.autoConvert_v1alpha1_VirtualMachine_To_v1alpha4_VirtualMachine s out = .ok o) :
    ∃ h, Convert_v1alpha1_VirtualMachine_To_v1alpha4_VirtualMachine a v g s out = .ok h ∧
      h.Spec.Image =
        (if s.ObjectMeta.Generation > 0 ∧ s.Spec.ImageName ≠ "" then
          some { Name := s.Spec.ImageName }
         else o.Spec.Image) ∧
      ∃ m : Annotations,
        (m = o.ObjectMeta.Annotations ∨
          m = o.ObjectMeta.Annotations.set v.V1alpha1ConfigMapTransportAnnotation "true") ∧
        h.ObjectMeta.Annotations =
          (match s.ObjectMeta.Annotations a.PauseAnnotation with
           | some val => (m.set v.PauseAnnotation val).delete a.PauseAnnotation
           | none => m) := by
  unfold Convert_v1alpha1_VirtualMachine_To_v1alpha4_VirtualMachine
  simp only [hg]
  refine ⟨_, rfl, ?_, ?_⟩
  · cases s.Spec.VmMetadata <;> cases s.ObjectMeta.Annotations a.PauseAnnotation <;>
      by_cases h1 : s.ObjectMeta.Generation > 0 <;> by_cases h2 : s.Spec.ImageName = "" <;>
      simp only [h1, h2, ne_eq, not_true_eq_false, not_false_eq_true, and_true, and_false,
        if_true, if_false, false_and, true_and] <;>
      repeat' (first | rfl | split)
  · have hmeta : (if s.ObjectMeta.Generation > 0 then
          if s.Spec.ImageName ≠ "" then
            ({ o with Spec.Image := some { Name := s.Spec.ImageName } } : vmopv1.VirtualMachine)
          else o
        else o).ObjectMeta = o.ObjectMeta := by
      split_ifs <;> rfl
    cases hmd : s.Spec.VmMetadata with
    | none =>
      refine ⟨o.ObjectMeta.Annotations, Or.inl rfl, ?_⟩
      cases s.ObjectMeta.Annotations a.PauseAnnotation <;> simp only [hmeta]
    | some md =>
      by_cases hcm : md.ConfigMapName = ""
      · refine ⟨o.ObjectMeta.Annotations, Or.inl rfl, ?_⟩
        cases s.ObjectMeta.Annotations a.PauseAnnotation <;>
          simp only [hcm, ne_eq, not_true_eq_false, if_false, hmeta]
      · cases hmk : o.ObjectMeta.Annotations v.V1alpha1ConfigMapTransportAnnotation with
        | some x =>
          refine ⟨o.ObjectMeta.Annotations, Or.inl rfl, ?_⟩
          cases s.ObjectMeta.Annotations a.PauseAnnotation <;>
            simp only [hcm, ne_eq, not_false_eq_true, if_true, hmeta, hmk]
        | none =>
          refine ⟨_, Or.inr rfl, ?_⟩
          cases s.ObjectMeta.Annotations a.PauseAnnotation <;>
            simp only [hcm, ne_eq, not_false_eq_true, if_true, hmeta, hmk]

/-- The annotations of the object that the down-conversion returns, when the generated
conversion succeeds, in terms of the object `o` that the generated conversion left. -/
theorem down_result (a : v1alpha1.Consts) (v : vmopv1.Consts) (g : GeneratedVM)
    (h : vmopv1.VirtualMachine) (out o : v1alpha1.VirtualMachine)
    (hg : g.autoConvert_v1alpha4_VirtualMachine_To_v1alpha1_VirtualMachine h out = .ok o) :
    ∃ d, Convert_v1alpha4_VirtualMachine_To_v1alpha1_VirtualMachine a v g h out = .ok d ∧
      d.ObjectMeta.Annotations =
        (match h.ObjectMeta.Annotations v.PauseAnnotation with
         | some val =>
           (((o.ObjectMeta.Annotations.delete v.V1alpha1ConfigMapTransportAnnotation).set
             a.PauseAnnotation val).delete v.PauseAnnotation)
         | none => o.ObjectMeta.Annotations.delete v.V1alpha1ConfigMapTransportAnnotation) := by
  unfold Convert_v1alpha4_VirtualMachine_To_v1alpha1_VirtualMachine
  simp only [hg]
  cases h.ObjectMeta.Annotations v.PauseAnnotation with
  | none => exact ⟨_, rfl, rfl⟩
  | some val => exact ⟨_, rfl, rfl⟩

/-- The down-conversion renames the pause key: an object whose generated conversion carried
the annotations over gets the v1alpha1 pause key with the value of the hub pause key, loses
the hub pause key, and keeps every annotation other than the two pause keys and the marker. -/
theorem down_pause_renamed (a : v1alpha1.Consts) (v : vmopv1.Consts) (g : GeneratedVM)
    (hk : AnnotationKeysDistinct a v) (val : String)
    (h : vmopv1.VirtualMachine) (out o : v1alpha1.VirtualMachine)
    (hg : g.autoConvert_v1alpha4_VirtualMachine_To_v1alpha1_VirtualMachine h out = .ok o)
    (hmeta : o.ObjectMeta.Annotations = h.ObjectMeta.Annotations)
    (hv : h.ObjectMeta.Annotations v.PauseAnnotation = some val) :
    ∃ d, Convert_v1alpha4_VirtualMachine_To_v1alpha1_VirtualMachine a v g h out = .ok d ∧
      d.ObjectMeta.Annotations a.PauseAnnotation = some val ∧
      d.ObjectMeta.Annotations v.PauseAnnotation = none ∧
      ∀ y, y ∉ [a.PauseAnnotation, v.PauseAnnotation, v.V1alpha1ConfigMapTransportAnnotation] →
        d.ObjectMeta.Annotations y = h.ObjectMeta.Annotations y := by
  unfold AnnotationKeysDistinct at hk
  simp only [List.nodup_cons, List.mem_cons, List.mem_singleton, not_or, List.not_mem_nil,
    not_false_eq_true, List.nodup_nil, and_true] at hk
  obtain ⟨⟨k1, k2⟩, k3⟩ := hk
  obtain ⟨d, hd, hann⟩ := down_result a v g h out o hg
  rw [hv, hmeta] at hann
  refine ⟨d, hd, ?_, ?_, ?_⟩
  · rw [hann]
    simp [Annotations.set, Annotations.delete, k1]
  · rw [hann]
    simp [Annotations.delete]
  · intro y hy
    simp only [List.mem_cons, List.mem_singleton, not_or, List.not_mem_nil,
      not_false_eq_true, and_true] at hy
    rw [hann]
    simp [Annotations.set, Annotations.delete, hy.1, hy.2.1, hy.2.2]

/-- The up-conversion renames the pause key: an object whose generated conversion carried the
annotations over gets the hub pause key with the value of the v1alpha1 pause key, loses the
v1alpha1 pause key, and keeps every annotation other than the two pause keys and the marker. -/
theorem up_pause_renamed (a : v1alpha1.Consts) (v : vmopv1.Consts) (g : GeneratedVM)
    (hk : AnnotationKeysDistinct a v) (val : String)
    (s : v1alpha1.VirtualMachine) (out o : vmopv1.VirtualMachine)
    (hg : g.autoConvert_v1alpha1_VirtualMachine_To_v1alpha4_VirtualMachine s out = .ok o)
    (hmeta : o.ObjectMeta.Annotations = s.ObjectMeta.Annotations)
    (hv : s.ObjectMeta.Annotations a.PauseAnnotation = some val) :
    ∃ u, Convert_v1alpha1_VirtualMachine_To_v1alpha4_VirtualMachine a v g s out = .ok u ∧
      u.ObjectMeta.Annotations v.PauseAnnotation = some val ∧
      u.ObjectMeta.Annotations a.PauseAnnotation = none ∧
      ∀ y, y ∉ [a.PauseAnnotation, v.PauseAnnotation, v.V1alpha1ConfigMapTransportAnnotation] →
        u.ObjectMeta.Annotations y = s.ObjectMeta.Annotations y := by
  unfold AnnotationKeysDistinct at hk
  simp only [List.nodup_cons, List.mem_cons, List.mem_singleton, not_or, List.not_mem_nil,
    not_false_eq_true, List.nodup_nil, and_true] at hk
  obtain ⟨⟨k1, k2⟩, k3⟩ := hk
  obtain ⟨u, hu, -, m, hm, hann⟩ := up_result a v g s out o hg
  rw [hv] at hann
  simp only at hann
  refine ⟨u, hu, ?_, ?_, ?_⟩
  · rw [hann]
    simp [Annotations.set, Annotations.delete, Ne.symm k1]
  · rw [hann]
    simp [Annotations.delete]
  · intro y hy
    simp only [List.mem_cons, List.mem_singleton, not_or, List.not_mem_nil,
      not_false_eq_true, and_true] at hy
    rw [hann]
    rcases hm with rfl | rfl
    · simp [Annotations.set, Annotations.delete, hy.1, hy.2.1, hmeta]
    · simp [Annotations.set, Annotations.delete, hy.1, hy.2.1, hy.2.2, hmeta]

/-- Claim C33: when the generated conversion succeeds, the up-conversion succeeds; for a
v1alpha1 VirtualMachine with Generation > 0 and a non-empty Spec.ImageName the hub Spec.Image
is the reference with that name, and for one with Generation = 0 the hub Spec.Image is what
the generated conversion left, whatever Spec.ImageName is. -/
theorem up_sets_image_when_persisted (a : v1alpha1.Consts) (v : vmopv1.Consts)
    (g : GeneratedVM) (s : v1alpha1.VirtualMachine) (out o : vmopv1.VirtualMachine)
    (hg : g.autoConvert_v1alpha1_VirtualMachine_To_v1alpha4_VirtualMachine s out = .ok o) :
    ∃ h, Convert_v1alpha1_VirtualMachine_To_v1alpha4_VirtualMachine a v g s out = .ok h ∧
      (s.ObjectMeta.Generation > 0 → s.Spec.ImageName ≠ "" →
        h.Spec.Image = some { Name := s.Spec.ImageName }) ∧
      (s.ObjectMeta.Generation = 0 → h.Spec.Image = o.Spec.Image) := by
  obtain ⟨h, hh, himg, -⟩ := up_result a v g s out o hg
  refine ⟨h, hh, ?_, ?_⟩
  · intro h1 h2
    rw [himg, if_pos ⟨h1, h2⟩]
  · intro h1
    rw [himg, if_neg]
    rw [h1]
    simp

/-- Witness for C33: a persisted v1alpha1 VirtualMachine (Generation 3) with the image name
"photon". -/
theorem up_sets_image_when_persisted_witness :
    ∃ h, Convert_v1alpha1_VirtualMachine_To_v1alpha4_VirtualMachine v1alpha1.consts
        vmopv1.consts GeneratedVM.copying
        { ObjectMeta := { Generation := 3 }, Spec := { ImageName := "photon" } } {} = .ok h ∧
      ((3 : Int) > 0 → "photon" ≠ "" → h.Spec.Image = some { Name := "photon" }) ∧
      ((3 : Int) = 0 → h.Spec.Image = none) :=
  up_sets_image_when_persisted v1alpha1.consts vmopv1.consts GeneratedVM.copying
    { ObjectMeta := { Generation := 3 }, Spec := { ImageName := "photon" } } {} _ rfl

/-- Claim C34: the pause annotation is renamed in both directions. For a hub object with the
hub pause key = val the down-conversion gives the v1alpha1 pause key = val and no hub key; for
a v1alpha1 object with the v1alpha1 pause key = val the up-conversion gives the hub key = val
and no v1alpha1 key; converting the result of the down-conversion up again gives the hub key
= val and no v1alpha1 key; each time the annotations other than the two pause keys and the
marker are kept. -/
theorem pause_annotation_renamed (a : v1alpha1.Consts) (v : vmopv1.Consts) (g : GeneratedVM)
    (hk : AnnotationKeysDistinct a v) (val : String)
    (h : vmopv1.VirtualMachine) (out o : v1alpha1.VirtualMachine)
    (hg : g.autoConvert_v1alpha4_VirtualMachine_To_v1alpha1_VirtualMachine h out = .ok o)
    (hmeta : o.ObjectMeta.Annotations = h.ObjectMeta.Annotations)
    (hv : h.ObjectMeta.Annotations v.PauseAnnotation = some val)
    (s : v1alpha1.VirtualMachine) (out2 o2 : vmopv1.VirtualMachine)
    (hg2 : g.autoConvert_v1alpha1_VirtualMachine_To_v1alpha4_VirtualMachine s out2 = .ok o2)
    (hmeta2 : o2.ObjectMeta.Annotations = s.ObjectMeta.Annotations)
    (hs : s.ObjectMeta.Annotations a.PauseAnnotation = some val) :
    (∃ d, Convert_v1alpha4_VirtualMachine_To_v1alpha1_VirtualMachine a v g h out = .ok d ∧
      d.ObjectMeta.Annotations a.PauseAnnotation = some val ∧
      d.ObjectMeta.Annotations v.PauseAnnotation = none ∧
      (∀ y,
        y ∉ [a.PauseAnnotation, v.PauseAnnotation, v.V1alpha1ConfigMapTransportAnnotation] →
        d.ObjectMeta.Annotations y = h.ObjectMeta.Annotations y) ∧
      ∀ out3 o3,
        g.autoConvert_v1alpha1_VirtualMachine_To_v1alpha4_VirtualMachine d out3 = .ok o3 →
        o3.ObjectMeta.Annotations = d.ObjectMeta.Annotations →
        ∃ u, Convert_v1alpha1_VirtualMachine_To_v1alpha4_VirtualMachine a v g d out3 = .ok u ∧
          u.ObjectMeta.Annotations v.PauseAnnotation = some val ∧
          u.ObjectMeta.Annotations a.PauseAnnotation = none ∧
          ∀ y,
            y ∉ [a.PauseAnnotation, v.PauseAnnotation,
              v.V1alpha1ConfigMapTransportAnnotation] →
            u.ObjectMeta.Annotations y = h.ObjectMeta.Annotations y) ∧
    (∃ u, Convert_v1alpha1_VirtualMachine_To_v1alpha4_VirtualMachine a v g s out2 = .ok u ∧
      u.ObjectMeta.Annotations v.PauseAnnotation = some val ∧
      u.ObjectMeta.Annotations a.PauseAnnotation = none ∧
      ∀ y,
        y ∉ [a.PauseAnnotation, v.PauseAnnotation, v.V1alpha1ConfigMapTransportAnnotation] →
        u.ObjectMeta.Annotations y = s.ObjectMeta.Annotations y) := by
  refine ⟨?_, up_pause_renamed a v g hk val s out2 o2 hg2 hmeta2 hs⟩
  obtain ⟨d, hd, d1, d2, d3⟩ := down_pause_renamed a v g hk val h out o hg hmeta hv
  refine ⟨d, hd, d1, d2, d3, ?_⟩
  intro out3 o3 hg3 hmeta3
  obtain ⟨u, hu, u1, u2, u3⟩ := up_pause_renamed a v g hk val d out3 o3 hg3 hmeta3 d1
  exact ⟨u, hu, u1, u2, fun y hy => by rw [u3 y hy, d3 y hy]⟩

/-- Witness for C34: a hub object paused with "true" and labelled fizz=buzz, and a v1alpha1
object paused with "true". -/
theorem pause_annotation_renamed_witness :
    ∃ u, Convert_v1alpha1_VirtualMachine_To_v1alpha4_VirtualMachine v1alpha1.consts
        vmopv1.consts GeneratedVM.copying
        { ObjectMeta :=
            { Annotations :=
                Annotations.set (fun _ => none) "vmoperator.vmware.com/pause-reconcile"
                  "true" } }
        {} = .ok u ∧
      u.ObjectMeta.Annotations vmopv1.consts.PauseAnnotation = some "true" ∧
      u.ObjectMeta.Annotations v1alpha1.consts.PauseAnnotation = none ∧
      ∀ y,
        y ∉ [v1alpha1.consts.PauseAnnotation, vmopv1.consts.PauseAnnotation,
          vmopv1.consts.V1alpha1ConfigMapTransportAnnotation] →
        u.ObjectMeta.Annotations y =
          (Annotations.set (fun _ => none) "vmoperator.vmware.com/pause-reconcile" "true") y :=
  (pause_annotation_renamed v1alpha1.consts vmopv1.consts GeneratedVM.copying
    (by unfold AnnotationKeysDistinct; decide) "true"
    { ObjectMeta :=
        { Annotations :=
            Annotations.set
              (Annotations.set (fun _ => none) "vmoperator.vmware.com/paused" "true")
              "fizz" "buzz" } }
    {} _ rfl rfl (by decide)
    { ObjectMeta :=
        { Annotations :=
            Annotations.set (fun _ => none) "vmoperator.vmware.com/pause-reconcile" "true" } }
    {} _ rfl rfl (by decide)).2

/-! ## Theorems: the position of the aggregate -/

/-- Claim C35, the code at a list whose aggregate is not last. With the aggregate True
(transition time 1) in front of a tools condition that is False (transition time 2), the
up-conversion synthesizes nothing, while with the aggregate last it synthesizes class-ready
and image-ready True with transition time 1. With the aggregate False for a class that was
not found in front of a tools condition that is True, it synthesizes class-ready and
image-ready True with transition time 2, while with the aggregate last it synthesizes
class-ready False and image-ready Unknown with transition time 1. -/
theorem aggregate_not_last_reads_next_condition :
    convert_v1alpha1_PreReqsReadyCondition_to_v1alpha4_Conditions v1alpha1.consts vmopv1.consts
      { Status :=
          { Conditions :=
              [{ Type_ := "VirtualMachinePrereqReady", Status := "True",
                 LastTransitionTime := 1 },
               { Type_ := "VirtualMachineTools", Status := "False",
                 Reason := "VirtualMachineToolsNotRunning", LastTransitionTime := 2 }] } } =
      [{ Type_ := "VirtualMachineTools", Status := "False",
         Reason := "VirtualMachineToolsNotRunning", LastTransitionTime := 2 }] ∧
    convert_v1alpha1_PreReqsReadyCondition_to_v1alpha4_Conditions v1alpha1.consts vmopv1.consts
      { Status :=
          { Conditions :=
              [{ Type_ := "VirtualMachineTools", Status := "False",
                 Reason := "VirtualMachineToolsNotRunning", LastTransitionTime := 2 },
               { Type_ := "VirtualMachinePrereqReady", Status := "True",
                 LastTransitionTime := 1 }] } } =
      [{ Type_ := "VirtualMachineTools", Status := "False",
         Reason := "VirtualMachineToolsNotRunning", LastTransitionTime := 2 },
       { Type_ := "VirtualMachineClassReady", Status := "True", Reason := "True",
         LastTransitionTime := 1 },
       { Type_ := "VirtualMachineImageReady", Status := "True", Reason := "True",
         LastTransitionTime := 1 }] ∧
    convert_v1alpha1_PreReqsReadyCondition_to_v1alpha4_Conditions v1alpha1.consts vmopv1.consts
      { Status :=
          { Conditions :=
              [{ Type_ := "VirtualMachinePrereqReady", Status := "False",
                 Reason := "VirtualMachineClassNotFound", LastTransitionTime := 1 },
               { Type_ := "VirtualMachineTools", Status := "True",
                 LastTransitionTime := 2 }] } } =
      [{ Type_ := "VirtualMachineTools", Status := "True", LastTransitionTime := 2 },
       { Type_ := "VirtualMachineClassReady", Status := "True", Reason := "True",
         LastTransitionTime := 2 },
       { Type_ := "VirtualMachineImageReady", Status := "True", Reason := "True",
         LastTransitionTime := 2 }] ∧
    convert_v1alpha1_PreReqsReadyCondition_to_v1alpha4_Conditions v1alpha1.consts vmopv1.consts
      { Status :=
          { Conditions :=
              [{ Type_ := "VirtualMachineTools", Status := "True", LastTransitionTime := 2 },
               { Type_ := "VirtualMachinePrereqReady", Status := "False",
                 Reason := "VirtualMachineClassNotFound", LastTransitionTime := 1 }] } } =
      [{ Type_ := "VirtualMachineTools", Status := "True", LastTransitionTime := 2 },
       { Type_ := "VirtualMachineClassReady", Status := "False",
         Reason := "VirtualMachineClassNotFound", LastTransitionTime := 1 },
       { Type_ := "VirtualMachineImageReady", Status := "Unknown", Reason := "Unknown",
         LastTransitionTime := 1 }] := by
  refine ⟨by decide, by decide, by decide, by decide⟩

/-! ## Theorems: network interfaces -/

/-- Claim C36, the code at an interface without a network name and type: the up-conversion
dereferences the nil `out.Network`. The down-conversion of a hub interface without a Network
reference is such an interface, and the loop over the interfaces of a spec that holds it
fails. The call returns a spec, named "eth" followed by the index, exactly when the name or
the type is set. -/
theorem network_interface_up_nil_dereference :
    convert_v1alpha1_NetworkInterface_To_v1alpha4_NetworkInterfaceSpec 0 {} =
      .error "invalid memory address or nil pointer dereference" ∧
    convert_v1alpha4_NetworkInterfaceSpec_To_v1alpha1_NetworkInterface { Name := "eth0" } = {} ∧
    convertNetworkInterfaces
      [convert_v1alpha4_NetworkInterfaceSpec_To_v1alpha1_NetworkInterface { Name := "eth0" }]
      0 [] = .error "invalid memory address or nil pointer dereference" ∧
    ∀ (idx : Int) (inp : v1alpha1.VirtualMachineNetworkInterface),
      Except.map (fun spec => spec.Name)
        (convert_v1alpha1_NetworkInterface_To_v1alpha4_NetworkInterfaceSpec idx inp) =
      (if inp.NetworkName ≠ "" ∨ inp.NetworkType ≠ "" then .ok ("eth" ++ toString idx)
       else .error "invalid memory address or nil pointer dereference") := by
  refine ⟨rfl, rfl, rfl, ?_⟩
  intro idx inp
  unfold convert_v1alpha1_NetworkInterface_To_v1alpha4_NetworkInterfaceSpec
  by_cases h : inp.NetworkName ≠ "" ∨ inp.NetworkType ≠ ""
  · simp only [if_pos h]
    rfl
  · simp only [if_neg h]
    rfl

/-- Claim C38: for every index, every network name and each of the four known network
types, the up-conversion of the interface succeeds and the down-conversion of its result has
the same NetworkName and NetworkType. -/
theorem network_type_round_trip (idx : Int) (name t : String)
    (ht : t ∈ ["vsphere-distributed", "nsx-t", "nsx-t-subnet", "nsx-t-subnetset"]) :
    ∃ spec,
      convert_v1alpha1_NetworkInterface_To_v1alpha4_NetworkInterfaceSpec idx
        { NetworkName := name, NetworkType := t } = .ok spec ∧
      convert_v1alpha4_NetworkInterfaceSpec_To_v1alpha1_NetworkInterface spec =
        { NetworkName := name, NetworkType := t } := by
  simp only [List.mem_cons, List.mem_singleton, List.not_mem_nil, or_false] at ht
  rcases ht with rfl | rfl | rfl | rfl
  · refine ⟨{ Name := "eth" ++ toString idx,
              Network := some
                { APIVersion := "netoperator.vmware.com/v1alpha1", Kind := "Network",
                  Name := name } }, ?_, ?_⟩
    · simp [convert_v1alpha1_NetworkInterface_To_v1alpha4_NetworkInterfaceSpec]
    · simp [convert_v1alpha4_NetworkInterfaceSpec_To_v1alpha1_NetworkInterface]
  · refine ⟨{ Name := "eth" ++ toString idx,
              Network := some
                { APIVersion := "vmware.com/v1alpha1", Kind := "VirtualNetwork",
                  Name := name } }, ?_, ?_⟩
    · simp [convert_v1alpha1_NetworkInterface_To_v1alpha4_NetworkInterfaceSpec]
    · simp [convert_v1alpha4_NetworkInterfaceSpec_To_v1alpha1_NetworkInterface]
  · refine ⟨{ Name := "eth" ++ toString idx,
              Network := some
                { APIVersion := "crd.nsx.vmware.com/v1alpha1", Kind := "Subnet",
                  Name := name } }, ?_, ?_⟩
    · simp [convert_v1alpha1_NetworkInterface_To_v1alpha4_NetworkInterfaceSpec]
    · simp [convert_v1alpha4_NetworkInterfaceSpec_To_v1alpha1_NetworkInterface]
  · refine ⟨{ Name := "eth" ++ toString idx,
              Network := some
                { APIVersion := "crd.nsx.vmware.com/v1alpha1", Kind := "SubnetSet",
                  Name := name } }, ?_, ?_⟩
    · simp [convert_v1alpha1_NetworkInterface_To_v1alpha4_NetworkInterfaceSpec]
    · simp [convert_v1alpha4_NetworkInterfaceSpec_To_v1alpha1_NetworkInterface]

/-- Witness for C38: the second interface of a spec, on the NSX-T network "primary". -/
theorem network_type_round_trip_witness :
    ∃ spec,
      convert_v1alpha1_NetworkInterface_To_v1alpha4_NetworkInterfaceSpec 1
        { NetworkName := "primary", NetworkType := "nsx-t" } = .ok spec ∧
      convert_v1alpha4_NetworkInterfaceSpec_To_v1alpha1_NetworkInterface spec =
        { NetworkName := "primary", NetworkType := "nsx-t" } :=
  network_type_round_trip 1 "primary" "nsx-t" (by decide)

/-! ## Theorems: hub conditions down and up again -/

/-- The classification loop looks at the Types only. -/
theorem classifyFrom_types (a : v1alpha1.Consts) (v : vmopv1.Consts)
    (l m : List v1alpha1.Condition) (i : Nat) (p : CondPtrs)
    (h : (l.map fun c => c.Type_) = m.map fun c => c.Type_) :
    classifyFrom a v l i p = classifyFrom a v m i p := by
  induction l generalizing m i p with
  | nil =>
    cases m with
    | nil => rfl
    | cons y ys => simp at h
  | cons x xs ih =>
    cases m with
    | nil => simp at h
    | cons y ys =>
      simp only [List.map_cons, List.cons.injEq] at h
      simp only [classifyFrom]
      rw [ih ys (i + 1) _ h.2]
      simp only [classifyStep, h.1]

/-- A list without the aggregate leaves the aggregate pointer nil. -/
theorem classify_preReq_none (a : v1alpha1.Consts) (v : vmopv1.Consts)
    (hd : ConditionTypesDistinct a v) (l : List v1alpha1.Condition)
    (hl : ∀ c ∈ l, c.Type_ ≠ a.VirtualMachinePrereqReadyCondition) :
    (classify a v l).preReqCond = none := by
  have q1 := (classify_pointsTo a v hd l).1
  cases h : (classify a v l).preReqCond with
  | none => rfl
  | some k =>
    rw [h] at q1
    obtain ⟨c, hc, ht⟩ := q1
    exact absurd ht (hl c (List.getElem?_mem hc))

/-- On a list without the aggregate the down-conversion returns the list, or the list with
an aggregate appended; it appends one only when class-ready or image-ready is in the list. -/
theorem translate_appended (a : v1alpha1.Consts) (v : vmopv1.Consts)
    (hd : ConditionTypesDistinct a v) (l : List v1alpha1.Condition)
    (hl : ∀ c ∈ l, c.Type_ ≠ a.VirtualMachinePrereqReadyCondition) :
    translate_v1alpha4_Conditions_To_v1alpha1_Conditions a v l = l ∨
    ∃ p, p.Type_ = a.VirtualMachinePrereqReadyCondition ∧
      translate_v1alpha4_Conditions_To_v1alpha1_Conditions a v l = l ++ [p] ∧
      ((classify a v l).vmClassCond.isSome = true ∨
        (classify a v l).vmImageCond.isSome = true) := by
  have hnone := classify_preReq_none a v hd l hl
  unfold translate_v1alpha4_Conditions_To_v1alpha1_Conditions
  simp only [hnone, storePrereq]
  by_cases hall : (ptrStatusIs l (classify a v l).vmClassCond corev1.ConditionTrue &&
      ptrStatusIs l (classify a v l).vmImageCond corev1.ConditionTrue &&
      nilOrStatusIs l (classify a v l).vmSetResourcePolicyCond corev1.ConditionTrue &&
      nilOrStatusIs l (classify a v l).vmBootstrapCond corev1.ConditionTrue) = true
  · rw [if_pos hall]
    refine Or.inr ⟨_, ?_, rfl, Or.inl ?_⟩
    · rfl
    · simp only [Bool.and_eq_true] at hall
      have hc := hall.1.1.1
      cases hcl : (classify a v l).vmClassCond with
      | none => simp [hcl, ptrStatusIs] at hc
      | some k => rfl
  · rw [if_neg hall]
    by_cases hcf : ptrStatusIs l (classify a v l).vmClassCond corev1.ConditionFalse = true
    · simp only [hcf, if_true]
      split_ifs
      · refine Or.inr ⟨_, ?_, rfl, Or.inl ?_⟩
        · rfl
        · cases hcl : (classify a v l).vmClassCond with
          | none => simp [hcl, ptrStatusIs] at hcf
          | some k => rfl
      · exact Or.inl rfl
      · exact Or.inl rfl
    · by_cases hif : ptrStatusIs l (classify a v l).vmImageCond corev1.ConditionFalse = true
      · simp only [hcf, hif, if_true, Bool.false_eq_true, if_false]
        split_ifs
        · refine Or.inr ⟨_, ?_, rfl, Or.inr ?_⟩
          · rfl
          · cases hcl : (classify a v l).vmImageCond with
            | none => simp [hcl, ptrStatusIs] at hif
            | some k => rfl
        · exact Or.inl rfl
        · exact Or.inl rfl
      · simp only [hcf, hif, Bool.false_eq_true, if_false, ne_eq, not_true_eq_false]
        split_ifs
        · exact Or.inl rfl
        · exact Or.inl rfl

/-- The up-conversion returns a list without the aggregate as it is. -/
theorem up_no_aggregate (a : v1alpha1.Consts) (v : vmopv1.Consts)
    (hd : ConditionTypesDistinct a v) (dst : vmopv1.VirtualMachine)
    (hl : ∀ c ∈ dst.Status.Conditions, c.Type_ ≠ a.VirtualMachinePrereqReadyCondition) :
    convert_v1alpha1_PreReqsReadyCondition_to_v1alpha4_Conditions a v dst =
      dst.Status.Conditions := by
  have hnone : (classifyHub a v dst.Status.Conditions).preReqCond = none := by
    rw [classifyHub_eq]
    apply classify_preReq_none a v hd
    intro c hc
    obtain ⟨x, hx, rfl⟩ := List.mem_map.1 hc
    exact hl x hx
  unfold convert_v1alpha1_PreReqsReadyCondition_to_v1alpha4_Conditions
  simp only [hnone]

/-- The up-conversion of a list that ends with the aggregate and holds class-ready or
image-ready before it removes the aggregate and adds nothing. -/
theorem up_removes_last_aggregate (a : v1alpha1.Consts) (v : vmopv1.Consts)
    (dst : vmopv1.VirtualMachine) (l : List metav1.Condition) (p : metav1.Condition)
    (hc : dst.Status.Conditions = l ++ [p])
    (hp : p.Type_ = a.VirtualMachinePrereqReadyCondition)
    (hk : (classifyHub a v l).vmClassCond.isSome = true ∨
      (classifyHub a v l).vmImageCond.isSome = true) :
    convert_v1alpha1_PreReqsReadyCondition_to_v1alpha4_Conditions a v dst = l := by
  have hcl : classifyHub a v (l ++ [p]) =
      { classifyHub a v l with preReqCond := some l.length } := by
    rw [classifyHub_eq, List.map_append, List.map_singleton, classify_snoc, ← classifyHub_eq,
      List.length_map]
    simp [classifyStep, typeOnly, hp]
  unfold convert_v1alpha1_PreReqsReadyCondition_to_v1alpha4_Conditions
  rw [hc, hcl]
  have he : (l ++ [p]).eraseIdx l.length = l := by
    rw [List.eraseIdx_append_of_length_le (Nat.le_refl _)]
    simp
  rcases hk with hk | hk
  · simp [hk, he]
  · simp [hk, he]

/-- On a hub condition list without the aggregate, carried down and up by conversions of a
single condition that keep the Type, the down-conversion of the conditions followed by the
up-conversion returns each condition carried down and up, and nothing else. -/
theorem conditions_down_up (a : v1alpha1.Consts) (v : vmopv1.Consts)
    (hd : ConditionTypesDistinct a v)
    (down : metav1.Condition → v1alpha1.Condition)
    (up : v1alpha1.Condition → metav1.Condition)
    (hdown : ∀ c, (down c).Type_ = c.Type_) (hup : ∀ c, (up c).Type_ = c.Type_)
    (L : List metav1.Condition)
    (hL : ∀ c ∈ L, c.Type_ ≠ a.VirtualMachinePrereqReadyCondition)
    (dst : vmopv1.VirtualMachine)
    (hdst : dst.Status.Conditions =
      (translate_v1alpha4_Conditions_To_v1alpha1_Conditions a v (L.map down)).map up) :
    convert_v1alpha1_PreReqsReadyCondition_to_v1alpha4_Conditions a v dst =
      L.map fun c => up (down c) := by
  have hback : (L.map down).map up = L.map fun c => up (down c) := by
    rw [List.map_map]
    rfl
  have hl : ∀ c ∈ L.map down, c.Type_ ≠ a.VirtualMachinePrereqReadyCondition := by
    intro c hc
    obtain ⟨x, hx, rfl⟩ := List.mem_map.1 hc
    rw [hdown]
    exact hL x hx
  have hl2 : ∀ c ∈ L.map fun c => up (down c),
      c.Type_ ≠ a.VirtualMachinePrereqReadyCondition := by
    intro c hc
    obtain ⟨x, hx, rfl⟩ := List.mem_map.1 hc
    rw [hup, hdown]
    exact hL x hx
  rcases translate_appended a v hd (L.map down) hl with h | ⟨p, hp, h, hk⟩
  · rw [h, hback] at hdst
    rw [up_no_aggregate a v hd dst (by rw [hdst]; exact hl2), hdst]
  · rw [h, List.map_append, hback, List.map_singleton] at hdst
    have hcls : classifyHub a v (L.map fun c => up (down c)) = classify a v (L.map down) := by
      rw [classifyHub_eq]
      apply classifyFrom_types
      rw [List.map_map, List.map_map, List.map_map]
      apply List.map_congr_left
      intro c _
      simp [typeOnly, hdown, hup]
    exact up_removes_last_aggregate a v dst _ (up p) hdst (by rw [hup, hp])
      (by rw [hcls]; exact hk)

/-- Counterexample to C37 as stated: class-ready and image-ready True with ObservedGeneration
3. The down-conversion appends the aggregate and the up-conversion removes it and synthesizes
nothing, but a v1alpha1 condition has no ObservedGeneration, so the conditions come back with
ObservedGeneration 0: the result is not L. -/
theorem hub_conditions_round_trip_drops_generation :
    convert_v1alpha1_PreReqsReadyCondition_to_v1alpha4_Conditions v1alpha1.consts vmopv1.consts
      { Status :=
          { Conditions :=
              (translate_v1alpha4_Conditions_To_v1alpha1_Conditions v1alpha1.consts
                vmopv1.consts
                (List.map Convert_v1_Condition_To_v1alpha1_Condition
                  [{ Type_ := "VirtualMachineClassReady", Status := "True",
                     ObservedGeneration := 3, LastTransitionTime := 1 },
                   { Type_ := "VirtualMachineImageReady", Status := "True",
                     ObservedGeneration := 3, LastTransitionTime := 2 }])).map
                Convert_v1alpha1_Condition_To_v1_Condition } } =
      [{ Type_ := "VirtualMachineClassReady", Status := "True", LastTransitionTime := 1 },
       { Type_ := "VirtualMachineImageReady", Status := "True", LastTransitionTime := 2 }] ∧
    convert_v1alpha1_PreReqsReadyCondition_to_v1alpha4_Conditions v1alpha1.consts vmopv1.consts
      { Status :=
          { Conditions :=
              (translate_v1alpha4_Conditions_To_v1alpha1_Conditions v1alpha1.consts
                vmopv1.consts
                (List.map Convert_v1_Condition_To_v1alpha1_Condition
                  [{ Type_ := "VirtualMachineClassReady", Status := "True",
                     ObservedGeneration := 3, LastTransitionTime := 1 },
                   { Type_ := "VirtualMachineImageReady", Status := "True",
                     ObservedGeneration := 3, LastTransitionTime := 2 }])).map
                Convert_v1alpha1_Condition_To_v1_Condition } } ≠
      [{ Type_ := "VirtualMachineClassReady", Status := "True", ObservedGeneration := 3,
         LastTransitionTime := 1 },
       { Type_ := "VirtualMachineImageReady", Status := "True", ObservedGeneration := 3,
         LastTransitionTime := 2 }] := by
  decide

/-- Claim C37, amended: for a hub condition list L without a VirtualMachinePrereqReady
condition, the down-conversion of the conditions followed by the up-conversion, with the
conditions carried over field by field, returns L with the ObservedGeneration of every
condition reset to 0, and exactly L when every condition of L has ObservedGeneration 0; with
any conversions of a single condition that keep the Type it returns each condition of L
carried down and up, so an aggregate that the down-conversion appended is removed and nothing
is synthesized. -/
theorem hub_conditions_round_trip (a : v1alpha1.Consts) (v : vmopv1.Consts)
    (hd : ConditionTypesDistinct a v) (L : List metav1.Condition)
    (hL : ∀ c ∈ L, c.Type_ ≠ a.VirtualMachinePrereqReadyCondition) :
    (∀ dst : vmopv1.VirtualMachine,
      dst.Status.Conditions =
        (translate_v1alpha4_Conditions_To_v1alpha1_Conditions a v
          (L.map Convert_v1_Condition_To_v1alpha1_Condition)).map
          Convert_v1alpha1_Condition_To_v1_Condition →
      convert_v1alpha1_PreReqsReadyCondition_to_v1alpha4_Conditions a v dst =
        (L.map fun c => { c with ObservedGeneration := 0 }) ∧
      ((∀ c ∈ L, c.ObservedGeneration = 0) →
        convert_v1alpha1_PreReqsReadyCondition_to_v1alpha4_Conditions a v dst = L)) ∧
    ∀ (down : metav1.Condition → v1alpha1.Condition)
      (up : v1alpha1.Condition → metav1.Condition),
      (∀ c, (down c).Type_ = c.Type_) → (∀ c, (up c).Type_ = c.Type_) →
      ∀ dst : vmopv1.VirtualMachine,
        dst.Status.Conditions =
          (translate_v1alpha4_Conditions_To_v1alpha1_Conditions a v (L.map down)).map up →
        convert_v1alpha1_PreReqsReadyCondition_to_v1alpha4_Conditions a v dst =
          L.map fun c => up (down c) := by
  refine ⟨fun dst hdst => ?_, fun down up hdown hup dst hdst =>
    conditions_down_up a v hd down up hdown hup L hL dst hdst⟩
  have h := conditions_down_up a v hd Convert_v1_Condition_To_v1alpha1_Condition
    Convert_v1alpha1_Condition_To_v1_Condition (fun _ => rfl) (fun _ => rfl) L hL dst hdst
  refine ⟨h, fun h0 => ?_⟩
  rw [h]
  conv_rhs => rw [← List.map_id L]
  apply List.map_congr_left
  intro c hc
  have hc0 := h0 c hc
  cases c
  simp only [Convert_v1_Condition_To_v1alpha1_Condition,
    Convert_v1alpha1_Condition_To_v1_Condition, id]
  simp only at hc0
  rw [hc0]

/-- Witness for C37: class-ready and image-ready True with ObservedGeneration 0, carried over
field by field; the down-conversion appends a True aggregate and the up-conversion removes
it. -/
theorem hub_conditions_round_trip_witness :
    convert_v1alpha1_PreReqsReadyCondition_to_v1alpha4_Conditions v1alpha1.consts vmopv1.consts
      { Status :=
          { Conditions :=
              (translate_v1alpha4_Conditions_To_v1alpha1_Conditions v1alpha1.consts
                vmopv1.consts
                (List.map Convert_v1_Condition_To_v1alpha1_Condition
                  [{ Type_ := "VirtualMachineClassReady", Status := "True",
                     LastTransitionTime := 1 },
                   { Type_ := "VirtualMachineImageReady", Status := "True",
                     LastTransitionTime := 2 }])).map
                Convert_v1alpha1_Condition_To_v1_Condition } } =
      [{ Type_ := "VirtualMachineClassReady", Status := "True", LastTransitionTime := 1 },
       { Type_ := "VirtualMachineImageReady", Status := "True", LastTransitionTime := 2 }] :=
  ((hub_conditions_round_trip v1alpha1.consts vmopv1.consts
    (by unfold ConditionTypesDistinct; decide)
    [{ Type_ := "VirtualMachineClassReady", Status := "True", LastTransitionTime := 1 },
     { Type_ := "VirtualMachineImageReady", Status := "True", LastTransitionTime := 2 }]
    (by decide)).1 _ rfl).2 (by decide)

/-! ## Theorems: overwrite -/

/-- The value that `overwrite` leaves in `*dst`, case by case. -/
theorem overwrite_eq {T : Type} [DecidableEq T] [Inhabited T] (d user current : T) :
    overwrite d user current =
      (if user ≠ default then (if user = current then default else user)
       else if d ≠ default then (if d = current then default else d)
       else default) := by
  unfold overwrite
  by_cases hu : user = default
  · by_cases hd : d = default
    · simp [hu, hd]
    · by_cases hc : current = d
      · subst hc
        simp [hu, hd]
      · have hc2 : ¬ d = current := fun e => hc e.symm
        simp [hu, hd, hc, hc2]
  · by_cases hc : current = user
    · subst hc
      simp [hu]
    · have hc2 : ¬ user = current := fun e => hc e.symm
      simp [hu, hc, hc2]

/-- Claim C39: after `overwrite(dst, user, current)` the value of `*dst` is the zero value or
differs from current; it is user when user is non-zero and differs from current, the initial
value d when user is zero and d is non-zero and differs from current, and the zero value
otherwise; a second call with the same user and current leaves it unchanged; and
`overwriteGuestID` sets GuestId to the GuestID of the VM spec when that is non-empty and
differs from the current GuestId, and to the empty string otherwise, whatever the incoming
GuestId of the ConfigSpec is. -/
theorem overwrite_spec {T : Type} [DecidableEq T] [Inhabited T] (d user current : T) :
    (overwrite d user current = default ∨ overwrite d user current ≠ current) ∧
    (user ≠ default → user ≠ current → overwrite d user current = user) ∧
    (user = default → d ≠ default → d ≠ current → overwrite d user current = d) ∧
    (¬ (user ≠ default ∧ user ≠ current) →
      ¬ (user = default ∧ d ≠ default ∧ d ≠ current) →
      overwrite d user current = default) ∧
    overwrite (overwrite d user current) user current = overwrite d user current ∧
    ∀ (vm : vmopv1.VirtualMachine) (ci : vimtypes.VirtualMachineConfigInfo)
        (cs : vimtypes.VirtualMachineConfigSpec),
      overwriteGuestID vm ci cs =
        { cs with
          GuestId :=
            if vm.Spec.GuestID ≠ "" ∧ vm.Spec.GuestID ≠ ci.GuestId then vm.Spec.GuestID
            else "" } := by
  refine ⟨?_, ?_, ?_, ?_, ?_, ?_⟩
  · rw [overwrite_eq]
    by_cases hu : user = default
    · by_cases hd : d = default
      · simp [hu, hd]
      · by_cases hc : d = current
        · simp [hu, hd, hc]
        · simp [hu, hd, hc]
    · by_cases hc : user = current
      · subst hc
        simp [hu]
      · simp [hu, hc]
  · intro hu hc
    rw [overwrite_eq]
    simp [hu, hc]
  · intro hu hd hc
    rw [overwrite_eq]
    simp [hu, hd, hc]
  · intro h1 h2
    rw [overwrite_eq]
    by_cases hu : user = default
    · by_cases hd : d = default
      · simp [hu, hd]
      · by_cases hc : d = current
        · simp [hu, hd, hc]
        · exact absurd ⟨hu, hd, hc⟩ h2
    · by_cases hc : user = current
      · subst hc
        simp [hu]
      · exact absurd ⟨hu, hc⟩ h1
  · rw [overwrite_eq (overwrite d user current), overwrite_eq d]
    by_cases hu : user = default
    · by_cases hd : d = default
      · simp [hu, hd]
      · by_cases hc : d = current
        · simp [hu, hd, hc]
        · simp [hu, hd, hc]
    · by_cases hc : user = current
      · subst hc
        simp [hu]
      · simp [hu, hc]
  · intro vm ci cs
    unfold overwriteGuestID
    simp only [overwrite_eq]
    have hdef : (default : String) = "" := rfl
    by_cases hu : vm.Spec.GuestID = ""
    · simp [hdef, hu]
    · by_cases hc : vm.Spec.GuestID = ci.GuestId
      · simp [hdef, hu, hc]
      · simp [hdef, hu, hc]

/-- Witness for C39: the user value "ubuntu64Guest" against the current "centos64Guest". -/
theorem overwrite_spec_witness :
    overwrite "otherGuest" "ubuntu64Guest" "centos64Guest" = "ubuntu64Guest" :=
  (overwrite_spec "otherGuest" "ubuntu64Guest" "centos64Guest").2.1 (by decide) (by decide)

/-! ## Theorems: the encryption validators -/

theorem lor_eq_zero (x y : Nat) : x ||| y = 0 ↔ x = 0 ∧ y = 0 := by
  constructor
  · intro h
    have key : ∀ i, x.testBit i = false ∧ y.testBit i = false := by
      intro i
      have h1 := congrArg (fun n => Nat.testBit n i) h
      simpa [Nat.testBit_lor] using h1
    constructor
    · apply Nat.eq_of_testBit_eq
      intro i
      simp [(key i).1]
    · apply Nat.eq_of_testBit_eq
      intro i
      simp [(key i).2]
  · rintro ⟨rfl, rfl⟩
    rfl

/-- Setting a non-zero flag together with appending a message keeps reason and messages in
step. -/
theorem matches_flag (st : Nat × List String) (flag : Nat) (msg : String) (hf : flag ≠ 0) :
    ReasonMatchesMessages (st.1 ||| flag, st.2 ++ [msg]) := by
  unfold ReasonMatchesMessages
  simp [lor_eq_zero, hf]

/-- Merging a result that is in step into one that is in step gives one that is in step. -/
theorem matches_merge (orLen : Bool) (st rm : Nat × List String)
    (hs : ReasonMatchesMessages st) (hr : ReasonMatchesMessages rm) :
    ReasonMatchesMessages (mergeValidation orLen st rm) := by
  unfold mergeValidation
  split_ifs
  · unfold ReasonMatchesMessages at hs hr ⊢
    simp only [lor_eq_zero, List.append_eq_nil, hs, hr]
  · exact hs

theorem matches_zero : ReasonMatchesMessages (0, []) := by
  simp [ReasonMatchesMessages]

theorem matches_validateStorageClassAndVTPM (k : crypto.Consts) (hk : ReasonFlagsNonZero k)
    (args : crypto.reconcileArgs) :
    ReasonMatchesMessages (validateStorageClassAndVTPM k args) := by
  unfold validateStorageClassAndVTPM
  simp only []
  split_ifs
  all_goals first
    | exact matches_zero
    | exact matches_flag (_, _) _ _ hk.1
    | exact matches_flag (_, _) _ _ hk.2

theorem matches_validatePoweredOffNoSnapshots (k : crypto.Consts) (hk : ReasonFlagsNonZero k)
    (moVM : mo.VirtualMachine) :
    ReasonMatchesMessages (validatePoweredOffNoSnapshots k moVM) := by
  unfold validatePoweredOffNoSnapshots
  simp only []
  split_ifs
  all_goals first
    | exact matches_zero
    | exact matches_flag (_, _) _ _ hk.1

theorem matches_validateDeviceChange (k : crypto.Consts) (hk : ReasonFlagsNonZero k)
    (st : Nat × List String) (devChange : Option vimtypes.VirtualDeviceConfigSpec)
    (hs : ReasonMatchesMessages st) :
    ReasonMatchesMessages (validateDeviceChange k st devChange) := by
  cases devChange with
  | none => exact hs
  | some devSpec =>
    unfold validateDeviceChange
    simp only []
    split_ifs
    all_goals first
      | exact hs
      | exact matches_flag (_, _) _ _ hk.2

theorem matches_validateDeviceChanges (k : crypto.Consts) (hk : ReasonFlagsNonZero k)
    (configSpec : vimtypes.VirtualMachineConfigSpec) :
    ReasonMatchesMessages (validateDeviceChanges k configSpec) := by
  unfold validateDeviceChanges
  have key : ∀ (l : List (Option vimtypes.VirtualDeviceConfigSpec)) (st : Nat × List String),
      ReasonMatchesMessages st → ReasonMatchesMessages (l.foldl (validateDeviceChange k) st) := by
    intro l
    induction l with
    | nil => intro st hs; exact hs
    | cons x xs ih =>
      intro st hs
      rw [List.foldl_cons]
      exact ih _ (matches_validateDeviceChange k hk st x hs)
  exact key _ _ matches_zero

theorem matches_validateEncrypt (k : crypto.Consts) (hk : ReasonFlagsNonZero k)
    (args : crypto.reconcileArgs) : ReasonMatchesMessages (validateEncrypt k args) := by
  unfold validateEncrypt
  exact matches_merge _ _ _
    (matches_merge _ _ _
      (matches_merge _ _ _ matches_zero (matches_validateStorageClassAndVTPM k hk args))
      (matches_validatePoweredOffNoSnapshots k hk args.moVM))
    (matches_validateDeviceChanges k hk args.configSpec)

theorem matches_validateRecrypt (k : crypto.Consts) (hk : ReasonFlagsNonZero k)
    (args : crypto.reconcileArgs) : ReasonMatchesMessages (validateRecrypt k args) := by
  unfold validateRecrypt
  simp only []
  apply matches_merge _ _ _ _ (matches_validateDeviceChanges k hk args.configSpec)
  split_ifs
  · exact matches_flag (_, _) _ _ hk.1
  · exact matches_merge _ _ _ matches_zero (matches_validateStorageClassAndVTPM k hk args)

theorem matches_validateUpdateEncrypted (k : crypto.Consts) (hk : ReasonFlagsNonZero k)
    (args : crypto.reconcileArgs) : ReasonMatchesMessages (validateUpdateEncrypted k args) := by
  unfold validateUpdateEncrypted
  simp only []
  apply matches_merge _ _ _ _ (matches_validateDeviceChanges k hk args.configSpec)
  split_ifs
  · exact matches_flag (_, _) _ _ hk.2
  · exact matches_merge _ _ _ matches_zero (matches_validateStorageClassAndVTPM k hk args)

/-- For a result that is in step the test of `doOp` is each of its two conjuncts. -/
theorem doOpSucceeds_iff (rm : Nat × List String) (h : ReasonMatchesMessages rm) :
    (doOpSucceeds rm = true ↔ rm.1 = 0) ∧ (doOpSucceeds rm = true ↔ rm.2.length = 0) := by
  unfold ReasonMatchesMessages at h
  unfold doOpSucceeds
  simp only [Bool.and_eq_true, beq_iff_eq, List.length_eq_zero]
  constructor
  · exact ⟨fun x => x.1, fun x => ⟨x, h.1 x⟩⟩
  · exact ⟨fun x => x.2, fun x => ⟨h.2 x, x⟩⟩

/-- Claim C40: when the reason flags are non-zero, each of the six validators returns a zero
reason exactly when it returns an empty message list, and for the three validators that
`doOp` runs the test `reason == 0 && len(msgs) == 0` holds exactly when the reason is zero,
and exactly when there is no message. -/
theorem validators_reason_iff_messages (k : crypto.Consts) (hk : ReasonFlagsNonZero k)
    (args : crypto.reconcileArgs) :
    ((validateStorageClassAndVTPM k args).1 = 0 ↔ (validateStorageClassAndVTPM k args).2 = []) ∧
    ((validatePoweredOffNoSnapshots k args.moVM).1 = 0 ↔
      (validatePoweredOffNoSnapshots k args.moVM).2 = []) ∧
    ((validateDeviceChanges k args.configSpec).1 = 0 ↔
      (validateDeviceChanges k args.configSpec).2 = []) ∧
    ((validateEncrypt k args).1 = 0 ↔ (validateEncrypt k args).2 = []) ∧
    ((validateRecrypt k args).1 = 0 ↔ (validateRecrypt k args).2 = []) ∧
    ((validateUpdateEncrypted k args).1 = 0 ↔ (validateUpdateEncrypted k args).2 = []) ∧
    ((doOpSucceeds (validateEncrypt k args) = true ↔ (validateEncrypt k args).1 = 0) ∧
      (doOpSucceeds (validateEncrypt k args) = true ↔
        (validateEncrypt k args).2.length = 0)) ∧
    ((doOpSucceeds (validateRecrypt k args) = true ↔ (validateRecrypt k args).1 = 0) ∧
      (doOpSucceeds (validateRecrypt k args) = true ↔
        (validateRecrypt k args).2.length = 0)) ∧
    ((doOpSucceeds (validateUpdateEncrypted k args) = true ↔
        (validateUpdateEncrypted k args).1 = 0) ∧
      (doOpSucceeds (validateUpdateEncrypted k args) = true ↔
        (validateUpdateEncrypted k args).2.length = 0)) :=
  ⟨matches_validateStorageClassAndVTPM k hk args,
    matches_validatePoweredOffNoSnapshots k hk args.moVM,
    matches_validateDeviceChanges k hk args.configSpec,
    matches_validateEncrypt k hk args,
    matches_validateRecrypt k hk args,
    matches_validateUpdateEncrypted k hk args,
    doOpSucceeds_iff _ (matches_validateEncrypt k hk args),
    doOpSucceeds_iff _ (matches_validateRecrypt k hk args),
    doOpSucceeds_iff _ (matches_validateUpdateEncrypted k hk args)⟩

/-- Witness for C40: a powered-on VM without vTPM and encrypted storage class, whose
ConfigSpec adds an encrypted device that is not a disk and has no policy. -/
theorem validators_reason_iff_messages_witness :
    (validateEncrypt crypto.consts
        { moVM := { PowerState := "poweredOn" },
          configSpec :=
            { DeviceChange :=
                [some { Operation := "add", Device := some .Other,
                        Backing := some { Crypto := some .CryptoSpecEncrypt } }] } }).1 = 0 ↔
      (validateEncrypt crypto.consts
        { moVM := { PowerState := "poweredOn" },
          configSpec :=
            { DeviceChange :=
                [some { Operation := "add", Device := some .Other,
                        Backing := some { Crypto := some .CryptoSpecEncrypt } }] } }).2 = [] :=
  (validators_reason_iff_messages crypto.consts (by unfold ReasonFlagsNonZero; decide)
    { moVM := { PowerState := "poweredOn" },
      configSpec :=
        { DeviceChange :=
            [some { Operation := "add", Device := some .Other,
                    Backing := some { Crypto := some .CryptoSpecEncrypt } }] } }).2.2.2.1

end VMOperator
